import Mathlib

/-!
Shallow embedding of `mm.c` (segregated free-list allocator) and verification
of its specification claims.

The heap is modelled as a byte-addressed memory `Mem : Nat → Nat` together with
the allocator's global state (`brk` pointer of the heap primitive, its hard
limit, and the two anchor globals `heap_listp` / `seg_free_listp`).  All word
accesses of the C code (`GET`/`PUT` 32-bit, `GET_8B`/`PUT_8B` 64-bit) are
little-endian compositions of byte reads/writes.  The two unbounded list scans
(`insert_to_free_list`'s sorted scan and `find_fit`) take an explicit fuel
argument; every theorem about them assumes enough fuel for the list at hand.
Null pointers are modelled as address `0`; `size_t` arithmetic that can wrap is
taken modulo `2 ^ 64`.
-/

namespace MM

/-- Byte-addressed memory: each address holds one byte (reads normalise `% 256`). -/
def Mem : Type := Nat → Nat

/-- Store one byte. -/
def updB (m : Mem) (p b : Nat) : Mem := fun q => if q = p then b else m q

/-- Little-endian read of `n` bytes starting at `p`. -/
def readLE (m : Mem) : Nat → Nat → Nat
  | _, 0 => 0
  | p, n + 1 => m p % 256 + 256 * readLE m (p + 1) n

/-- Little-endian write of `n` bytes of `v` starting at `p`. -/
def writeLE : Mem → Nat → Nat → Nat → Mem
  | m, _, 0, _ => m
  | m, p, n + 1, v => writeLE (updB m p (v % 256)) (p + 1) n (v / 256)

/-- `memset(p, c, len)` (byte-wise). -/
def memset : Mem → Nat → Nat → Nat → Mem
  | m, _, _, 0 => m
  | m, p, c, len + 1 => memset (updB m p (c % 256)) (p + 1) c len

/-- `memcpy(dst, src, len)` as the forward byte copy. -/
def memcpy : Mem → Nat → Nat → Nat → Mem
  | m, _, _, 0 => m
  | m, d, s, len + 1 => memcpy (updB m d (m s % 256)) (d + 1) (s + 1) len

/-- Allocator state: the memory plus the globals of `mm.c` and of the heap
primitive (`mem_sbrk`). `heap_listp = 0` encodes the uninitialised state. -/
structure Heap where
  mem : Mem
  brk : Nat
  maxAddr : Nat
  heap_listp : Nat
  seg_free_listp : Nat

/-- `mem_sbrk(size)`: extend the heap, returning the old break, or fail. -/
def mem_sbrk (size : Nat) (s : Heap) : Option Nat × Heap :=
  if s.maxAddr < s.brk + size then (none, s)
  else (some s.brk, { s with brk := s.brk + size })

/-- `GET(p)`: read a 4-byte word. -/
def GET (m : Mem) (p : Nat) : Nat := readLE m p 4

/-- `PUT(p, val)`: write a 4-byte word. -/
def PUT (m : Mem) (p v : Nat) : Mem := writeLE m p 4 v

/-- `GET_8B(p)`: read an 8-byte word. -/
def GET_8B (m : Mem) (p : Nat) : Nat := readLE m p 8

/-- `PUT_8B(p, val)`: write an 8-byte word. -/
def PUT_8B (m : Mem) (p v : Nat) : Mem := writeLE m p 8 v

/-- `PACK(size, alloc) = size | alloc`. -/
def PACK (size alloc : Nat) : Nat := size ||| alloc

/-- `GET_SIZE(p) = GET(p) & ~0x7`: clear the three flag bits
(arithmetically, `GET p / 8 * 8`, which agrees with the mask on 32-bit values). -/
def GET_SIZE (m : Mem) (p : Nat) : Nat := GET m p / 8 * 8

/-- `GET_ALLOC(p) = GET(p) & 0x1`. -/
def GET_ALLOC (m : Mem) (p : Nat) : Nat := GET m p % 2

/-- `GET_PREV_ALLOC(p) = GET(p) & 0x2` (yields `0` or `2`, as in C). -/
def GET_PREV_ALLOC (m : Mem) (p : Nat) : Nat := GET m p / 2 % 2 * 2

/-- `HDRP(bp) = bp - WSIZE`. -/
def HDRP (bp : Nat) : Nat := bp - 4

/-- `FTRP(bp) = bp + GET_SIZE(HDRP(bp)) - DSIZE`. -/
def FTRP (m : Mem) (bp : Nat) : Nat := bp + GET_SIZE m (HDRP bp) - 8

/-- `NEXT_BLKP(bp) = bp + GET_SIZE(bp - WSIZE)`. -/
def NEXT_BLKP (m : Mem) (bp : Nat) : Nat := bp + GET_SIZE m (bp - 4)

/-- `PREV_BLKP(bp) = bp - GET_SIZE(bp - DSIZE)`. -/
def PREV_BLKP (m : Mem) (bp : Nat) : Nat := bp - GET_SIZE m (bp - 8)

/-- `GET_PREVP(p)`: first 8-byte link field of a free block. -/
def GET_PREVP (m : Mem) (p : Nat) : Nat := GET_8B m p

/-- `GET_NEXTP(p)`: second 8-byte link field of a free block. -/
def GET_NEXTP (m : Mem) (p : Nat) : Nat := GET_8B m (p + 8)

/-- `SET_PREVP(p, prev)`. -/
def SET_PREVP (m : Mem) (p v : Nat) : Mem := PUT_8B m p v

/-- `SET_NEXTP(p, val)`. -/
def SET_NEXTP (m : Mem) (p v : Nat) : Mem := PUT_8B m (p + 8) v

/-- The size-class index computed inside `get_root`. -/
def size_class (size : Nat) : Nat :=
  if size ≤ 32 then 0
  else if size ≤ 64 then 1
  else if size ≤ 128 then 2
  else if size ≤ 256 then 3
  else if size ≤ 512 then 4
  else if size ≤ 1024 then 5
  else if size ≤ 2048 then 6
  else if size ≤ 4096 then 7
  else if size ≤ 8192 then 8
  else 9

/-- `get_root(size) = seg_free_listp + i*DSIZE`. -/
def get_root (s : Heap) (size : Nat) : Nat :=
  s.seg_free_listp + size_class size * 8

/-- `remove_from_free_list(bp)`. -/
def remove_from_free_list (s : Heap) (bp : Nat) : Heap :=
  if bp = 0 ∨ GET_ALLOC s.mem (HDRP bp) ≠ 0 then s
  else
    let root := get_root s (GET_SIZE s.mem (HDRP bp))
    let prev := GET_PREVP s.mem bp
    let next := GET_NEXTP s.mem bp
    let m2 := SET_NEXTP (SET_PREVP s.mem bp 0) bp 0
    let m3 :=
      if prev = 0 ∧ next = 0 then PUT_8B m2 root 0
      else if prev ≠ 0 ∧ next = 0 then SET_NEXTP m2 prev 0
      else if prev = 0 ∧ next ≠ 0 then PUT_8B (SET_PREVP m2 next 0) root next
      else SET_NEXTP (SET_PREVP m2 next prev) prev next
    { s with mem := m3 }

/-- The sorted-position scan of `insert_to_free_list`
(`while (next != NULL) { if (GET_SIZE(HDRP(next)) >= size) break; ... }`). -/
def insert_scan (m : Mem) (size : Nat) : Nat → Nat → Nat → Nat × Nat
  | prev, next, 0 => (prev, next)
  | prev, next, fuel + 1 =>
    if next = 0 then (prev, next)
    else if size ≤ GET_SIZE m (HDRP next) then (prev, next)
    else insert_scan m size next (GET_NEXTP m next) fuel

/-- `insert_to_free_list(bp)`. -/
def insert_to_free_list (fuel : Nat) (s : Heap) (bp : Nat) : Heap :=
  if bp = 0 then s
  else
    let size := GET_SIZE s.mem (HDRP bp)
    let root := get_root s size
    let pn := insert_scan s.mem size root (GET_8B s.mem root) fuel
    let prev := pn.1
    let next := pn.2
    let m :=
      if prev = root ∧ next = 0 then
        SET_NEXTP (SET_PREVP (PUT_8B s.mem root bp) bp 0) bp next
      else if prev ≠ root ∧ next = 0 then
        SET_NEXTP (SET_NEXTP (SET_PREVP s.mem bp prev) bp next) prev bp
      else if prev = root ∧ next ≠ 0 then
        SET_PREVP (SET_NEXTP (SET_PREVP (PUT_8B s.mem root bp) bp 0) bp next) next bp
      else
        SET_PREVP (SET_NEXTP (SET_NEXTP (SET_PREVP s.mem bp prev) bp next) prev bp) next bp
    { s with mem := m }

/-- The inner list scan of `find_fit`. -/
def find_fit_scan (m : Mem) (asize : Nat) : Nat → Nat → Option Nat
  | _, 0 => none
  | bp, fuel + 1 =>
    if bp = 0 then none
    else if asize ≤ GET_SIZE m (HDRP bp) then some bp
    else find_fit_scan m asize (GET_NEXTP m bp) fuel

/-- The outer bucket loop of `find_fit`
(`while (root != (heap_listp - DSIZE)) { ... root += DSIZE; }`). -/
def find_fit_outer (s : Heap) (asize : Nat) : Nat → Nat → Option Nat
  | _, 0 => none
  | root, fuel + 1 =>
    if root = s.heap_listp - 8 then none
    else
      match find_fit_scan s.mem asize (GET_8B s.mem root) fuel with
      | some bp => some bp
      | none => find_fit_outer s asize (root + 8) fuel

/-- `find_fit(asize)`. -/
def find_fit (fuel : Nat) (s : Heap) (asize : Nat) : Option Nat :=
  find_fit_outer s asize (get_root s asize) fuel

/-- `coalesce(bp)`: returns the pointer to the coalesced block and the new state. -/
def coalesce (fuel : Nat) (s : Heap) (bp : Nat) : Nat × Heap :=
  let prev_alloc := GET_PREV_ALLOC s.mem (HDRP bp)
  let next_alloc := GET_ALLOC s.mem (HDRP (NEXT_BLKP s.mem bp))
  let size := GET_SIZE s.mem (HDRP bp)
  let prev_bp := PREV_BLKP s.mem bp
  let next_bp := NEXT_BLKP s.mem bp
  if prev_alloc ≠ 0 ∧ next_alloc ≠ 0 then
    (bp, insert_to_free_list fuel s bp)
  else if prev_alloc ≠ 0 ∧ next_alloc = 0 then
    let s1 := remove_from_free_list s next_bp
    let next_size := GET_SIZE s1.mem (HDRP (NEXT_BLKP s1.mem bp))
    let size2 := size + next_size
    let m1 := PUT s1.mem (HDRP bp) (PACK size2 2)
    let m2 := PUT m1 (FTRP m1 bp) (GET m1 (HDRP bp))
    (bp, insert_to_free_list fuel { s1 with mem := m2 } bp)
  else if prev_alloc = 0 ∧ next_alloc ≠ 0 then
    let s1 := remove_from_free_list s prev_bp
    let prev_size := GET_SIZE s1.mem (HDRP prev_bp)
    let size2 := size + prev_size
    let m1 := PUT s1.mem (HDRP prev_bp)
      (PACK size2 (GET_PREV_ALLOC s1.mem (HDRP prev_bp)))
    let m2 := PUT m1 (FTRP m1 prev_bp) (GET m1 (HDRP prev_bp))
    (prev_bp, insert_to_free_list fuel { s1 with mem := m2 } prev_bp)
  else
    let s1 := remove_from_free_list s prev_bp
    let s2 := remove_from_free_list s1 next_bp
    let prev_size := GET_SIZE s2.mem (HDRP prev_bp)
    let next_size := GET_SIZE s2.mem (HDRP next_bp)
    let size2 := size + prev_size + next_size
    let m1 := PUT s2.mem (HDRP prev_bp)
      (PACK size2 (GET_PREV_ALLOC s2.mem (HDRP prev_bp)))
    let m2 := PUT m1 (FTRP m1 prev_bp) (GET m1 (HDRP prev_bp))
    (prev_bp, insert_to_free_list fuel { s2 with mem := m2 } prev_bp)

/-- `place(bp, asize)`. -/
def place (fuel : Nat) (s : Heap) (bp asize : Nat) : Heap :=
  let csize := GET_SIZE s.mem (HDRP bp)
  let s1 := remove_from_free_list s bp
  let rsize := csize - asize
  if 24 ≤ rsize then
    let m1 := PUT s1.mem (HDRP bp)
      (PACK asize (GET_PREV_ALLOC s1.mem (HDRP bp) ||| 1))
    let new_bp := NEXT_BLKP m1 bp
    let m2 := PUT m1 (HDRP new_bp) (PACK rsize 2)
    let m3 := PUT m2 (FTRP m2 new_bp) (PACK rsize 2)
    let m4 := SET_NEXTP (SET_PREVP m3 new_bp 0) new_bp 0
    insert_to_free_list fuel { s1 with mem := m4 } new_bp
  else
    let m1 := PUT s1.mem (HDRP bp)
      (PACK csize (GET_PREV_ALLOC s1.mem (HDRP bp) ||| 1))
    let next_bp := NEXT_BLKP m1 bp
    let m2 := PUT m1 (HDRP next_bp) (GET m1 (HDRP next_bp) ||| 2)
    let m3 :=
      if GET_ALLOC m2 (HDRP next_bp) = 0
      then PUT m2 (FTRP m2 next_bp) (GET m2 (HDRP next_bp))
      else m2
    { s1 with mem := m3 }

/-- `extend_heap(words)`. -/
def extend_heap (fuel : Nat) (words : Nat) (s : Heap) : Option Nat × Heap :=
  let size := if words % 2 = 1 then (words + 1) * 4 else words * 4
  match mem_sbrk size s with
  | (none, s1) => (none, s1)
  | (some bp, s1) =>
    let m1 := PUT s1.mem (HDRP bp) (PACK size (GET_PREV_ALLOC s1.mem (HDRP bp)))
    let m2 := PUT m1 (FTRP m1 bp) (GET m1 (HDRP bp))
    let m3 := PUT m2 (HDRP (NEXT_BLKP m2 bp)) (PACK 0 1)
    let m4 := SET_NEXTP (SET_PREVP m3 bp 0) bp 0
    let r := coalesce fuel { s1 with mem := m4 } bp
    (some r.1, r.2)

/-- `mm_init()`: returns `0` on success, `-1` on error (on a failed first
`mem_sbrk` the C code leaves `heap_listp = (void * ) - 1`, modelled as
`2 ^ 64 - 1`). -/
def mm_init (fuel : Nat) (s : Heap) : Int × Heap :=
  match mem_sbrk 96 s with
  | (none, s1) => (-1, { s1 with heap_listp := 2 ^ 64 - 1 })
  | (some h, s1) =>
    let m0 := PUT_8B s1.mem h 0
    let m1 := PUT_8B m0 (h + 8) 0
    let m2 := PUT_8B m1 (h + 16) 0
    let m3 := PUT_8B m2 (h + 24) 0
    let m4 := PUT_8B m3 (h + 32) 0
    let m5 := PUT_8B m4 (h + 40) 0
    let m6 := PUT_8B m5 (h + 48) 0
    let m7 := PUT_8B m6 (h + 56) 0
    let m8 := PUT_8B m7 (h + 64) 0
    let m9 := PUT_8B m8 (h + 72) 0
    let m10 := PUT m9 (h + 80) 0
    let m11 := PUT m10 (h + 84) (PACK 8 1)
    let m12 := PUT m11 (h + 88) (PACK 8 1)
    let m13 := PUT m12 (h + 92) (PACK 0 3)
    let s2 := { s1 with mem := m13, seg_free_listp := h, heap_listp := h + 88 }
    match extend_heap fuel 1024 s2 with
    | (none, s3) => (-1, s3)
    | (some _, s3) => (0, s3)

/-- `align_request` (the `asize` computation of `malloc`, lines 410–413):
`size <= 2*DSIZE ? MINBLOCKSIZE : DSIZE * ((size + WSIZE + (DSIZE-1)) / DSIZE)`,
with the `size_t` addition taken modulo `2 ^ 64`. -/
def align_request (size : Nat) : Nat :=
  if size ≤ 16 then 24 else 8 * ((size + 4 + (8 - 1)) % 2 ^ 64 / 8)

/-- `malloc(size)`. -/
def malloc (fuel : Nat) (size : Nat) (s : Heap) : Option Nat × Heap :=
  let s0 := if s.heap_listp = 0 then (mm_init fuel s).2 else s
  if size = 0 then (none, s0)
  else
    let asize := align_request size
    match find_fit fuel s0 asize with
    | some bp => (some bp, place fuel s0 bp asize)
    | none =>
      let extendsize := max asize 4096
      match extend_heap fuel (extendsize / 4) s0 with
      | (none, s1) => (none, s1)
      | (some bp, s1) => (some bp, place fuel s1 bp asize)

/-- `free(bp)`. -/
def free (fuel : Nat) (s : Heap) (bp : Nat) : Heap :=
  if bp = 0 then s
  else
    let next_bp := NEXT_BLKP s.mem bp
    let m1 := PUT s.mem (HDRP bp)
      (GET_SIZE s.mem (HDRP bp) ||| GET_PREV_ALLOC s.mem (HDRP bp))
    let m2 := PUT m1 (FTRP m1 bp) (GET m1 (HDRP bp))
    let m3 := SET_NEXTP (SET_PREVP m2 bp 0) bp 0
    let m4 := PUT m3 (HDRP next_bp)
      (GET_SIZE m3 (HDRP next_bp) ||| GET_ALLOC m3 (HDRP next_bp))
    (coalesce fuel { s with mem := m4 } bp).2

/-- `realloc(oldptr, size)`; `SIZE_PTR(p) = p - 8` read as a 64-bit word. -/
def realloc (fuel : Nat) (oldptr size : Nat) (s : Heap) : Option Nat × Heap :=
  if size = 0 then (none, free fuel s oldptr)
  else if oldptr = 0 then malloc fuel size s
  else
    match malloc fuel size s with
    | (none, s1) => (none, s1)
    | (some newptr, s1) =>
      let oldsize := GET_8B s1.mem (oldptr - 8)
      let copy := if size < oldsize then size else oldsize
      let m1 := memcpy s1.mem newptr oldptr copy
      (some newptr, free fuel { s1 with mem := m1 } oldptr)

/-- `calloc(nmemb, size)`; on a failed `malloc` the C code passes the null
result straight to `memset`, i.e. writes at address `0`. -/
def calloc (fuel : Nat) (nmemb size : Nat) (s : Heap) : Option Nat × Heap :=
  let bytes := nmemb * size % 2 ^ 64
  match malloc fuel bytes s with
  | (none, s1) => (none, { s1 with mem := memset s1.mem 0 0 bytes })
  | (some newptr, s1) => (some newptr, { s1 with mem := memset s1.mem newptr 0 bytes })

/-! ### Concrete states used by witnesses and counterexamples -/

/-- An initialised state used to witness the trivial-input behaviour. -/
def wsC9 : Heap := ⟨fun _ => 0, 0, 0, 1, 0⟩

/-- A state used to witness the `remove_from_free_list` guard. -/
def wsC10 : Heap := ⟨fun _ => 0, 0, 0, 0, 0⟩

/-- An initialised heap whose ten bucket roots are empty and whose heap
primitive is exhausted (`brk = maxAddr`), so any `malloc` fails.  Byte `0`
holds `7` so that a write through a null pointer is observable. -/
def wsC1 : Heap := ⟨fun a => if a = 0 then 7 else 0, 200, 200, 96, 8⟩

/-- The heap reached by `mm_init` (heap base `1000`) followed by `malloc(20)`
(allocated block header `27` at `1092`, payload at `1096`, 20 usable payload
bytes), with the two client bytes `65`, `66` stored at the start of the
payload; bucket 7 holds the free remainder block at `1120` (header `4074` at
`1116`, footer at `5184`).  Written out byte-for-byte so that concrete
evaluation is cheap.  Used to witness the realloc claim. -/
def wsC2 : Heap :=
  ⟨fun a =>
    if a = 1056 then 96 else if a = 1057 then 4
    else if a = 1084 then 9 else if a = 1088 then 9
    else if a = 1092 then 27
    else if a = 1096 then 65 else if a = 1097 then 66
    else if a = 1116 then 234 else if a = 1117 then 15
    else if a = 5184 then 234 else if a = 5185 then 15
    else if a = 5188 then 1 else 0,
   5192, 100000, 1088, 1000⟩

/-! ### The segregated free lists as doubly linked chains -/

/-- A doubly-linked chain segment in memory `m`: starting at pointer `p`
(whose predecessor in the chain is `prv`), the chain spells exactly the
addresses `l` and then exits to `e` (the `next` link of the last node, or `p`
itself when `l` is empty). -/
def dllSeg (m : Mem) : Nat → Nat → List Nat → Nat → Prop
  | _, p, [], e => p = e
  | prv, p, a :: l, e =>
    p = a ∧ a ≠ 0 ∧ GET_PREVP m a = prv ∧ dllSeg m a (GET_NEXTP m a) l e

/-- A complete bucket chain: head pointer `p`, head's `prev` link `prv`
(null for a well-formed bucket), terminated by the null pointer. -/
def dll (m : Mem) (prv p : Nat) (l : List Nat) : Prop := dllSeg m prv p l 0

/-- The bucket of index `i` in state `s` spells the list `l`. -/
def bucketList (s : Heap) (i : Nat) (l : List Nat) : Prop :=
  dll s.mem 0 (GET_8B s.mem (s.seg_free_listp + i * 8)) l

/-- Separation of free-list nodes above the root array: every node `a` of `l`
is an address with `seg + 96 ≤ a < 2 ^ 64` (so its header word `[a-4, a)` and
link area `[a, a+16)` lie above the ten root cells and the prologue), and the
footprints `[a-4, a+16)` of distinct nodes are disjoint. -/
def nodesSep (seg : Nat) (l : List Nat) : Prop :=
  (∀ a ∈ l, seg + 96 ≤ a ∧ a < 2 ^ 64) ∧
  l.Pairwise (fun a b => a + 16 ≤ b - 4 ∨ b + 16 ≤ a - 4)

/-- Functional specification of the `find_fit` search: given the bucket
contents `L`, examine buckets `i, i+1, ...` (`n` of them), returning the first
element of the first bucket that contains a block of size `≥ asize`. -/
def ffSpec (m : Mem) (asize : Nat) (L : Nat → List Nat) : Nat → Nat → Option Nat
  | _, 0 => none
  | i, n + 1 =>
    match (L i).find? (fun a => decide (asize ≤ GET_SIZE m (HDRP a))) with
    | some b => some b
    | none => ffSpec m asize L (i + 1) n

/-- The same heap as `wsC2` (init at base `1000`, one allocated block at
`1096`, bucket 7 holding the free block at `1120`), duplicated for the
`find_fit` witness. -/
def wsC7 : Heap :=
  ⟨fun a =>
    if a = 1056 then 96 else if a = 1057 then 4
    else if a = 1084 then 9 else if a = 1088 then 9
    else if a = 1092 then 27
    else if a = 1096 then 65 else if a = 1097 then 66
    else if a = 1116 then 234 else if a = 1117 then 15
    else if a = 5184 then 234 else if a = 5185 then 15
    else if a = 5188 then 1 else 0,
   5192, 100000, 1088, 1000⟩

/-- The memory written by the split branch of `place(bp, asize)`, with the
block addresses resolved: `new_bp = NEXT_BLKP(bp) = bp + asize` and
`FTRP(new_bp) = bp + asize + rsize - 8` (proved in `C5_place`). -/
def placeSplitMem (s : Heap) (bp asize : Nat) : Mem :=
  let s1 := remove_from_free_list s bp
  let rsize := GET_SIZE s.mem (HDRP bp) - asize
  SET_NEXTP (SET_PREVP
    (PUT (PUT (PUT s1.mem (HDRP bp)
          (PACK asize (GET_PREV_ALLOC s1.mem (HDRP bp) ||| 1)))
        (HDRP (bp + asize)) (PACK rsize 2))
      (bp + asize + rsize - 8) (PACK rsize 2))
    (bp + asize) 0) (bp + asize) 0

/-- The same heap as `wsC2` (init at base `1000`, one allocated block at
`1096`, bucket 7 holding the free block at `1120` of size `4072`),
duplicated for the `place` witness. -/
def wsC5 : Heap :=
  ⟨fun a =>
    if a = 1056 then 96 else if a = 1057 then 4
    else if a = 1084 then 9 else if a = 1088 then 9
    else if a = 1092 then 27
    else if a = 1096 then 65 else if a = 1097 then 66
    else if a = 1116 then 234 else if a = 1117 then 15
    else if a = 5184 then 234 else if a = 5185 then 15
    else if a = 5188 then 1 else 0,
   5192, 100000, 1088, 1000⟩

/-- The memory written by case 2 of `coalesce(bp)` (next block free, previous
allocated) before the final insertion, with the block addresses resolved:
`next_bp = bp + size`, `FTRP(bp) = bp + size2 - 8` (proved in `C6_coalesce`). -/
def coalesceMem2 (s : Heap) (bp : Nat) : Mem :=
  let s1 := remove_from_free_list s (bp + GET_SIZE s.mem (HDRP bp))
  let size2 := GET_SIZE s.mem (HDRP bp)
    + GET_SIZE s.mem (HDRP (bp + GET_SIZE s.mem (HDRP bp)))
  let m1 := PUT s1.mem (HDRP bp) (PACK size2 2)
  PUT m1 (bp + size2 - 8) (GET m1 (HDRP bp))

/-- The memory written by case 3 of `coalesce(bp)` (previous block free, next
allocated) before the final insertion, addresses resolved
(`prev_bp = bp - GET_SIZE(bp-8)`, `FTRP(prev_bp) = prev_bp + size2 - 8`). -/
def coalesceMem3 (s : Heap) (bp : Nat) : Mem :=
  let prev_bp := bp - GET_SIZE s.mem (bp - 8)
  let s1 := remove_from_free_list s prev_bp
  let size2 := GET_SIZE s.mem (HDRP bp) + GET_SIZE s.mem (HDRP prev_bp)
  let m1 := PUT s1.mem (HDRP prev_bp)
    (PACK size2 (GET_PREV_ALLOC s.mem (HDRP prev_bp)))
  PUT m1 (prev_bp + size2 - 8) (GET m1 (HDRP prev_bp))

/-- The memory written by case 4 of `coalesce(bp)` (both neighbours free)
before the final insertion, addresses resolved. -/
def coalesceMem4 (s : Heap) (bp : Nat) : Mem :=
  let prev_bp := bp - GET_SIZE s.mem (bp - 8)
  let next_bp := bp + GET_SIZE s.mem (HDRP bp)
  let s2 := remove_from_free_list (remove_from_free_list s prev_bp) next_bp
  let size2 := GET_SIZE s.mem (HDRP bp) + GET_SIZE s.mem (HDRP prev_bp)
    + GET_SIZE s.mem (HDRP next_bp)
  let m1 := PUT s2.mem (HDRP prev_bp)
    (PACK size2 (GET_PREV_ALLOC s.mem (HDRP prev_bp)))
  PUT m1 (prev_bp + size2 - 8) (GET m1 (HDRP prev_bp))

/-- The heap `wsC5` at the instant `free` has reset bucket 7 (root cleared,
block at `1120` free with null links), i.e. the state in which `coalesce`
runs: both neighbours of `1120` are allocated.  Witness state for C6. -/
def wsC6 : Heap :=
  ⟨fun a =>
    if a = 1084 then 9 else if a = 1088 then 9
    else if a = 1092 then 27
    else if a = 1096 then 65 else if a = 1097 then 66
    else if a = 1116 then 234 else if a = 1117 then 15
    else if a = 5184 then 234 else if a = 5185 then 15
    else if a = 5188 then 1 else 0,
   5192, 100000, 1088, 1000⟩

/-! ### Memory primitives: frame and readback lemmas -/

theorem updB_self (m : Mem) (p b : Nat) : updB m p b p = b := by
  simp [updB]

theorem updB_ne (m : Mem) (p b a : Nat) (h : a ≠ p) : updB m p b a = m a := by
  simp [updB, h]

theorem writeLE_outside :
    ∀ (n : Nat) (m : Mem) (p v a : Nat), a < p ∨ p + n ≤ a → writeLE m p n v a = m a := by
  intro n
  induction n with
  | zero => intro m p v a _; rfl
  | succ n ih =>
    intro m p v a h
    show writeLE (updB m p (v % 256)) (p + 1) n (v / 256) a = m a
    rw [ih _ _ _ _ (by omega), updB_ne _ _ _ _ (by omega)]

theorem readLE_congr :
    ∀ (n : Nat) (m₁ m₂ : Mem) (p : Nat),
      (∀ j, j < n → m₁ (p + j) = m₂ (p + j)) → readLE m₁ p n = readLE m₂ p n := by
  intro n
  induction n with
  | zero => intro _ _ _ _; rfl
  | succ n ih =>
    intro m₁ m₂ p h
    show m₁ p % 256 + 256 * readLE m₁ (p + 1) n = m₂ p % 256 + 256 * readLE m₂ (p + 1) n
    have h0 := h 0 (by omega)
    rw [show p + 0 = p by omega] at h0
    rw [h0, ih m₁ m₂ (p + 1) (fun j hj => by
      have := h (j + 1) (by omega)
      rw [show p + (j + 1) = p + 1 + j by omega] at this
      exact this)]

theorem readLE_writeLE_disjoint (n : Nat) (m : Mem) (p v q k : Nat)
    (h : q + k ≤ p ∨ p + n ≤ q) : readLE (writeLE m p n v) q k = readLE m q k := by
  refine readLE_congr k _ _ q (fun j hj => ?_)
  exact writeLE_outside n m p v (q + j) (by omega)

theorem readLE_writeLE_self :
    ∀ (n : Nat) (m : Mem) (p v : Nat), readLE (writeLE m p n v) p n = v % 256 ^ n := by
  intro n
  induction n with
  | zero => intro m p v; simp [readLE, writeLE, Nat.mod_one]
  | succ n ih =>
    intro m p v
    have hbyte : writeLE (updB m p (v % 256)) (p + 1) n (v / 256) p = v % 256 := by
      rw [writeLE_outside _ _ _ _ _ (by omega), updB_self]
    show (writeLE (updB m p (v % 256)) (p + 1) n (v / 256)) p % 256 +
        256 * readLE (writeLE (updB m p (v % 256)) (p + 1) n (v / 256)) (p + 1) n
        = v % 256 ^ (n + 1)
    rw [hbyte, Nat.mod_mod_of_dvd v (dvd_refl 256), ih]
    rw [pow_succ, mul_comm (256 ^ n) 256, Nat.mod_mul]

theorem readLE_lt : ∀ (n : Nat) (m : Mem) (p : Nat), readLE m p n < 256 ^ n := by
  intro n
  induction n with
  | zero => intro m p; simp [readLE]
  | succ n ih =>
    intro m p
    show m p % 256 + 256 * readLE m (p + 1) n < 256 ^ (n + 1)
    have h1 : m p % 256 < 256 := Nat.mod_lt _ (by omega)
    have h2 := ih m (p + 1)
    have : 256 ^ (n + 1) = 256 * 256 ^ n := by rw [pow_succ, mul_comm]
    omega

theorem readLE_split (a b : Nat) :
    ∀ (m : Mem) (p : Nat), readLE m p (a + b) = readLE m p a + 256 ^ a * readLE m (p + a) b := by
  induction a with
  | zero => intro m p; simp [readLE]
  | succ a ih =>
    intro m p
    rw [show a + 1 + b = (a + b) + 1 by omega]
    simp only [readLE]
    rw [ih m (p + 1), show p + 1 + a = p + (a + 1) by omega, pow_succ]
    ring

theorem memset_outside :
    ∀ (len : Nat) (m : Mem) (p c a : Nat), a < p ∨ p + len ≤ a → memset m p c len a = m a := by
  intro len
  induction len with
  | zero => intro m p c a _; rfl
  | succ len ih =>
    intro m p c a h
    show memset (updB m p (c % 256)) (p + 1) c len a = m a
    rw [ih _ _ _ _ (by omega), updB_ne _ _ _ _ (by omega)]

theorem memset_inside :
    ∀ (len : Nat) (m : Mem) (p c a : Nat), p ≤ a → a < p + len → memset m p c len a = c % 256 := by
  intro len
  induction len with
  | zero => intro m p c a h1 h2; omega
  | succ len ih =>
    intro m p c a h1 h2
    show memset (updB m p (c % 256)) (p + 1) c len a = c % 256
    rcases Nat.eq_or_lt_of_le h1 with h | h
    · rw [memset_outside _ _ _ _ _ (by omega), ← h, updB_self]
    · exact ih _ _ _ _ (by omega) (by omega)

theorem memcpy_outside :
    ∀ (len : Nat) (m : Mem) (d s a : Nat), a < d ∨ d + len ≤ a → memcpy m d s len a = m a := by
  intro len
  induction len with
  | zero => intro m d s a _; rfl
  | succ len ih =>
    intro m d s a h
    show memcpy (updB m d (m s % 256)) (d + 1) (s + 1) len a = m a
    rw [ih _ _ _ _ (by omega), updB_ne _ _ _ _ (by omega)]

theorem memcpy_get :
    ∀ (len : Nat) (m : Mem) (d s i : Nat), i < len → (∀ j, j < i → d + j ≠ s + i) →
      memcpy m d s len (d + i) = m (s + i) % 256 := by
  intro len
  induction len with
  | zero => intro _ _ _ _ h; omega
  | succ len ih =>
    intro m d s i hi hsrc
    show memcpy (updB m d (m s % 256)) (d + 1) (s + 1) len (d + i) = m (s + i) % 256
    cases i with
    | zero =>
      rw [memcpy_outside _ _ _ _ _ (by omega)]
      show updB m d (m s % 256) (d + 0) = m (s + 0) % 256
      simp [updB_self]
    | succ i =>
      have step := ih (updB m d (m s % 256)) (d + 1) (s + 1) i (by omega)
        (fun j hj => by have := hsrc (j + 1) (by omega); omega)
      rw [show d + (i + 1) = d + 1 + i by omega, step,
        show s + 1 + i = s + (i + 1) by omega,
        updB_ne _ _ _ _ (by have := hsrc 0 (by omega); omega)]

/-! ### Word-level corollaries -/

theorem GET_PUT (m : Mem) (p v : Nat) : GET (PUT m p v) p = v % 4294967296 := by
  have := readLE_writeLE_self 4 m p v
  simpa [GET, PUT] using this

theorem GET_PUT_ne (m : Mem) (p v q : Nat) (h : q + 4 ≤ p ∨ p + 4 ≤ q) :
    GET (PUT m p v) q = GET m q := readLE_writeLE_disjoint 4 m p v q 4 h

theorem GET_8B_PUT_8B (m : Mem) (p v : Nat) :
    GET_8B (PUT_8B m p v) p = v % 18446744073709551616 := by
  have := readLE_writeLE_self 8 m p v
  simpa [GET_8B, PUT_8B] using this

theorem GET_8B_PUT_8B_ne (m : Mem) (p v q : Nat) (h : q + 8 ≤ p ∨ p + 8 ≤ q) :
    GET_8B (PUT_8B m p v) q = GET_8B m q := readLE_writeLE_disjoint 8 m p v q 8 h

theorem GET_PUT_8B_ne (m : Mem) (p v q : Nat) (h : q + 4 ≤ p ∨ p + 8 ≤ q) :
    GET (PUT_8B m p v) q = GET m q := readLE_writeLE_disjoint 8 m p v q 4 h

theorem GET_8B_PUT_ne (m : Mem) (p v q : Nat) (h : q + 8 ≤ p ∨ p + 4 ≤ q) :
    GET_8B (PUT m p v) q = GET_8B m q := readLE_writeLE_disjoint 4 m p v q 8 h

theorem GET_lt (m : Mem) (p : Nat) : GET m p < 4294967296 := by
  have := readLE_lt 4 m p
  simpa [GET] using this

/-- `GET_8B p` splits into the two 32-bit words at `p` and `p + 4`. -/
theorem GET_8B_split (m : Mem) (p : Nat) :
    GET_8B m p = GET m p + 4294967296 * GET m (p + 4) := by
  have := readLE_split 4 4 m p
  simpa [GET, GET_8B] using this

/-! ### Bit-packing bridges: `|||` as arithmetic on disjoint bit ranges -/

theorem lor_eq_add {i a b : Nat} (ha : a % 2 ^ i = 0) (hb : b < 2 ^ i) :
    a ||| b = a + b := by
  obtain ⟨k, hk⟩ : ∃ k, a = 2 ^ i * k :=
    ⟨a / 2 ^ i, by have := Nat.div_add_mod a (2 ^ i); omega⟩
  subst hk
  exact (Nat.mul_add_lt_is_or hb k).symm

theorem lor8_eq_add {a b : Nat} (ha : a % 8 = 0) (hb : b < 8) : a ||| b = a + b :=
  lor_eq_add (i := 3) (by omega) (by omega)

theorem PACK_eq_add {size alloc : Nat} (h : size % 8 = 0) (h2 : alloc < 8) :
    PACK size alloc = size + alloc := lor8_eq_add h h2

/-- Setting bit 1 (`x | 0b10`) arithmetically. -/
theorem lor_two (x : Nat) : x ||| 2 = 8 * (x / 8) + (x % 8 ||| 2) := by
  have hx : x = 8 * (x / 8) + x % 8 := by omega
  have h1 : 8 * (x / 8) ||| x % 8 = 8 * (x / 8) + x % 8 :=
    lor8_eq_add (by omega) (by omega)
  have h2 : (8 * (x / 8) ||| x % 8) ||| 2 = 8 * (x / 8) ||| (x % 8 ||| 2) :=
    Nat.lor_assoc _ _ _
  have h3 : x % 8 ||| 2 < 8 := by
    have : x % 8 < 2 ^ 3 := by omega
    have h2lt : 2 < 2 ^ 3 := by omega
    exact Nat.or_lt_two_pow this h2lt
  have h4 : 8 * (x / 8) ||| (x % 8 ||| 2) = 8 * (x / 8) + (x % 8 ||| 2) :=
    lor8_eq_add (by omega) h3
  calc x ||| 2 = (8 * (x / 8) + x % 8) ||| 2 := by rw [← hx]
    _ = (8 * (x / 8) ||| x % 8) ||| 2 := by rw [h1]
    _ = 8 * (x / 8) ||| (x % 8 ||| 2) := h2
    _ = 8 * (x / 8) + (x % 8 ||| 2) := h4

/-- Effect of `x | 0b10` on the three fields: size and alloc bit unchanged,
prev-alloc bit forced to `2`. -/
theorem lor_two_fields (x : Nat) :
    (x ||| 2) / 8 * 8 = x / 8 * 8 ∧ (x ||| 2) % 2 = x % 2 ∧ (x ||| 2) / 2 % 2 * 2 = 2 := by
  rw [lor_two x]
  have h8 : x % 8 < 8 := by omega
  have hval : x % 8 ||| 2 = 4 * (x % 8 / 4) + 2 + x % 8 % 2 := by
    generalize hg : x % 8 = r at h8 ⊢
    interval_cases r <;> decide
  rw [hval]
  refine ⟨?_, ?_, ?_⟩ <;> omega

/-! ### Claim C8: the adjusted block size computed by malloc -/

/-- C8 (counterexample): the claim fails for `size = 2 ^ 64 - 5`.  The `size_t`
addition `size + WSIZE + (DSIZE-1)` wraps, so `malloc` computes `asize = 0`,
which is not `≥ size + 4`. -/
theorem C8_counterexample :
    0 < 18446744073709551611 ∧
    align_request 18446744073709551611 = 0 ∧
    ¬ (18446744073709551611 + 4 ≤ align_request 18446744073709551611 ∧
       24 ≤ align_request 18446744073709551611) := by
  refine ⟨by norm_num, by decide, ?_⟩
  rw [show align_request 18446744073709551611 = 0 from by decide]
  omega

/-- C8 (amended): for every `size > 0` such that `size + 11` does not overflow
`size_t`, the adjusted size `asize` computed by `malloc` is the smallest
multiple of 8 that is both `≥ size + 4` and `≥ 24`; equivalently it is `24`
for `size ≤ 16` and `8 * ceil((size + 4) / 8)` otherwise. -/
theorem C8_align_request (size : Nat) (h1 : 0 < size) (h2 : size + 11 < 2 ^ 64) :
    align_request size % 8 = 0 ∧
    size + 4 ≤ align_request size ∧
    24 ≤ align_request size ∧
    (∀ m, m % 8 = 0 → size + 4 ≤ m → 24 ≤ m → align_request size ≤ m) ∧
    align_request size = if size ≤ 16 then 24 else 8 * ((size + 4 + 7) / 8) := by
  have hA : align_request size = if size ≤ 16 then 24 else 8 * ((size + 11) / 8) := by
    unfold align_request
    rw [Nat.mod_eq_of_lt (show size + 4 + (8 - 1) < 2 ^ 64 by omega)]
  by_cases hc : size ≤ 16
  · rw [if_pos hc] at hA
    refine ⟨by omega, by omega, by omega, fun m hm h4 h24 => by omega, ?_⟩
    rw [hA, if_pos hc]
  · rw [if_neg hc] at hA
    refine ⟨by omega, by omega, by omega, fun m hm h4 h24 => by omega, ?_⟩
    rw [hA, if_neg hc]

/-- C8 witness at `size = 100`. -/
theorem C8_align_request_witness :
    0 < 100 ∧ 100 + 11 < 2 ^ 64 ∧
    (align_request 100 % 8 = 0 ∧
     100 + 4 ≤ align_request 100 ∧
     24 ≤ align_request 100 ∧
     (∀ m, m % 8 = 0 → 100 + 4 ≤ m → 24 ≤ m → align_request 100 ≤ m) ∧
     align_request 100 = if 100 ≤ 16 then 24 else 8 * ((100 + 4 + 7) / 8)) :=
  ⟨by norm_num, by norm_num, C8_align_request 100 (by norm_num) (by norm_num)⟩

/-! ### Claim C9: trivial inputs -/

/-- C9: in any initialised state (`heap_listp ≠ 0`), `malloc(0)` returns null
and leaves the state unchanged, `free(NULL)` is a no-op, `realloc(p, 0)` frees
`p` and returns null, and `realloc(NULL, n)` behaves exactly as `malloc(n)`. -/
theorem C9_trivial_inputs (fuel : Nat) (s : Heap) (h : s.heap_listp ≠ 0) :
    malloc fuel 0 s = (none, s) ∧
    free fuel s 0 = s ∧
    (∀ p, realloc fuel p 0 s = (none, free fuel s p)) ∧
    (∀ n, realloc fuel 0 n s = malloc fuel n s) := by
  refine ⟨?_, ?_, ?_, ?_⟩
  · simp [malloc, h]
  · simp [free]
  · intro p; simp [realloc]
  · intro n
    by_cases hn : n = 0
    · subst hn; simp [realloc, malloc, free, h]
    · simp [realloc, hn]

/-- C9 witness on a concrete initialised state. -/
theorem C9_trivial_inputs_witness :
    malloc 5 0 wsC9 = (none, wsC9) ∧
    free 5 wsC9 0 = wsC9 ∧
    realloc 5 7 0 wsC9 = (none, free 5 wsC9 7) ∧
    realloc 5 0 3 wsC9 = malloc 5 3 wsC9 :=
  ⟨(C9_trivial_inputs 5 wsC9 (by decide)).1,
   (C9_trivial_inputs 5 wsC9 (by decide)).2.1,
   (C9_trivial_inputs 5 wsC9 (by decide)).2.2.1 7,
   (C9_trivial_inputs 5 wsC9 (by decide)).2.2.2 3⟩

/-! ### Claim C10: the guard of remove_from_free_list -/

/-- C10: calling `remove_from_free_list` with a null pointer, or with a block
whose header's self-alloc bit is set, leaves the entire state (memory — hence
all headers, footers, link fields and the ten root cells — and all globals)
unchanged. -/
theorem C10_remove_guard (s : Heap) (bp : Nat)
    (h : bp = 0 ∨ GET_ALLOC s.mem (HDRP bp) ≠ 0) :
    remove_from_free_list s bp = s := by
  unfold remove_from_free_list
  rw [if_pos h]

/-- C10 witness: null pointer. -/
theorem C10_remove_guard_witness :
    remove_from_free_list wsC10 0 = wsC10 :=
  C10_remove_guard wsC10 0 (Or.inl rfl)

/-! ### Claim C1: calloc on out-of-memory -/

/-- C1: on the failing input `calloc(1, 1)` in an exhausted heap, `calloc`
does return null, but — contrary to the claim and the spec — it writes
memory: the C code passes the null `malloc` result straight to
`memset(NULL, 0, 1)`, which zeroes the byte at address `0` (byte `0` of the
state holds `7` before the call and `0` after). -/
theorem C1_calloc_oom_writes :
    (calloc 20 1 1 wsC1).1 = none ∧
    wsC1.mem 0 = 7 ∧
    (calloc 20 1 1 wsC1).2.mem 0 = 0 := by
  refine ⟨by decide, by decide, by decide⟩

/-! ### Claim C2: realloc -/

/-- A failed `extend_heap` (the heap primitive refuses) leaves the state
unchanged. -/
theorem extend_heap_frame (fuel w : Nat) (s : Heap) :
    (extend_heap fuel w s).1 = none → (extend_heap fuel w s).2 = s := by
  unfold extend_heap mem_sbrk
  by_cases hc : s.maxAddr < s.brk + (if w % 2 = 1 then (w + 1) * 4 else w * 4)
  · simp [hc]
  · simp [hc]

/-- A failed `malloc` in an initialised state leaves the state unchanged. -/
theorem malloc_none_frame (fuel sz : Nat) (s : Heap) (h : s.heap_listp ≠ 0) :
    (malloc fuel sz s).1 = none → (malloc fuel sz s).2 = s := by
  intro hnone
  unfold malloc at hnone ⊢
  rw [if_neg h] at hnone ⊢
  by_cases h0 : sz = 0
  · simp [h0]
  · rw [if_neg h0] at hnone ⊢
    rcases hf : find_fit fuel s (align_request sz) with _ | bp
    · rcases hext : extend_heap fuel (max (align_request sz) 4096 / 4) s with ⟨eo, s'⟩
      rcases eo with _ | bp'
      · have hfr := extend_heap_frame fuel (max (align_request sz) 4096 / 4) s
        rw [hext] at hfr
        simp only [hf, hext] at hnone ⊢
        exact hfr rfl
      · simp only [hf, hext] at hnone
        simp at hnone
    · simp only [hf] at hnone
      simp at hnone

/-- C2: behaviour of `realloc(p, s)` for `p ≠ 0`, `s > 0` in an initialised
state.
* If the internal `malloc` fails, `realloc` returns null and the entire state
  — in particular the old block's header, flags and payload — is unchanged.
* If the internal `malloc` returns `q`, then (under the frame facts that hold
  in any well-formed heap: the old block `p` is allocated and its payload bytes
  are genuine bytes untouched by the `malloc`, the payloads of `p` and `q` do
  not overlap, and the subsequent `free(p)` does not touch `q`'s payload) the
  first `min(s, old_payload_bytes)` bytes at `q` equal the bytes that were at
  `p` before the call.  Note the copy length the code computes from the 64-bit
  read at `p - 8` is always at least that minimum, because the high 32 bits of
  that word are the old block's header, whose alloc bit is set. -/
theorem C2_realloc_preserves (fuel sz p : Nat) (s0 : Heap)
    (hinit : s0.heap_listp ≠ 0) (hp : p ≠ 0) (hp8 : 8 ≤ p) (hsz : 0 < sz) :
    ((malloc fuel sz s0).1 = none → realloc fuel p sz s0 = (none, s0)) ∧
    (∀ q, (malloc fuel sz s0).1 = some q →
      ∀ K copyLen : Nat,
      K = min sz (GET_SIZE s0.mem (HDRP p) - 4) →
      copyLen = (if sz < GET_8B (malloc fuel sz s0).2.mem (p - 8) then sz
                 else GET_8B (malloc fuel sz s0).2.mem (p - 8)) →
      GET_ALLOC (malloc fuel sz s0).2.mem (HDRP p) = 1 →
      (∀ i, i < K → (malloc fuel sz s0).2.mem (p + i) = s0.mem (p + i)) →
      (∀ i, i < K → s0.mem (p + i) < 256) →
      (q ≤ p ∨ p + K ≤ q) →
      (∀ i, i < K →
        (free fuel { (malloc fuel sz s0).2 with
            mem := memcpy (malloc fuel sz s0).2.mem q p copyLen } p).mem (q + i)
          = memcpy (malloc fuel sz s0).2.mem q p copyLen (q + i)) →
      realloc fuel p sz s0
        = (some q, free fuel { (malloc fuel sz s0).2 with
            mem := memcpy (malloc fuel sz s0).2.mem q p copyLen } p) ∧
      (∀ i, i < K → (realloc fuel p sz s0).2.mem (q + i) = s0.mem (p + i))) := by
  constructor
  · intro hnone
    have hpair : malloc fuel sz s0 = (none, s0) := by
      have h2 := malloc_none_frame fuel sz s0 hinit hnone
      have he := Prod.mk.eta (p := malloc fuel sz s0)
      rw [hnone, h2] at he
      exact he.symm
    unfold realloc
    rw [if_neg (by omega : ¬ sz = 0), if_neg hp, hpair]
  · intro q hq K copyLen hK hcopy halloc hframe hbytes hdisj hfree
    set s1 := (malloc fuel sz s0).2 with hs1
    have hm : malloc fuel sz s0 = (some q, s1) := by
      have he := Prod.mk.eta (p := malloc fuel sz s0)
      rw [hq, ← hs1] at he
      exact he.symm
    have hKcopy : K ≤ copyLen := by
      have hsplit := GET_8B_split s1.mem (p - 8)
      rw [show p - 8 + 4 = p - 4 from by omega] at hsplit
      have hlt := GET_lt s0.mem (HDRP p)
      have hKlt : K < 4294967296 := by
        have hsle : GET_SIZE s0.mem (HDRP p) ≤ GET s0.mem (HDRP p) := by
          unfold GET_SIZE; omega
        omega
      have hge1 : 1 ≤ GET s1.mem (p - 4) := by
        unfold GET_ALLOC HDRP at halloc
        omega
      have hbig : 4294967296 ≤ GET_8B s1.mem (p - 8) := by
        rw [hsplit]
        nlinarith [Nat.zero_le (GET s1.mem (p - 8))]
      rcases lt_or_ge sz (GET_8B s1.mem (p - 8)) with hc | hc
      · rw [hcopy, if_pos hc]; omega
      · rw [hcopy, if_neg (by omega)]; omega
    have hcpbytes : ∀ i, i < K →
        memcpy s1.mem q p copyLen (q + i) = s0.mem (p + i) := by
      intro i hi
      have hcond : ∀ j, j < i → q + j ≠ p + i := by
        intro j hj
        rcases hdisj with hd | hd <;> omega
      rw [memcpy_get copyLen _ q p i (by omega) hcond, hframe i hi,
        Nat.mod_eq_of_lt (hbytes i hi)]
    have hre : realloc fuel p sz s0
        = (some q, free fuel { s1 with mem := memcpy s1.mem q p copyLen } p) := by
      unfold realloc
      rw [if_neg (by omega : ¬ sz = 0), if_neg hp, hm]
      dsimp only
      rw [← hcopy]
    refine ⟨hre, fun i hi => ?_⟩
    rw [hre]
    exact (hfree i hi).trans (hcpbytes i hi)

/-- C2 witness: in the concrete heap `wsC2`, `realloc(1096, 2)` allocates the
block at `1120` and the two payload bytes `65`, `66` are preserved. -/
theorem C2_realloc_preserves_witness :
    realloc 50 1096 2 wsC2
      = (some 1120, free 50 { (malloc 50 2 wsC2).2 with
          mem := memcpy (malloc 50 2 wsC2).2.mem 1120 1096 2 } 1096) ∧
    (∀ i, i < 2 → (realloc 50 1096 2 wsC2).2.mem (1120 + i) = wsC2.mem (1096 + i)) :=
  (C2_realloc_preserves 50 2 1096 wsC2 (by decide) (by decide) (by decide)
      (by decide)).2
    1120 (by decide) 2 2 (by decide) (by decide) (by decide)
    (by decide) (by decide) (by decide) (by decide)

/-! ### Doubly-linked chain lemmas -/

theorem getLastD_irrel :
    ∀ (l : List Nat) (d d' : Nat), l ≠ [] → l.getLastD d = l.getLastD d' := by
  intro l d d' h
  rcases l with _ | ⟨a, t⟩
  · exact absurd rfl h
  · rw [List.getLastD_cons d a t, List.getLastD_cons d' a t]

theorem getLastD_mem :
    ∀ (l : List Nat) (d : Nat), l ≠ [] → l.getLastD d ∈ l := by
  intro l
  induction l with
  | nil => intro d h; exact absurd rfl h
  | cons a l ih =>
    intro d _
    rcases l with _ | ⟨b, t⟩
    · simp
    · rw [List.getLastD_cons]
      exact List.mem_cons_of_mem a (ih a (by simp))

theorem dllSeg_congr (m m' : Mem) :
    ∀ (l : List Nat) (prv p e : Nat),
      (∀ a ∈ l, GET_PREVP m' a = GET_PREVP m a ∧ GET_NEXTP m' a = GET_NEXTP m a) →
      dllSeg m prv p l e → dllSeg m' prv p l e := by
  intro l
  induction l with
  | nil => intro prv p e _ h; exact h
  | cons a l ih =>
    intro prv p e hmem h
    obtain ⟨hpa, ha0, hprev, htail⟩ := h
    have hm := hmem a (by simp)
    refine ⟨hpa, ha0, by rw [hm.1]; exact hprev, ?_⟩
    rw [hm.2]
    exact ih a (GET_NEXTP m a) e (fun b hb => hmem b (by simp [hb])) htail

theorem dllSeg_append_iff (m : Mem) :
    ∀ (A B : List Nat) (prv p e : Nat),
      dllSeg m prv p (A ++ B) e ↔
        ∃ q, dllSeg m prv p A q ∧ dllSeg m (A.getLastD prv) q B e := by
  intro A
  induction A with
  | nil =>
    intro B prv p e
    constructor
    · intro h
      exact ⟨p, rfl, h⟩
    · rintro ⟨q, hq, h⟩
      have hq' : p = q := hq
      subst hq'
      exact h
  | cons a A ih =>
    intro B prv p e
    constructor
    · rintro ⟨hpa, ha0, hprev, htail⟩
      obtain ⟨q, h1, h2⟩ := (ih B a (GET_NEXTP m a) e).1 htail
      refine ⟨q, ⟨hpa, ha0, hprev, h1⟩, ?_⟩
      rwa [List.getLastD_cons]
    · rintro ⟨q, ⟨hpa, ha0, hprev, h1⟩, h2⟩
      refine ⟨hpa, ha0, hprev, ?_⟩
      exact (ih B a (GET_NEXTP m a) e).2 ⟨q, h1, by rwa [List.getLastD_cons] at h2⟩

/-- Rewriting the exit pointer of a nonempty chain segment: if only the `next`
link of the last node changes (to `q'`), the segment spells the same list with
the new exit. -/
theorem dllSeg_retarget (m m' : Mem) :
    ∀ (A : List Nat) (prv p q q' w : Nat),
      A ≠ [] → A.Nodup → w = A.getLastD 0 →
      dllSeg m prv p A q →
      (∀ a ∈ A, GET_PREVP m' a = GET_PREVP m a) →
      (∀ a ∈ A, a ≠ w → GET_NEXTP m' a = GET_NEXTP m a) →
      GET_NEXTP m' w = q' →
      dllSeg m' prv p A q' := by
  intro A
  induction A with
  | nil => intro prv p q q' w hne; exact absurd rfl hne
  | cons a A ih =>
    intro prv p q q' w hne hnd hw h hprev hnext hwq
    obtain ⟨hpa, ha0, hpr, htail⟩ := h
    rcases A with _ | ⟨b, A'⟩
    · -- singleton: the last node is `a` itself
      have hwa : w = a := by simpa using hw
      refine ⟨hpa, ha0, by rw [hprev a (by simp)]; exact hpr, ?_⟩
      show GET_NEXTP m' a = q'
      rw [← hwa]
      exact hwq
    · have hw' : w = (b :: A').getLastD 0 := by
        rw [hw, List.getLastD_cons]
        exact getLastD_irrel (b :: A') a 0 (by simp)
      have haw : a ≠ w := by
        intro hcon
        have hwmem : w ∈ b :: A' := by
          rw [hw']; exact getLastD_mem (b :: A') 0 (by simp)
        rw [hcon] at hnd
        exact (List.nodup_cons.1 hnd).1 hwmem
      refine ⟨hpa, ha0, by rw [hprev a (by simp)]; exact hpr, ?_⟩
      rw [hnext a (by simp) haw]
      exact ih a (GET_NEXTP m a) q q' w (by simp) (List.nodup_cons.1 hnd).2 hw' htail
        (fun x hx => hprev x (by simp [hx]))
        (fun x hx hxw => hnext x (by simp [hx]) hxw) hwq

theorem dllSeg_nodes_ne_zero (m : Mem) :
    ∀ (l : List Nat) (prv p e : Nat), dllSeg m prv p l e → ∀ a ∈ l, a ≠ 0 := by
  intro l
  induction l with
  | nil => intro _ _ _ _ a ha; simp at ha
  | cons b l ih =>
    intro prv p e h a ha
    obtain ⟨_, hb0, _, htail⟩ := h
    rcases List.mem_cons.1 ha with rfl | ha'
    · exact hb0
    · exact ih b (GET_NEXTP m b) e htail a ha'

/-! ### Claim C7: find_fit -/

/-- The inner list scan of `find_fit` returns the first chain node of size
`≥ asize`. -/
theorem find_fit_scan_spec (m : Mem) (asize : Nat) :
    ∀ (l : List Nat) (prv p fuel : Nat),
      dllSeg m prv p l 0 →
      l.length < fuel →
      find_fit_scan m asize p fuel
        = l.find? (fun a => decide (asize ≤ GET_SIZE m (HDRP a))) := by
  intro l
  induction l with
  | nil =>
    intro prv p fuel h hf
    have hp : p = 0 := h
    subst hp
    rcases fuel with _ | f
    · omega
    · simp [find_fit_scan]
  | cons a l ih =>
    intro prv p fuel h hf
    obtain ⟨hpa, ha0, hprev, htail⟩ := h
    rw [hpa]
    rcases fuel with _ | f
    · omega
    · show (if a = 0 then none
        else if asize ≤ GET_SIZE m (HDRP a) then some a
        else find_fit_scan m asize (GET_NEXTP m a) f) = _
      rw [if_neg ha0]
      by_cases hc : asize ≤ GET_SIZE m (HDRP a)
      · rw [if_pos hc, List.find?_cons_of_pos _ (by simp [hc])]
      · rw [if_neg hc, List.find?_cons_of_neg _ (by simp [hc])]
        exact ih a (GET_NEXTP m a) f htail (by simp at hf; omega)

/-- The outer bucket loop of `find_fit` follows `ffSpec`. -/
theorem find_fit_outer_spec (s : Heap) (asize : Nat) (L : Nat → List Nat)
    (hheap : s.heap_listp = s.seg_free_listp + 88) :
    ∀ (n i f : Nat), i + n = 10 →
      (∀ k, i ≤ k → k ≤ 9 →
        dllSeg s.mem 0 (GET_8B s.mem (s.seg_free_listp + k * 8)) (L k) 0) →
      (∀ k, i ≤ k → k ≤ 9 → (L k).length + n < f) →
      find_fit_outer s asize (s.seg_free_listp + i * 8) f
        = ffSpec s.mem asize L i n := by
  intro n
  induction n with
  | zero =>
    intro i f h10 _ _
    rcases f with _ | f
    · rfl
    · show (if s.seg_free_listp + i * 8 = s.heap_listp - 8 then none else _) = none
      rw [if_pos (by rw [hheap]; omega)]
  | succ n ihn =>
    intro i f h10 hdll hf
    have hi9 : i ≤ 9 := by omega
    rcases f with _ | f
    · exfalso
      have := hf i le_rfl hi9
      omega
    · show (if s.seg_free_listp + i * 8 = s.heap_listp - 8 then none
        else match find_fit_scan s.mem asize
            (GET_8B s.mem (s.seg_free_listp + i * 8)) f with
          | some bp => some bp
          | none => find_fit_outer s asize (s.seg_free_listp + i * 8 + 8) f) = _
      rw [if_neg (by rw [hheap]; omega)]
      rw [find_fit_scan_spec s.mem asize (L i) 0 _ f (hdll i le_rfl hi9)
        (by have := hf i le_rfl hi9; omega)]
      show _ = ffSpec s.mem asize L i (n + 1)
      unfold ffSpec
      rcases hfind : (L i).find?
          (fun a => decide (asize ≤ GET_SIZE s.mem (HDRP a))) with _ | b
      · show find_fit_outer s asize (s.seg_free_listp + i * 8 + 8) f = _
        rw [show s.seg_free_listp + i * 8 + 8 = s.seg_free_listp + (i + 1) * 8 by ring]
        exact ihn (i + 1) f (by omega) (fun k hk hk9 => hdll k (by omega) hk9)
          (fun k hk hk9 => by have := hf k (by omega) hk9; omega)
      · rfl

/-- In a size-sorted list the first fitting element is a smallest fitting
element. -/
theorem find_first_fit_min (m : Mem) (asize : Nat) :
    ∀ (l : List Nat) (b : Nat),
      l.Pairwise (fun a c => GET_SIZE m (HDRP a) ≤ GET_SIZE m (HDRP c)) →
      l.find? (fun a => decide (asize ≤ GET_SIZE m (HDRP a))) = some b →
      b ∈ l ∧ asize ≤ GET_SIZE m (HDRP b) ∧
        ∀ c ∈ l, asize ≤ GET_SIZE m (HDRP c) →
          GET_SIZE m (HDRP b) ≤ GET_SIZE m (HDRP c) := by
  intro l
  induction l with
  | nil => intro b _ hfind; simp at hfind
  | cons a l ih =>
    intro b hsort hfind
    by_cases hc : asize ≤ GET_SIZE m (HDRP a)
    · rw [List.find?_cons_of_pos _ (by simp [hc])] at hfind
      obtain rfl : a = b := by simpa using hfind
      refine ⟨by simp, hc, ?_⟩
      intro c hcmem _
      rcases List.mem_cons.1 hcmem with rfl | hcmem'
      · exact le_rfl
      · exact (List.pairwise_cons.1 hsort).1 c hcmem'
    · rw [List.find?_cons_of_neg _ (by simp [hc])] at hfind
      obtain ⟨hmem, hfit, hmin⟩ := ih b (List.pairwise_cons.1 hsort).2 hfind
      refine ⟨List.mem_cons_of_mem a hmem, hfit, ?_⟩
      intro c hcmem hcfit
      rcases List.mem_cons.1 hcmem with rfl | hcmem'
      · exact absurd hcfit hc
      · exact hmin c hcmem' hcfit

/-- C7: `find_fit(asize)` starts at the bucket determined by `asize`
(`size_class asize`), returns the first block of size `≥ asize` in that
bucket's list, otherwise advances through the successive buckets, and returns
the null sentinel once the root cursor passes the tenth root — it never
examines a bucket below `size_class asize` (the search is exactly `ffSpec`
over buckets `size_class asize .. 9`).  Moreover, in any size-sorted bucket
the first fitting block is a smallest fitting block of that bucket. -/
theorem C7_find_fit (fuel asize : Nat) (s : Heap) (L : Nat → List Nat)
    (hheap : s.heap_listp = s.seg_free_listp + 88)
    (hdll : ∀ k, size_class asize ≤ k → k ≤ 9 →
      dllSeg s.mem 0 (GET_8B s.mem (s.seg_free_listp + k * 8)) (L k) 0)
    (hfuel : ∀ k, size_class asize ≤ k → k ≤ 9 → (L k).length + 10 < fuel) :
    find_fit fuel s asize
      = ffSpec s.mem asize L (size_class asize) (10 - size_class asize) ∧
    (∀ k b, (L k).Pairwise
        (fun a c => GET_SIZE s.mem (HDRP a) ≤ GET_SIZE s.mem (HDRP c)) →
      (L k).find? (fun a => decide (asize ≤ GET_SIZE s.mem (HDRP a))) = some b →
      b ∈ L k ∧ asize ≤ GET_SIZE s.mem (HDRP b) ∧
        ∀ c ∈ L k, asize ≤ GET_SIZE s.mem (HDRP c) →
          GET_SIZE s.mem (HDRP b) ≤ GET_SIZE s.mem (HDRP c)) := by
  have hcls : size_class asize ≤ 9 := by
    unfold size_class
    repeat' split
    all_goals omega
  constructor
  · show find_fit_outer s asize (get_root s asize) fuel = _
    have hroot : get_root s asize = s.seg_free_listp + size_class asize * 8 := by
      unfold get_root
      ring
    rw [hroot]
    exact find_fit_outer_spec s asize L hheap (10 - size_class asize)
      (size_class asize) fuel (by omega) hdll
      (fun k hk hk9 => by have := hfuel k hk hk9; omega)
  · intro k b hsort hfind
    exact find_first_fit_min s.mem asize (L k) b hsort hfind

theorem dllSeg_nil_intro (m : Mem) (prv p : Nat) (h : p = 0) : dllSeg m prv p [] 0 := h

/-- C7 witness: in the concrete heap `wsC7` (bucket 7 = `[1120]`, all other
buckets empty), `find_fit(24)` follows `ffSpec` from bucket 0. -/
theorem C7_find_fit_witness :
    find_fit 30 wsC7 24
      = ffSpec wsC7.mem 24 (fun k => if k = 7 then [1120] else [])
          (size_class 24) (10 - size_class 24) := by
  refine (C7_find_fit 30 24 wsC7 (fun k => if k = 7 then [1120] else [])
    (by decide) ?_ ?_).1
  · intro k hk hk9
    interval_cases k
    · exact dllSeg_nil_intro _ _ _ (by decide)
    · exact dllSeg_nil_intro _ _ _ (by decide)
    · exact dllSeg_nil_intro _ _ _ (by decide)
    · exact dllSeg_nil_intro _ _ _ (by decide)
    · exact dllSeg_nil_intro _ _ _ (by decide)
    · exact dllSeg_nil_intro _ _ _ (by decide)
    · exact dllSeg_nil_intro _ _ _ (by decide)
    · exact ⟨by decide, by decide, by decide, dllSeg_nil_intro _ _ _ (by decide)⟩
    · exact dllSeg_nil_intro _ _ _ (by decide)
    · exact dllSeg_nil_intro _ _ _ (by decide)
  · intro k hk hk9
    show (if k = 7 then [1120] else []).length + 10 < 30
    by_cases h7 : k = 7
    · rw [if_pos h7]; decide
    · rw [if_neg h7]; decide

/-! ### remove_from_free_list: full correctness on a well-formed bucket -/

theorem size_class_le9 (n : Nat) : size_class n ≤ 9 := by
  unfold size_class
  repeat' split
  all_goals omega

/-- Unfolding of `remove_from_free_list` when the guard passes. -/
theorem remove_eq (s : Heap) (bp : Nat) (h0 : bp ≠ 0)
    (h1 : GET_ALLOC s.mem (HDRP bp) = 0) :
    remove_from_free_list s bp =
      { s with mem :=
        let root := get_root s (GET_SIZE s.mem (HDRP bp))
        let prev := GET_PREVP s.mem bp
        let next := GET_NEXTP s.mem bp
        let m2 := SET_NEXTP (SET_PREVP s.mem bp 0) bp 0
        if prev = 0 ∧ next = 0 then PUT_8B m2 root 0
        else if prev ≠ 0 ∧ next = 0 then SET_NEXTP m2 prev 0
        else if prev = 0 ∧ next ≠ 0 then PUT_8B (SET_PREVP m2 next 0) root next
        else SET_NEXTP (SET_PREVP m2 next prev) prev next } := by
  unfold remove_from_free_list
  rw [if_neg (by push_neg; exact ⟨h0, h1⟩)]

theorem PUT_8B_outside (m : Mem) (p v a : Nat) (h : a < p ∨ p + 8 ≤ a) :
    PUT_8B m p v a = m a := writeLE_outside 8 m p v a h

theorem PUT_outside (m : Mem) (p v a : Nat) (h : a < p ∨ p + 4 ≤ a) :
    PUT m p v a = m a := writeLE_outside 4 m p v a h

theorem GET_8B_skip1 (m : Mem) (p1 v1 y : Nat) (h1 : y + 8 ≤ p1 ∨ p1 + 8 ≤ y) :
    GET_8B (PUT_8B m p1 v1) y = GET_8B m y := GET_8B_PUT_8B_ne m p1 v1 y h1

theorem GET_8B_skip2 (m : Mem) (p1 v1 p2 v2 y : Nat)
    (h1 : y + 8 ≤ p1 ∨ p1 + 8 ≤ y) (h2 : y + 8 ≤ p2 ∨ p2 + 8 ≤ y) :
    GET_8B (PUT_8B (PUT_8B m p1 v1) p2 v2) y = GET_8B m y :=
  (GET_8B_PUT_8B_ne _ p2 v2 y h2).trans (GET_8B_PUT_8B_ne m p1 v1 y h1)

theorem GET_8B_skip3 (m : Mem) (p1 v1 p2 v2 p3 v3 y : Nat)
    (h1 : y + 8 ≤ p1 ∨ p1 + 8 ≤ y) (h2 : y + 8 ≤ p2 ∨ p2 + 8 ≤ y)
    (h3 : y + 8 ≤ p3 ∨ p3 + 8 ≤ y) :
    GET_8B (PUT_8B (PUT_8B (PUT_8B m p1 v1) p2 v2) p3 v3) y = GET_8B m y :=
  (GET_8B_PUT_8B_ne _ p3 v3 y h3).trans (GET_8B_skip2 m p1 v1 p2 v2 y h1 h2)

theorem GET_8B_skip4 (m : Mem) (p1 v1 p2 v2 p3 v3 p4 v4 y : Nat)
    (h1 : y + 8 ≤ p1 ∨ p1 + 8 ≤ y) (h2 : y + 8 ≤ p2 ∨ p2 + 8 ≤ y)
    (h3 : y + 8 ≤ p3 ∨ p3 + 8 ≤ y) (h4 : y + 8 ≤ p4 ∨ p4 + 8 ≤ y) :
    GET_8B (PUT_8B (PUT_8B (PUT_8B (PUT_8B m p1 v1) p2 v2) p3 v3) p4 v4) y
      = GET_8B m y :=
  (GET_8B_PUT_8B_ne _ p4 v4 y h4).trans (GET_8B_skip3 m p1 v1 p2 v2 p3 v3 y h1 h2 h3)

theorem PUT_8B_chain3_outside (m : Mem) (p1 v1 p2 v2 p3 v3 a : Nat)
    (h1 : a < p1 ∨ p1 + 8 ≤ a) (h2 : a < p2 ∨ p2 + 8 ≤ a)
    (h3 : a < p3 ∨ p3 + 8 ≤ a) :
    PUT_8B (PUT_8B (PUT_8B m p1 v1) p2 v2) p3 v3 a = m a :=
  (PUT_8B_outside _ p3 v3 a h3).trans
    ((PUT_8B_outside _ p2 v2 a h2).trans (PUT_8B_outside m p1 v1 a h1))

theorem PUT_8B_chain4_outside (m : Mem) (p1 v1 p2 v2 p3 v3 p4 v4 a : Nat)
    (h1 : a < p1 ∨ p1 + 8 ≤ a) (h2 : a < p2 ∨ p2 + 8 ≤ a)
    (h3 : a < p3 ∨ p3 + 8 ≤ a) (h4 : a < p4 ∨ p4 + 8 ≤ a) :
    PUT_8B (PUT_8B (PUT_8B (PUT_8B m p1 v1) p2 v2) p3 v3) p4 v4 a = m a :=
  (PUT_8B_outside _ p4 v4 a h4).trans
    (PUT_8B_chain3_outside m p1 v1 p2 v2 p3 v3 a h1 h2 h3)

/-- Correctness of `remove_from_free_list` on a separated, duplicate-free
bucket: if the bucket of `bp`'s size class spells `A ++ bp :: B`, then after
the call it spells `A ++ B`; no byte outside the root cell and the nodes' link
areas changes; and the globals are untouched. -/
theorem remove_correct (s : Heap) (bp : Nat) (A B : List Nat)
    (hfree : GET_ALLOC s.mem (HDRP bp) = 0)
    (hl : dllSeg s.mem 0
      (GET_8B s.mem (get_root s (GET_SIZE s.mem (HDRP bp)))) (A ++ bp :: B) 0)
    (hsep : nodesSep s.seg_free_listp (A ++ bp :: B))
    (hnd : (A ++ bp :: B).Nodup) :
    dllSeg (remove_from_free_list s bp).mem 0
      (GET_8B (remove_from_free_list s bp).mem
        (get_root s (GET_SIZE s.mem (HDRP bp)))) (A ++ B) 0 ∧
    (∀ a : Nat,
      (a < get_root s (GET_SIZE s.mem (HDRP bp)) ∨
        get_root s (GET_SIZE s.mem (HDRP bp)) + 8 ≤ a) →
      (∀ x ∈ A ++ bp :: B, a < x ∨ x + 16 ≤ a) →
      (remove_from_free_list s bp).mem a = s.mem a) ∧
    remove_from_free_list s bp
      = { s with mem := (remove_from_free_list s bp).mem } := by
  obtain ⟨hbounds, hpw⟩ := hsep
  have hbpmem : bp ∈ A ++ bp :: B := by simp
  have hbpB := hbounds bp hbpmem
  have hbp0 : bp ≠ 0 := by omega
  have hgap : ∀ x ∈ A ++ bp :: B, ∀ y ∈ A ++ bp :: B, x ≠ y →
      x + 16 ≤ y - 4 ∨ y + 16 ≤ x - 4 :=
    fun x hx y hy hxy => List.Pairwise.forall (fun a b h => h.symm) hpw hx hy hxy
  have hclass : size_class (GET_SIZE s.mem (HDRP bp)) ≤ 9 := size_class_le9 _
  have hrootle : get_root s (GET_SIZE s.mem (HDRP bp)) + 8
      ≤ s.seg_free_listp + 80 := by
    show s.seg_free_listp + size_class (GET_SIZE s.mem (HDRP bp)) * 8 + 8
      ≤ s.seg_free_listp + 80
    omega
  obtain ⟨q, hA, hBpart⟩ :=
    (dllSeg_append_iff s.mem A (bp :: B) 0
      (GET_8B s.mem (get_root s (GET_SIZE s.mem (HDRP bp)))) 0).1 hl
  obtain ⟨hqbp, _, hbprev, hbtail⟩ := hBpart
  rw [hqbp] at hA
  have hndA : A.Nodup := hnd.of_append_left
  have hdisjA : List.Disjoint A (bp :: B) := (List.nodup_append.1 hnd).2.2
  rw [remove_eq s bp hbp0 hfree]
  dsimp only
  simp only [SET_PREVP, SET_NEXTP]
  rcases B with _ | ⟨hb, B'⟩
  · -- B = []
    have hnext0 : GET_NEXTP s.mem bp = 0 := hbtail
    by_cases hAe : A = []
    · -- Case 1: only element; the root is cleared
      subst hAe
      have hprev0 : GET_PREVP s.mem bp = 0 := hbprev
      rw [hprev0, hnext0, if_pos ⟨rfl, rfl⟩]
      refine ⟨?_, ?_, by trivial⟩
      · refine dllSeg_nil_intro _ _ _ ?_
        exact (GET_8B_PUT_8B _ _ _).trans (Nat.zero_mod _)
      · intro a ha hx
        have hxbp := hx bp hbpmem
        exact PUT_8B_chain3_outside _ _ _ _ _ _ _ _ (by omega) (by omega) (by omega)
    · -- Case 2: last element; the predecessor's next link is cleared
      set la := A.getLastD 0 with hla
      have hlamem : la ∈ A := getLastD_mem A 0 hAe
      have hlaL : la ∈ A ++ bp :: [] := by simp [hlamem]
      have hlaB := hbounds la hlaL
      have hla0 : la ≠ 0 := by omega
      have hlabp : la ≠ bp := fun hcon => (hdisjA hlamem) (by simp [hcon])
      have hglabp := hgap la hlaL bp hbpmem hlabp
      rw [hbprev, hnext0,
        if_neg (by intro hcon; exact hla0 hcon.1),
        if_pos ⟨hla0, rfl⟩]
      refine ⟨?_, ?_, by trivial⟩
      · rw [List.append_nil,
          show GET_8B (PUT_8B (PUT_8B (PUT_8B s.mem bp 0) (bp + 8) 0) (la + 8) 0)
              (get_root s (GET_SIZE s.mem (HDRP bp)))
            = GET_8B s.mem (get_root s (GET_SIZE s.mem (HDRP bp)))
          from GET_8B_skip3 _ _ _ _ _ _ _ _ (by omega) (by omega) (by omega)]
        refine dllSeg_retarget s.mem _ A 0
          (GET_8B s.mem (get_root s (GET_SIZE s.mem (HDRP bp)))) bp 0 la hAe hndA
          hla hA ?_ ?_ ?_
        · intro x hx
          have hxL : x ∈ A ++ bp :: [] := by simp [hx]
          have hxbp := hgap x hxL bp hbpmem
            (fun hcon => (hdisjA hx) (by simp [hcon]))
          have hxB := hbounds x hxL
          show GET_8B (PUT_8B (PUT_8B (PUT_8B s.mem bp 0) (bp + 8) 0) (la + 8) 0) x
            = GET_8B s.mem x
          rcases eq_or_ne x la with rfl | hxla
          · exact GET_8B_skip3 _ _ _ _ _ _ _ _ (by omega) (by omega) (by omega)
          · have hgxla := hgap x hxL la hlaL hxla
            exact GET_8B_skip3 _ _ _ _ _ _ _ _ (by omega) (by omega) (by omega)
        · intro x hx hxla
          have hxL : x ∈ A ++ bp :: [] := by simp [hx]
          have hxbp := hgap x hxL bp hbpmem
            (fun hcon => (hdisjA hx) (by simp [hcon]))
          have hxB := hbounds x hxL
          have hgxla := hgap x hxL la hlaL hxla
          show GET_8B (PUT_8B (PUT_8B (PUT_8B s.mem bp 0) (bp + 8) 0) (la + 8) 0)
            (x + 8) = GET_8B s.mem (x + 8)
          exact GET_8B_skip3 _ _ _ _ _ _ _ _ (by omega) (by omega) (by omega)
        · show GET_8B (PUT_8B (PUT_8B (PUT_8B s.mem bp 0) (bp + 8) 0) (la + 8) 0)
            (la + 8) = 0
          exact (GET_8B_PUT_8B _ _ _).trans (Nat.zero_mod _)
      · intro a ha hx
        have hxbp := hx bp hbpmem
        have hxla := hx la hlaL
        exact PUT_8B_chain3_outside _ _ _ _ _ _ _ _ (by omega) (by omega) (by omega)
  · -- B = hb :: B'
    obtain ⟨hnbp, hb0, hhbprev, htailB⟩ := hbtail
    have hhbL : hb ∈ A ++ bp :: hb :: B' := by simp
    have hhbB := hbounds hb hhbL
    have hndB : (bp :: hb :: B').Nodup := hnd.of_append_right
    have hhbbp : hb ≠ bp := by
      intro hcon
      exact (List.nodup_cons.1 hndB).1 (by simp [hcon])
    have hghbbp := hgap hb hhbL bp hbpmem hhbbp
    by_cases hAe : A = []
    · -- Case 3: head element; root points to the successor
      subst hAe
      have hprev0 : GET_PREVP s.mem bp = 0 := hbprev
      rw [hprev0, hnbp,
        if_neg (by intro hcon; exact hb0 hcon.2),
        if_neg (by intro hcon; exact hcon.1 rfl),
        if_pos ⟨rfl, hb0⟩]
      refine ⟨?_, ?_, by trivial⟩
      · rw [show GET_8B (PUT_8B (PUT_8B (PUT_8B (PUT_8B s.mem bp 0) (bp + 8) 0) hb 0)
              (get_root s (GET_SIZE s.mem (HDRP bp))) hb)
              (get_root s (GET_SIZE s.mem (HDRP bp))) = hb
          from (GET_8B_PUT_8B _ _ _).trans (Nat.mod_eq_of_lt (by omega))]
        refine ⟨rfl, hb0, ?_, ?_⟩
        · show GET_8B (PUT_8B (PUT_8B (PUT_8B (PUT_8B s.mem bp 0) (bp + 8) 0) hb 0)
            (get_root s (GET_SIZE s.mem (HDRP bp))) hb) hb = 0
          exact (GET_8B_skip1 _ _ _ _ (by omega)).trans
            ((GET_8B_PUT_8B _ _ _).trans (Nat.zero_mod _))
        · rw [show GET_NEXTP (PUT_8B (PUT_8B (PUT_8B (PUT_8B s.mem bp 0) (bp + 8) 0)
                hb 0) (get_root s (GET_SIZE s.mem (HDRP bp))) hb) hb
              = GET_NEXTP s.mem hb
            from GET_8B_skip4 _ _ _ _ _ _ _ _ _ _
              (by omega) (by omega) (by omega) (by omega)]
          refine dllSeg_congr s.mem _ B' hb (GET_NEXTP s.mem hb) 0 ?_ htailB
          intro x hx
          have hxL : x ∈ [] ++ bp :: hb :: B' := by simp [hx]
          have hxB := hbounds x hxL
          have hxbp : x ≠ bp := by
            intro hcon
            exact (List.nodup_cons.1 hndB).1 (by simp [← hcon, hx])
          have hxhb : x ≠ hb := by
            intro hcon
            exact (List.nodup_cons.1 (List.nodup_cons.1 hndB).2).1 (by
              rw [← hcon]; exact hx)
          have hgxbp := hgap x hxL bp hbpmem hxbp
          have hgxhb := hgap x hxL hb hhbL hxhb
          constructor
          · show GET_8B _ x = GET_8B s.mem x
            exact GET_8B_skip4 _ _ _ _ _ _ _ _ _ _
              (by omega) (by omega) (by omega) (by omega)
          · show GET_8B _ (x + 8) = GET_8B s.mem (x + 8)
            exact GET_8B_skip4 _ _ _ _ _ _ _ _ _ _
              (by omega) (by omega) (by omega) (by omega)
      · intro a ha hx
        have hxbp := hx bp hbpmem
        have hxhb := hx hb hhbL
        exact PUT_8B_chain4_outside _ _ _ _ _ _ _ _ _ _
          (by omega) (by omega) (by omega) (by omega)
    · -- Case 4: interior element; predecessor and successor are joined
      set la := A.getLastD 0 with hla
      have hlamem : la ∈ A := getLastD_mem A 0 hAe
      have hlaL : la ∈ A ++ bp :: hb :: B' := by simp [hlamem]
      have hlaB := hbounds la hlaL
      have hla0 : la ≠ 0 := by omega
      have hlabp : la ≠ bp := fun hcon => (hdisjA hlamem) (by simp [hcon])
      have hlahb : la ≠ hb := fun hcon => (hdisjA hlamem) (by simp [hcon])
      have hglabp := hgap la hlaL bp hbpmem hlabp
      have hglahb := hgap la hlaL hb hhbL hlahb
      rw [hbprev, hnbp,
        if_neg (by intro hcon; exact hla0 hcon.1),
        if_neg (by intro hcon; exact hb0 hcon.2),
        if_neg (by intro hcon; exact hla0 hcon.1)]
      refine ⟨?_, ?_, by trivial⟩
      · rw [show GET_8B (PUT_8B (PUT_8B (PUT_8B (PUT_8B s.mem bp 0) (bp + 8) 0)
              hb la) (la + 8) hb) (get_root s (GET_SIZE s.mem (HDRP bp)))
            = GET_8B s.mem (get_root s (GET_SIZE s.mem (HDRP bp)))
          from GET_8B_skip4 _ _ _ _ _ _ _ _ _ _
            (by omega) (by omega) (by omega) (by omega)]
        refine (dllSeg_append_iff _ A (hb :: B') 0
          (GET_8B s.mem (get_root s (GET_SIZE s.mem (HDRP bp)))) 0).2 ⟨hb, ?_, ?_⟩
        · refine dllSeg_retarget s.mem _ A 0
            (GET_8B s.mem (get_root s (GET_SIZE s.mem (HDRP bp)))) bp hb la hAe
            hndA hla hA ?_ ?_ ?_
          · intro x hx
            have hxL : x ∈ A ++ bp :: hb :: B' := by simp [hx]
            have hxB := hbounds x hxL
            have hxbp := hgap x hxL bp hbpmem
              (fun hcon => (hdisjA hx) (by simp [hcon]))
            have hxhb := hgap x hxL hb hhbL
              (fun hcon => (hdisjA hx) (by simp [hcon]))
            show GET_8B (PUT_8B (PUT_8B (PUT_8B (PUT_8B s.mem bp 0) (bp + 8) 0)
              hb la) (la + 8) hb) x = GET_8B s.mem x
            rcases eq_or_ne x la with rfl | hxla
            · exact GET_8B_skip4 _ _ _ _ _ _ _ _ _ _
                (by omega) (by omega) (by omega) (by omega)
            · have hgxla := hgap x hxL la hlaL hxla
              exact GET_8B_skip4 _ _ _ _ _ _ _ _ _ _
                (by omega) (by omega) (by omega) (by omega)
          · intro x hx hxla
            have hxL : x ∈ A ++ bp :: hb :: B' := by simp [hx]
            have hxB := hbounds x hxL
            have hxbp := hgap x hxL bp hbpmem
              (fun hcon => (hdisjA hx) (by simp [hcon]))
            have hxhb := hgap x hxL hb hhbL
              (fun hcon => (hdisjA hx) (by simp [hcon]))
            have hgxla := hgap x hxL la hlaL hxla
            show GET_8B (PUT_8B (PUT_8B (PUT_8B (PUT_8B s.mem bp 0) (bp + 8) 0)
              hb la) (la + 8) hb) (x + 8) = GET_8B s.mem (x + 8)
            exact GET_8B_skip4 _ _ _ _ _ _ _ _ _ _
              (by omega) (by omega) (by omega) (by omega)
          · show GET_8B (PUT_8B (PUT_8B (PUT_8B (PUT_8B s.mem bp 0) (bp + 8) 0)
              hb la) (la + 8) hb) (la + 8) = hb
            exact (GET_8B_PUT_8B _ _ _).trans (Nat.mod_eq_of_lt (by omega))
        · refine ⟨rfl, hb0, ?_, ?_⟩
          · show GET_8B (PUT_8B (PUT_8B (PUT_8B (PUT_8B s.mem bp 0) (bp + 8) 0)
              hb la) (la + 8) hb) hb = la
            exact (GET_8B_skip1 _ _ _ _ (by omega)).trans
              ((GET_8B_PUT_8B _ _ _).trans (Nat.mod_eq_of_lt (by omega)))
          · rw [show GET_NEXTP (PUT_8B (PUT_8B (PUT_8B (PUT_8B s.mem bp 0)
                  (bp + 8) 0) hb la) (la + 8) hb) hb
                = GET_NEXTP s.mem hb
              from GET_8B_skip4 _ _ _ _ _ _ _ _ _ _
                (by omega) (by omega) (by omega) (by omega)]
            refine dllSeg_congr s.mem _ B' hb (GET_NEXTP s.mem hb) 0 ?_ htailB
            intro x hx
            have hxL : x ∈ A ++ bp :: hb :: B' := by simp [hx]
            have hxB := hbounds x hxL
            have hxbp : x ≠ bp := by
              intro hcon
              exact (List.nodup_cons.1 hndB).1 (by simp [← hcon, hx])
            have hxhb : x ≠ hb := by
              intro hcon
              exact (List.nodup_cons.1 (List.nodup_cons.1 hndB).2).1 (by
                rw [← hcon]; exact hx)
            have hxla : x ≠ la := by
              intro hcon
              exact (hdisjA (hcon ▸ hlamem)) (by simp [hx])
            have hgxbp := hgap x hxL bp hbpmem hxbp
            have hgxhb := hgap x hxL hb hhbL hxhb
            have hgxla := hgap x hxL la hlaL hxla
            constructor
            · show GET_8B _ x = GET_8B s.mem x
              exact GET_8B_skip4 _ _ _ _ _ _ _ _ _ _
                (by omega) (by omega) (by omega) (by omega)
            · show GET_8B _ (x + 8) = GET_8B s.mem (x + 8)
              exact GET_8B_skip4 _ _ _ _ _ _ _ _ _ _
                (by omega) (by omega) (by omega) (by omega)
      · intro a ha hx
        have hxbp := hx bp hbpmem
        have hxhb := hx hb hhbL
        have hxla := hx la hlaL
        exact PUT_8B_chain4_outside _ _ _ _ _ _ _ _ _ _
          (by omega) (by omega) (by omega) (by omega)
/-! ### insert_to_free_list: full correctness on a well-formed bucket -/

/-- Unfolding of `insert_to_free_list` for a non-null block. -/
theorem insert_eq (fuel : Nat) (s : Heap) (bp : Nat) (h0 : bp ≠ 0) :
    insert_to_free_list fuel s bp =
      { s with mem :=
        let size := GET_SIZE s.mem (HDRP bp)
        let root := get_root s size
        let pn := insert_scan s.mem size root (GET_8B s.mem root) fuel
        let prev := pn.1
        let next := pn.2
        if prev = root ∧ next = 0 then
          SET_NEXTP (SET_PREVP (PUT_8B s.mem root bp) bp 0) bp next
        else if prev ≠ root ∧ next = 0 then
          SET_NEXTP (SET_NEXTP (SET_PREVP s.mem bp prev) bp next) prev bp
        else if prev = root ∧ next ≠ 0 then
          SET_PREVP (SET_NEXTP (SET_PREVP (PUT_8B s.mem root bp) bp 0) bp next) next bp
        else
          SET_PREVP (SET_NEXTP (SET_NEXTP (SET_PREVP s.mem bp prev) bp next) prev bp) next bp } := by
  unfold insert_to_free_list
  rw [if_neg h0]

/-- The sorted-position scan of `insert_to_free_list`: on a chain spelling `l`
it returns the last node whose size is `< sz` (or the accumulator `prv`) and
the first node whose size is `≥ sz` (or null). -/
theorem insert_scan_spec (m : Mem) (sz : Nat) :
    ∀ (l : List Nat) (prv prv0 p fuel : Nat),
      dllSeg m prv0 p l 0 → l.length < fuel →
      insert_scan m sz prv p fuel
        = ((l.takeWhile (fun a => decide (GET_SIZE m (HDRP a) < sz))).getLastD prv,
           (l.dropWhile (fun a => decide (GET_SIZE m (HDRP a) < sz))).headD 0) := by
  intro l
  induction l with
  | nil =>
    intro prv prv0 p fuel h hf
    have hp : p = 0 := h
    subst hp
    rcases fuel with _ | f
    · omega
    · simp [insert_scan]
  | cons a l ih =>
    intro prv prv0 p fuel h hf
    obtain ⟨hpa, ha0, hprev, htail⟩ := h
    rw [hpa]
    rcases fuel with _ | f
    · omega
    · show (if a = 0 then (prv, a)
        else if sz ≤ GET_SIZE m (HDRP a) then (prv, a)
        else insert_scan m sz a (GET_NEXTP m a) f) = _
      rw [if_neg ha0]
      by_cases hc : sz ≤ GET_SIZE m (HDRP a)
      · rw [if_pos hc,
          List.takeWhile_cons_of_neg (by simp only [decide_eq_true_eq]; omega),
          List.dropWhile_cons_of_neg (by simp only [decide_eq_true_eq]; omega)]
        rfl
      · rw [if_neg hc,
          List.takeWhile_cons_of_pos (by simp only [decide_eq_true_eq]; omega),
          List.dropWhile_cons_of_pos (by simp only [decide_eq_true_eq]; omega),
          List.getLastD_cons]
        exact ih a a (GET_NEXTP m a) f htail (by simp at hf; omega)

/-- Correctness of `insert_to_free_list` on a separated, duplicate-free
bucket: if the bucket of `bp`'s size class spells `l`, then after the call it
spells `A ++ bp :: B` where `A` is the longest prefix of nodes smaller than
`bp` (i.e. `bp` is inserted in sorted position, before the first node of size
`≥ size(bp)`); no byte outside the root cell and the link areas changes; the
globals are untouched. -/
theorem insert_correct (fuel : Nat) (s : Heap) (bp : Nat) (l A B : List Nat)
    (hbp0 : bp ≠ 0)
    (hl : dllSeg s.mem 0
      (GET_8B s.mem (get_root s (GET_SIZE s.mem (HDRP bp)))) l 0)
    (hsep : nodesSep s.seg_free_listp (bp :: l))
    (hnd : (bp :: l).Nodup)
    (hfuel : l.length < fuel)
    (hA : A = l.takeWhile
      (fun a => decide (GET_SIZE s.mem (HDRP a) < GET_SIZE s.mem (HDRP bp))))
    (hB : B = l.dropWhile
      (fun a => decide (GET_SIZE s.mem (HDRP a) < GET_SIZE s.mem (HDRP bp)))) :
    dllSeg (insert_to_free_list fuel s bp).mem 0
      (GET_8B (insert_to_free_list fuel s bp).mem
        (get_root s (GET_SIZE s.mem (HDRP bp)))) (A ++ bp :: B) 0 ∧
    (∀ a : Nat,
      (a < get_root s (GET_SIZE s.mem (HDRP bp)) ∨
        get_root s (GET_SIZE s.mem (HDRP bp)) + 8 ≤ a) →
      (∀ x ∈ bp :: l, a < x ∨ x + 16 ≤ a) →
      (insert_to_free_list fuel s bp).mem a = s.mem a) ∧
    insert_to_free_list fuel s bp
      = { s with mem := (insert_to_free_list fuel s bp).mem } := by
  obtain ⟨hbounds, hpw⟩ := hsep
  have hbpmem : bp ∈ bp :: l := by simp
  have hbpB := hbounds bp hbpmem
  have hgap : ∀ x ∈ bp :: l, ∀ y ∈ bp :: l, x ≠ y →
      x + 16 ≤ y - 4 ∨ y + 16 ≤ x - 4 :=
    fun x hx y hy hxy => List.Pairwise.forall (fun a b h => h.symm) hpw hx hy hxy
  have hclass : size_class (GET_SIZE s.mem (HDRP bp)) ≤ 9 := size_class_le9 _
  have hrootle : get_root s (GET_SIZE s.mem (HDRP bp)) + 8
      ≤ s.seg_free_listp + 80 := by
    show s.seg_free_listp + size_class (GET_SIZE s.mem (HDRP bp)) * 8 + 8
      ≤ s.seg_free_listp + 80
    omega
  have hABl : A ++ B = l := by
    rw [hA, hB]; exact List.takeWhile_append_dropWhile _ _
  have hAl : ∀ x ∈ A, x ∈ l := fun x hx =>
    List.Sublist.mem hx (by rw [hA]; exact List.takeWhile_sublist _)
  have hBl : ∀ x ∈ B, x ∈ l := fun x hx =>
    List.Sublist.mem hx (by rw [hB]; exact List.dropWhile_sublist _)
  have hndl : l.Nodup := (List.nodup_cons.1 hnd).2
  have hbpl : bp ∉ l := (List.nodup_cons.1 hnd).1
  have hndAB : (A ++ B).Nodup := by rw [hABl]; exact hndl
  have hndA : A.Nodup := hndAB.of_append_left
  have hdisjAB : List.Disjoint A B := (List.nodup_append.1 hndAB).2.2
  have hlAB : dllSeg s.mem 0
      (GET_8B s.mem (get_root s (GET_SIZE s.mem (HDRP bp)))) (A ++ B) 0 := by
    rw [hABl]; exact hl
  obtain ⟨q, hAseg, hBseg⟩ :=
    (dllSeg_append_iff s.mem A B 0
      (GET_8B s.mem (get_root s (GET_SIZE s.mem (HDRP bp)))) 0).1 hlAB
  have hscan : insert_scan s.mem (GET_SIZE s.mem (HDRP bp))
      (get_root s (GET_SIZE s.mem (HDRP bp)))
      (GET_8B s.mem (get_root s (GET_SIZE s.mem (HDRP bp)))) fuel
      = (A.getLastD (get_root s (GET_SIZE s.mem (HDRP bp))), B.headD 0) := by
    rw [hA, hB]
    exact insert_scan_spec s.mem _ l _ 0 _ fuel hl hfuel
  rw [insert_eq fuel s bp hbp0]
  dsimp only
  rw [hscan]
  dsimp only
  simp only [SET_PREVP, SET_NEXTP]
  by_cases hAe : A = []
  · subst hAe
    have hq : GET_8B s.mem (get_root s (GET_SIZE s.mem (HDRP bp))) = q := hAseg
    rcases B with _ | ⟨hb, B'⟩
    · -- Case 1: empty bucket
      have hq0 : q = 0 := hBseg
      dsimp only [List.headD, List.getLastD]
      rw [if_pos ⟨rfl, rfl⟩]
      refine ⟨?_, ?_, by trivial⟩
      · rw [show GET_8B (PUT_8B (PUT_8B (PUT_8B s.mem
              (get_root s (GET_SIZE s.mem (HDRP bp))) bp) bp 0) (bp + 8) 0)
              (get_root s (GET_SIZE s.mem (HDRP bp))) = bp
          from (GET_8B_skip2 _ _ _ _ _ _ (by omega) (by omega)).trans
            ((GET_8B_PUT_8B _ _ _).trans (Nat.mod_eq_of_lt (by omega)))]
        refine ⟨rfl, hbp0, ?_, ?_⟩
        · exact (GET_8B_skip1 _ _ _ _ (by omega)).trans
            ((GET_8B_PUT_8B _ _ _).trans (Nat.zero_mod _))
        · show GET_8B (PUT_8B (PUT_8B (PUT_8B s.mem
            (get_root s (GET_SIZE s.mem (HDRP bp))) bp) bp 0) (bp + 8) 0)
            (bp + 8) = 0
          exact (GET_8B_PUT_8B _ _ _).trans (Nat.zero_mod _)
      · intro a ha hx
        have hxbp := hx bp hbpmem
        exact PUT_8B_chain3_outside _ _ _ _ _ _ _ _ (by omega) (by omega) (by omega)
    · -- Case 3: insert at the head, before hb
      obtain ⟨hqhb, hb0, hprevhb, htailB⟩ := hBseg
      have hhbl : hb ∈ l := hBl hb (by simp)
      have hhbmem : hb ∈ bp :: l := by simp [hhbl]
      have hhbB := hbounds hb hhbmem
      have hhbbp : hb ≠ bp := fun hcon => hbpl (hcon ▸ hhbl)
      have hghbbp := hgap hb hhbmem bp hbpmem hhbbp
      dsimp only [List.headD, List.getLastD]
      rw [if_neg (by rintro ⟨_, h2⟩; exact hb0 h2),
        if_neg (by rintro ⟨h1, _⟩; exact h1 rfl),
        if_pos ⟨rfl, hb0⟩]
      refine ⟨?_, ?_, by trivial⟩
      · rw [show GET_8B (PUT_8B (PUT_8B (PUT_8B (PUT_8B s.mem
              (get_root s (GET_SIZE s.mem (HDRP bp))) bp) bp 0) (bp + 8) hb)
              hb bp) (get_root s (GET_SIZE s.mem (HDRP bp))) = bp
          from (GET_8B_skip3 _ _ _ _ _ _ _ _ (by omega) (by omega) (by omega)).trans
            ((GET_8B_PUT_8B _ _ _).trans (Nat.mod_eq_of_lt (by omega)))]
        refine ⟨rfl, hbp0, ?_, ?_⟩
        · show GET_8B (PUT_8B (PUT_8B (PUT_8B (PUT_8B s.mem
            (get_root s (GET_SIZE s.mem (HDRP bp))) bp) bp 0) (bp + 8) hb) hb bp)
            bp = 0
          exact (GET_8B_skip2 _ _ _ _ _ _ (by omega) (by omega)).trans
            ((GET_8B_PUT_8B _ _ _).trans (Nat.zero_mod _))
        · rw [show GET_NEXTP (PUT_8B (PUT_8B (PUT_8B (PUT_8B s.mem
                (get_root s (GET_SIZE s.mem (HDRP bp))) bp) bp 0) (bp + 8) hb)
                hb bp) bp = hb
            from (GET_8B_skip1 _ _ _ _ (by omega)).trans
              ((GET_8B_PUT_8B _ _ _).trans (Nat.mod_eq_of_lt (by omega)))]
          refine ⟨rfl, hb0, ?_, ?_⟩
          · exact (GET_8B_PUT_8B _ _ _).trans (Nat.mod_eq_of_lt (by omega))
          · rw [show GET_NEXTP (PUT_8B (PUT_8B (PUT_8B (PUT_8B s.mem
                  (get_root s (GET_SIZE s.mem (HDRP bp))) bp) bp 0) (bp + 8) hb)
                  hb bp) hb = GET_NEXTP s.mem hb
              from GET_8B_skip4 _ _ _ _ _ _ _ _ _ _
                (by omega) (by omega) (by omega) (by omega)]
            refine dllSeg_congr s.mem _ B' hb (GET_NEXTP s.mem hb) 0 ?_ htailB
            intro x hx
            have hxl : x ∈ l := hBl x (by simp [hx])
            have hxmem : x ∈ bp :: l := by simp [hxl]
            have hxB := hbounds x hxmem
            have hxbp : x ≠ bp := fun hcon => hbpl (hcon ▸ hxl)
            have hxhb : x ≠ hb := by
              intro hcon
              have hndB : (hb :: B').Nodup := hndAB.of_append_right
              exact (List.nodup_cons.1 hndB).1 (hcon ▸ hx)
            have hgxbp := hgap x hxmem bp hbpmem hxbp
            have hgxhb := hgap x hxmem hb hhbmem hxhb
            constructor
            · show GET_8B _ x = GET_8B s.mem x
              exact GET_8B_skip4 _ _ _ _ _ _ _ _ _ _
                (by omega) (by omega) (by omega) (by omega)
            · show GET_8B _ (x + 8) = GET_8B s.mem (x + 8)
              exact GET_8B_skip4 _ _ _ _ _ _ _ _ _ _
                (by omega) (by omega) (by omega) (by omega)
      · intro a ha hx
        have hxbp := hx bp hbpmem
        have hxhb := hx hb hhbmem
        exact PUT_8B_chain4_outside _ _ _ _ _ _ _ _ _ _
          (by omega) (by omega) (by omega) (by omega)
  · -- A nonempty: the scan stopped after la = A.getLastD _
    have hpl : A.getLastD (get_root s (GET_SIZE s.mem (HDRP bp)))
        = A.getLastD 0 := getLastD_irrel A _ 0 hAe
    set la := A.getLastD 0 with hla
    have hlamem : la ∈ A := getLastD_mem A 0 hAe
    have hlal : la ∈ l := hAl la hlamem
    have hlaL : la ∈ bp :: l := by simp [hlal]
    have hlaB := hbounds la hlaL
    have hla0 : la ≠ 0 := by omega
    have hlabp : la ≠ bp := fun hcon => hbpl (hcon ▸ hlal)
    have hglabp := hgap la hlaL bp hbpmem hlabp
    have hlaroot : la ≠ get_root s (GET_SIZE s.mem (HDRP bp)) := by omega
    rw [hpl]
    rcases B with _ | ⟨hb, B'⟩
    · -- Case 2: insert at the tail, after la
      have hq0 : q = 0 := hBseg
      rw [hq0] at hAseg
      dsimp only [List.headD]
      rw [if_neg (by rintro ⟨h1, _⟩; exact hlaroot h1),
        if_pos ⟨hlaroot, rfl⟩]
      refine ⟨?_, ?_, by trivial⟩
      · rw [show GET_8B (PUT_8B (PUT_8B (PUT_8B s.mem bp la) (bp + 8) 0)
              (la + 8) bp) (get_root s (GET_SIZE s.mem (HDRP bp)))
            = GET_8B s.mem (get_root s (GET_SIZE s.mem (HDRP bp)))
          from GET_8B_skip3 _ _ _ _ _ _ _ _ (by omega) (by omega) (by omega)]
        refine (dllSeg_append_iff _ A (bp :: []) 0
          (GET_8B s.mem (get_root s (GET_SIZE s.mem (HDRP bp)))) 0).2 ⟨bp, ?_, ?_⟩
        · refine dllSeg_retarget s.mem _ A 0
            (GET_8B s.mem (get_root s (GET_SIZE s.mem (HDRP bp)))) 0 bp la hAe
            hndA hla hAseg ?_ ?_ ?_
          · intro x hx
            have hxl : x ∈ l := hAl x hx
            have hxmem : x ∈ bp :: l := by simp [hxl]
            have hxB := hbounds x hxmem
            have hxbp := hgap x hxmem bp hbpmem
              (fun hcon => hbpl (hcon ▸ hxl))
            show GET_8B (PUT_8B (PUT_8B (PUT_8B s.mem bp la) (bp + 8) 0)
              (la + 8) bp) x = GET_8B s.mem x
            rcases eq_or_ne x la with rfl | hxla
            · exact GET_8B_skip3 _ _ _ _ _ _ _ _ (by omega) (by omega) (by omega)
            · have hgxla := hgap x hxmem la hlaL hxla
              exact GET_8B_skip3 _ _ _ _ _ _ _ _ (by omega) (by omega) (by omega)
          · intro x hx hxla
            have hxl : x ∈ l := hAl x hx
            have hxmem : x ∈ bp :: l := by simp [hxl]
            have hxB := hbounds x hxmem
            have hxbp := hgap x hxmem bp hbpmem
              (fun hcon => hbpl (hcon ▸ hxl))
            have hgxla := hgap x hxmem la hlaL hxla
            show GET_8B (PUT_8B (PUT_8B (PUT_8B s.mem bp la) (bp + 8) 0)
              (la + 8) bp) (x + 8) = GET_8B s.mem (x + 8)
            exact GET_8B_skip3 _ _ _ _ _ _ _ _ (by omega) (by omega) (by omega)
          · show GET_8B (PUT_8B (PUT_8B (PUT_8B s.mem bp la) (bp + 8) 0)
              (la + 8) bp) (la + 8) = bp
            exact (GET_8B_PUT_8B _ _ _).trans (Nat.mod_eq_of_lt (by omega))
        · refine ⟨rfl, hbp0, ?_, ?_⟩
          · show GET_8B (PUT_8B (PUT_8B (PUT_8B s.mem bp la) (bp + 8) 0)
              (la + 8) bp) bp = la
            exact (GET_8B_skip2 _ _ _ _ _ _ (by omega) (by omega)).trans
              ((GET_8B_PUT_8B _ _ _).trans (Nat.mod_eq_of_lt (by omega)))
          · show GET_8B (PUT_8B (PUT_8B (PUT_8B s.mem bp la) (bp + 8) 0)
              (la + 8) bp) (bp + 8) = 0
            exact (GET_8B_skip1 _ _ _ _ (by omega)).trans
              ((GET_8B_PUT_8B _ _ _).trans (Nat.zero_mod _))
      · intro a ha hx
        have hxbp := hx bp hbpmem
        have hxla := hx la hlaL
        exact PUT_8B_chain3_outside _ _ _ _ _ _ _ _ (by omega) (by omega) (by omega)
    · -- Case 4: insert between la and hb
      obtain ⟨hqhb, hb0, hprevhb, htailB⟩ := hBseg
      have hhbl : hb ∈ l := hBl hb (by simp)
      have hhbmem : hb ∈ bp :: l := by simp [hhbl]
      have hhbB := hbounds hb hhbmem
      have hhbbp : hb ≠ bp := fun hcon => hbpl (hcon ▸ hhbl)
      have hlahb : la ≠ hb := by
        intro hcon
        exact (List.disjoint_left.1 hdisjAB) hlamem (by simp [← hcon])
      have hghbbp := hgap hb hhbmem bp hbpmem hhbbp
      have hglahb := hgap la hlaL hb hhbmem hlahb
      rw [hqhb] at hAseg
      dsimp only [List.headD]
      rw [if_neg (by rintro ⟨h1, _⟩; exact hlaroot h1),
        if_neg (by rintro ⟨_, h2⟩; exact hb0 h2),
        if_neg (by rintro ⟨h1, _⟩; exact hlaroot h1)]
      refine ⟨?_, ?_, by trivial⟩
      · rw [show GET_8B (PUT_8B (PUT_8B (PUT_8B (PUT_8B s.mem bp la) (bp + 8) hb)
              (la + 8) bp) hb bp) (get_root s (GET_SIZE s.mem (HDRP bp)))
            = GET_8B s.mem (get_root s (GET_SIZE s.mem (HDRP bp)))
          from GET_8B_skip4 _ _ _ _ _ _ _ _ _ _
            (by omega) (by omega) (by omega) (by omega)]
        refine (dllSeg_append_iff _ A (bp :: hb :: B') 0
          (GET_8B s.mem (get_root s (GET_SIZE s.mem (HDRP bp)))) 0).2 ⟨bp, ?_, ?_⟩
        · refine dllSeg_retarget s.mem _ A 0
            (GET_8B s.mem (get_root s (GET_SIZE s.mem (HDRP bp)))) hb bp la hAe
            hndA hla hAseg ?_ ?_ ?_
          · intro x hx
            have hxl : x ∈ l := hAl x hx
            have hxmem : x ∈ bp :: l := by simp [hxl]
            have hxB := hbounds x hxmem
            have hxbp := hgap x hxmem bp hbpmem
              (fun hcon => hbpl (hcon ▸ hxl))
            have hxhb := hgap x hxmem hb hhbmem
              (fun hcon => (List.disjoint_left.1 hdisjAB) hx (by simp [← hcon]))
            show GET_8B (PUT_8B (PUT_8B (PUT_8B (PUT_8B s.mem bp la) (bp + 8) hb)
              (la + 8) bp) hb bp) x = GET_8B s.mem x
            rcases eq_or_ne x la with rfl | hxla
            · exact GET_8B_skip4 _ _ _ _ _ _ _ _ _ _
                (by omega) (by omega) (by omega) (by omega)
            · have hgxla := hgap x hxmem la hlaL hxla
              exact GET_8B_skip4 _ _ _ _ _ _ _ _ _ _
                (by omega) (by omega) (by omega) (by omega)
          · intro x hx hxla
            have hxl : x ∈ l := hAl x hx
            have hxmem : x ∈ bp :: l := by simp [hxl]
            have hxB := hbounds x hxmem
            have hxbp := hgap x hxmem bp hbpmem
              (fun hcon => hbpl (hcon ▸ hxl))
            have hxhb := hgap x hxmem hb hhbmem
              (fun hcon => (List.disjoint_left.1 hdisjAB) hx (by simp [← hcon]))
            have hgxla := hgap x hxmem la hlaL hxla
            show GET_8B (PUT_8B (PUT_8B (PUT_8B (PUT_8B s.mem bp la) (bp + 8) hb)
              (la + 8) bp) hb bp) (x + 8) = GET_8B s.mem (x + 8)
            exact GET_8B_skip4 _ _ _ _ _ _ _ _ _ _
              (by omega) (by omega) (by omega) (by omega)
          · show GET_8B (PUT_8B (PUT_8B (PUT_8B (PUT_8B s.mem bp la) (bp + 8) hb)
              (la + 8) bp) hb bp) (la + 8) = bp
            exact (GET_8B_skip1 _ _ _ _ (by omega)).trans
              ((GET_8B_PUT_8B _ _ _).trans (Nat.mod_eq_of_lt (by omega)))
        · refine ⟨rfl, hbp0, ?_, ?_⟩
          · show GET_8B (PUT_8B (PUT_8B (PUT_8B (PUT_8B s.mem bp la) (bp + 8) hb)
              (la + 8) bp) hb bp) bp = la
            exact (GET_8B_skip3 _ _ _ _ _ _ _ _ (by omega) (by omega)
              (by omega)).trans
              ((GET_8B_PUT_8B _ _ _).trans (Nat.mod_eq_of_lt (by omega)))
          · rw [show GET_NEXTP (PUT_8B (PUT_8B (PUT_8B (PUT_8B s.mem bp la)
                  (bp + 8) hb) (la + 8) bp) hb bp) bp = hb
              from (GET_8B_skip2 _ _ _ _ _ _ (by omega) (by omega)).trans
                ((GET_8B_PUT_8B _ _ _).trans (Nat.mod_eq_of_lt (by omega)))]
            refine ⟨rfl, hb0, ?_, ?_⟩
            · show GET_8B (PUT_8B (PUT_8B (PUT_8B (PUT_8B s.mem bp la)
                (bp + 8) hb) (la + 8) bp) hb bp) hb = bp
              exact (GET_8B_PUT_8B _ _ _).trans (Nat.mod_eq_of_lt (by omega))
            · rw [show GET_NEXTP (PUT_8B (PUT_8B (PUT_8B (PUT_8B s.mem bp la)
                    (bp + 8) hb) (la + 8) bp) hb bp) hb = GET_NEXTP s.mem hb
                from GET_8B_skip4 _ _ _ _ _ _ _ _ _ _
                  (by omega) (by omega) (by omega) (by omega)]
              refine dllSeg_congr s.mem _ B' hb (GET_NEXTP s.mem hb) 0 ?_ htailB
              intro x hx
              have hxl : x ∈ l := hBl x (by simp [hx])
              have hxmem : x ∈ bp :: l := by simp [hxl]
              have hxB := hbounds x hxmem
              have hxbp : x ≠ bp := fun hcon => hbpl (hcon ▸ hxl)
              have hxhb : x ≠ hb := by
                intro hcon
                have hndB : (hb :: B').Nodup := hndAB.of_append_right
                exact (List.nodup_cons.1 hndB).1 (hcon ▸ hx)
              have hxla : x ≠ la := by
                intro hcon
                exact (List.disjoint_left.1 hdisjAB) (hcon ▸ hlamem)
                  (by simp [hx])
              have hgxbp := hgap x hxmem bp hbpmem hxbp
              have hgxhb := hgap x hxmem hb hhbmem hxhb
              have hgxla := hgap x hxmem la hlaL hxla
              constructor
              · show GET_8B _ x = GET_8B s.mem x
                exact GET_8B_skip4 _ _ _ _ _ _ _ _ _ _
                  (by omega) (by omega) (by omega) (by omega)
              · show GET_8B _ (x + 8) = GET_8B s.mem (x + 8)
                exact GET_8B_skip4 _ _ _ _ _ _ _ _ _ _
                  (by omega) (by omega) (by omega) (by omega)
      · intro a ha hx
        have hxbp := hx bp hbpmem
        have hxla := hx la hlaL
        have hxhb := hx hb hhbmem
        exact PUT_8B_chain4_outside _ _ _ _ _ _ _ _ _ _
          (by omega) (by omega) (by omega) (by omega)

/-! ### Claim C5: place -/

theorem prevAlloc_cases (m : Mem) (p : Nat) :
    GET_PREV_ALLOC m p = 0 ∨ GET_PREV_ALLOC m p = 2 := by
  unfold GET_PREV_ALLOC
  omega

theorem GET_congr_of_bytes (m m' : Mem) (p : Nat)
    (h : ∀ j, j < 4 → m' (p + j) = m (p + j)) : GET m' p = GET m p :=
  readLE_congr 4 m' m p h

theorem GET_8B_congr_of_bytes (m m' : Mem) (p : Nat)
    (h : ∀ j, j < 8 → m' (p + j) = m (p + j)) : GET_8B m' p = GET_8B m p :=
  readLE_congr 8 m' m p h

theorem NEXT_BLKP_eq (m : Mem) (bp : Nat) :
    NEXT_BLKP m bp = bp + GET_SIZE m (HDRP bp) := rfl

theorem FTRP_eq (m : Mem) (bp : Nat) :
    FTRP m bp = bp + GET_SIZE m (HDRP bp) - 8 := rfl

theorem lor_two_lt (x : Nat) (h : x < 4294967296) : x ||| 2 < 4294967296 := by
  have h1 := lor_two x
  have h2lt : (2 : Nat) < 2 ^ 3 := by omega
  have hm : x % 8 < 2 ^ 3 := by omega
  have h3 : x % 8 ||| 2 < 8 := Nat.or_lt_two_pow hm h2lt
  omega

/-- **C5**: correctness of `place(bp, asize)` on a free block `bp` whose
bucket spells `A ++ bp :: B` (nodes separated, no duplicates, all other nodes
outside `bp`'s block).  First, `remove_from_free_list` leaves that bucket
spelling `A ++ B`.  If the remainder `rsize = csize - asize` is at least
`MINBLOCKSIZE = 24`, the block is split: `bp`'s header is rewritten to size
`asize`, allocated, prev-alloc bit preserved; the remainder block at
`bp + asize` carries header and footer `PACK(rsize, 0b10)` (free, previous
allocated); and the remainder is inserted into the bucket of its own size
class (sorted position, per `insert_to_free_list`), given that that bucket
spells `lR` at insertion time.  Otherwise the whole block is allocated with
the prev-alloc bit preserved, the next block's header gets its prev-alloc bit
set with size and alloc bit unchanged, and when that next block is free the
updated header is mirrored into its footer. -/
theorem C5_place (fuel : Nat) (s : Heap) (bp asize : Nat) (A B : List Nat)
    (hfree : GET_ALLOC s.mem (HDRP bp) = 0)
    (hl : dllSeg s.mem 0
      (GET_8B s.mem (get_root s (GET_SIZE s.mem (HDRP bp)))) (A ++ bp :: B) 0)
    (hsep : nodesSep s.seg_free_listp (A ++ bp :: B))
    (hnd : (A ++ bp :: B).Nodup)
    (hsz8 : GET_SIZE s.mem (HDRP bp) % 8 = 0)
    (ha8 : asize % 8 = 0) (ha24 : 24 ≤ asize) (ha32 : asize < 4294967296)
    (hale : asize ≤ GET_SIZE s.mem (HDRP bp))
    (hblk : ∀ x ∈ A ++ B,
      x + 16 ≤ bp - 4 ∨ bp + GET_SIZE s.mem (HDRP bp) ≤ x - 4) :
    dllSeg (remove_from_free_list s bp).mem 0
      (GET_8B (remove_from_free_list s bp).mem
        (get_root s (GET_SIZE s.mem (HDRP bp)))) (A ++ B) 0 ∧
    (∀ lR : List Nat, 24 ≤ GET_SIZE s.mem (HDRP bp) - asize →
      dllSeg (placeSplitMem s bp asize) 0
        (GET_8B (placeSplitMem s bp asize)
          (s.seg_free_listp
            + size_class (GET_SIZE s.mem (HDRP bp) - asize) * 8)) lR 0 →
      nodesSep s.seg_free_listp ((bp + asize) :: lR) →
      ((bp + asize) :: lR).Nodup →
      lR.length < fuel →
      (∀ x ∈ lR, x + 16 ≤ bp - 4 ∨ bp + GET_SIZE s.mem (HDRP bp) ≤ x - 4) →
      place fuel s bp asize
          = insert_to_free_list fuel
              { remove_from_free_list s bp with mem := placeSplitMem s bp asize }
              (bp + asize) ∧
        GET_SIZE (place fuel s bp asize).mem (HDRP bp) = asize ∧
        GET_ALLOC (place fuel s bp asize).mem (HDRP bp) = 1 ∧
        GET_PREV_ALLOC (place fuel s bp asize).mem (HDRP bp)
          = GET_PREV_ALLOC s.mem (HDRP bp) ∧
        GET_SIZE (place fuel s bp asize).mem (HDRP (bp + asize))
          = GET_SIZE s.mem (HDRP bp) - asize ∧
        GET_ALLOC (place fuel s bp asize).mem (HDRP (bp + asize)) = 0 ∧
        GET_PREV_ALLOC (place fuel s bp asize).mem (HDRP (bp + asize)) = 2 ∧
        GET (place fuel s bp asize).mem (bp + GET_SIZE s.mem (HDRP bp) - 8)
          = GET (place fuel s bp asize).mem (HDRP (bp + asize)) ∧
        ∃ lf, dllSeg (place fuel s bp asize).mem 0
            (GET_8B (place fuel s bp asize).mem
              (s.seg_free_listp
                + size_class (GET_SIZE s.mem (HDRP bp) - asize) * 8)) lf 0 ∧
          bp + asize ∈ lf) ∧
    (GET_SIZE s.mem (HDRP bp) - asize < 24 →
      (GET_ALLOC s.mem (HDRP (bp + GET_SIZE s.mem (HDRP bp))) = 0 →
        8 ≤ GET_SIZE s.mem (HDRP (bp + GET_SIZE s.mem (HDRP bp)))) →
      GET_SIZE (place fuel s bp asize).mem (HDRP bp)
        = GET_SIZE s.mem (HDRP bp) ∧
      GET_ALLOC (place fuel s bp asize).mem (HDRP bp) = 1 ∧
      GET_PREV_ALLOC (place fuel s bp asize).mem (HDRP bp)
        = GET_PREV_ALLOC s.mem (HDRP bp) ∧
      GET_SIZE (place fuel s bp asize).mem
          (HDRP (bp + GET_SIZE s.mem (HDRP bp)))
        = GET_SIZE s.mem (HDRP (bp + GET_SIZE s.mem (HDRP bp))) ∧
      GET_ALLOC (place fuel s bp asize).mem
          (HDRP (bp + GET_SIZE s.mem (HDRP bp)))
        = GET_ALLOC s.mem (HDRP (bp + GET_SIZE s.mem (HDRP bp))) ∧
      GET_PREV_ALLOC (place fuel s bp asize).mem
          (HDRP (bp + GET_SIZE s.mem (HDRP bp))) = 2 ∧
      (GET_ALLOC s.mem (HDRP (bp + GET_SIZE s.mem (HDRP bp))) = 0 →
        GET (place fuel s bp asize).mem
            (bp + GET_SIZE s.mem (HDRP bp)
              + GET_SIZE s.mem (HDRP (bp + GET_SIZE s.mem (HDRP bp))) - 8)
          = GET (place fuel s bp asize).mem
              (HDRP (bp + GET_SIZE s.mem (HDRP bp))))) := by
  obtain ⟨hdll1, hframe1, hglob1⟩ := remove_correct s bp A B hfree hl hsep hnd
  have hbpB := hsep.1 bp (by simp)
  have hcls := size_class_le9 (GET_SIZE s.mem (HDRP bp))
  have hmemsplit : ∀ x, x ∈ A ++ bp :: B → x = bp ∨ x ∈ A ++ B := by
    intro x hx
    rcases List.mem_append.1 hx with h | h
    · exact Or.inr (List.mem_append.2 (Or.inl h))
    · rcases List.mem_cons.1 h with h | h
      · exact Or.inl h
      · exact Or.inr (List.mem_append.2 (Or.inr h))
  have hbyte1 : ∀ a : Nat, bp - 4 ≤ a → a < bp + GET_SIZE s.mem (HDRP bp) →
      (a < bp ∨ bp + 16 ≤ a) →
      (remove_from_free_list s bp).mem a = s.mem a := by
    intro a h1 h2 h3
    apply hframe1
    · right
      show s.seg_free_listp + size_class (GET_SIZE s.mem (HDRP bp)) * 8 + 8 ≤ a
      omega
    · intro x hx
      rcases hmemsplit x hx with hxbp | hxo
      · subst hxbp
        omega
      · have hbx := hsep.1 x hx
        rcases hblk x hxo with h4 | h4
        · right; omega
        · left; omega
  have hseg1 : (remove_from_free_list s bp).seg_free_listp = s.seg_free_listp := by
    rw [hglob1]
  have hhdr1 : GET (remove_from_free_list s bp).mem (HDRP bp)
      = GET s.mem (HDRP bp) := by
    apply GET_congr_of_bytes
    intro j hj
    apply hbyte1
    · show bp - 4 ≤ bp - 4 + j
      omega
    · show bp - 4 + j < bp + GET_SIZE s.mem (HDRP bp)
      omega
    · left
      show bp - 4 + j < bp
      omega
  have hpa1 : GET_PREV_ALLOC (remove_from_free_list s bp).mem (HDRP bp)
      = GET_PREV_ALLOC s.mem (HDRP bp) := by
    unfold GET_PREV_ALLOC
    rw [hhdr1]
  have hpac := prevAlloc_cases s.mem (HDRP bp)
  have hlor1 : GET_PREV_ALLOC s.mem (HDRP bp) ||| 1
      = GET_PREV_ALLOC s.mem (HDRP bp) + 1 :=
    lor_eq_add (i := 1) (by omega) (by omega)
  have hc32 : GET_SIZE s.mem (HDRP bp) < 4294967296 := by
    have h := GET_lt s.mem (HDRP bp)
    unfold GET_SIZE
    omega
  refine ⟨hdll1, ?_, ?_⟩
  · -- split case
    intro lR hr hlR hsR hndR hblkfuel hblkR
    have hrraw : 24 ≤ GET_SIZE s.mem (bp - 4) - asize := hr
    have hrs8 : (GET_SIZE s.mem (HDRP bp) - asize) % 8 = 0 := by omega
    have hv1 : PACK asize (GET_PREV_ALLOC s.mem (HDRP bp) ||| 1)
        = asize + GET_PREV_ALLOC s.mem (HDRP bp) + 1 := by
      rw [hlor1, PACK_eq_add ha8 (by omega)]
      omega
    have hv2 : PACK (GET_SIZE s.mem (HDRP bp) - asize) 2
        = GET_SIZE s.mem (HDRP bp) - asize + 2 := PACK_eq_add hrs8 (by omega)
    have hgBp : GET (placeSplitMem s bp asize) (HDRP bp)
        = asize + GET_PREV_ALLOC s.mem (HDRP bp) + 1 := by
      simp only [placeSplitMem, SET_PREVP, SET_NEXTP]
      rw [GET_PUT_8B_ne _ _ _ (HDRP bp)
        (Or.inl (by show HDRP bp + 4 ≤ bp + asize + 8; unfold HDRP; omega))]
      rw [GET_PUT_8B_ne _ _ _ (HDRP bp)
        (Or.inl (by show HDRP bp + 4 ≤ bp + asize; unfold HDRP; omega))]
      rw [GET_PUT_ne _ _ _ (HDRP bp)
        (Or.inl (by
          show HDRP bp + 4 ≤ bp + asize + (GET_SIZE s.mem (HDRP bp) - asize) - 8
          unfold HDRP; omega))]
      rw [GET_PUT_ne _ _ _ (HDRP bp)
        (Or.inl (by show HDRP bp + 4 ≤ HDRP (bp + asize); unfold HDRP; omega))]
      rw [GET_PUT, hpa1, hv1, Nat.mod_eq_of_lt (by omega)]
    have hgR : GET (placeSplitMem s bp asize) (HDRP (bp + asize))
        = GET_SIZE s.mem (HDRP bp) - asize + 2 := by
      simp only [placeSplitMem, SET_PREVP, SET_NEXTP]
      rw [GET_PUT_8B_ne _ _ _ (HDRP (bp + asize))
        (Or.inl (by show HDRP (bp + asize) + 4 ≤ bp + asize + 8; unfold HDRP; omega))]
      rw [GET_PUT_8B_ne _ _ _ (HDRP (bp + asize))
        (Or.inl (by show HDRP (bp + asize) + 4 ≤ bp + asize; unfold HDRP; omega))]
      rw [GET_PUT_ne _ _ _ (HDRP (bp + asize))
        (Or.inl (by
          show HDRP (bp + asize) + 4
            ≤ bp + asize + (GET_SIZE s.mem (HDRP bp) - asize) - 8
          unfold HDRP; omega))]
      rw [GET_PUT, hv2, Nat.mod_eq_of_lt (by omega)]
    have hgFt : GET (placeSplitMem s bp asize)
        (bp + asize + (GET_SIZE s.mem (HDRP bp) - asize) - 8)
        = GET_SIZE s.mem (HDRP bp) - asize + 2 := by
      simp only [placeSplitMem, SET_PREVP, SET_NEXTP]
      rw [GET_PUT_8B_ne _ _ _
          (bp + asize + (GET_SIZE s.mem (HDRP bp) - asize) - 8)
        (Or.inr (by
          show bp + asize + 8 + 8
            ≤ bp + asize + (GET_SIZE s.mem (HDRP bp) - asize) - 8
          omega))]
      rw [GET_PUT_8B_ne _ _ _
          (bp + asize + (GET_SIZE s.mem (HDRP bp) - asize) - 8)
        (Or.inr (by
          show bp + asize + 8
            ≤ bp + asize + (GET_SIZE s.mem (HDRP bp) - asize) - 8
          omega))]
      rw [GET_PUT, hv2, Nat.mod_eq_of_lt (by omega)]
    -- unfold place and resolve the block addresses
    simp only [place]
    rw [if_pos hr]
    set m1t := PUT (remove_from_free_list s bp).mem (HDRP bp)
      (PACK asize
        (GET_PREV_ALLOC (remove_from_free_list s bp).mem (HDRP bp) ||| 1))
      with hm1t
    have hgM1 : GET m1t (HDRP bp)
        = asize + GET_PREV_ALLOC s.mem (HDRP bp) + 1 := by
      rw [hm1t, GET_PUT, hpa1, hv1, Nat.mod_eq_of_lt (by omega)]
    have hsz1 : GET_SIZE m1t (HDRP bp) = asize := by
      show GET m1t (HDRP bp) / 8 * 8 = asize
      rw [hgM1]
      omega
    rw [NEXT_BLKP_eq, hsz1]
    set m2t := PUT m1t (HDRP (bp + asize))
      (PACK (GET_SIZE s.mem (HDRP bp) - asize) 2) with hm2t
    have hsz2 : GET_SIZE m2t (HDRP (bp + asize))
        = GET_SIZE s.mem (HDRP bp) - asize := by
      show GET m2t (HDRP (bp + asize)) / 8 * 8 = GET_SIZE s.mem (HDRP bp) - asize
      rw [hm2t, GET_PUT, hv2, Nat.mod_eq_of_lt (by omega)]
      omega
    rw [FTRP_eq, hsz2]
    set m4t := SET_NEXTP (SET_PREVP
      (PUT m2t (bp + asize + (GET_SIZE s.mem (HDRP bp) - asize) - 8)
        (PACK (GET_SIZE s.mem (HDRP bp) - asize) 2))
      (bp + asize) 0) (bp + asize) 0 with hm4t
    have hm4eq : m4t = placeSplitMem s bp asize := by
      rw [hm4t, hm2t, hm1t]
      simp only [placeSplitMem]
    rw [hm4eq]
    set s2 : Heap :=
      { remove_from_free_list s bp with mem := placeSplitMem s bp asize }
      with hs2
    have hseg2 : s2.seg_free_listp = s.seg_free_listp := by
      rw [hs2]
      exact hseg1
    have hszR : GET_SIZE s2.mem (HDRP (bp + asize))
        = GET_SIZE s.mem (HDRP bp) - asize := by
      show GET s2.mem (HDRP (bp + asize)) / 8 * 8
        = GET_SIZE s.mem (HDRP bp) - asize
      have hg : GET s2.mem (HDRP (bp + asize))
          = GET_SIZE s.mem (HDRP bp) - asize + 2 := hgR
      rw [hg]
      omega
    have hrootI : get_root s2 (GET_SIZE s2.mem (HDRP (bp + asize)))
        = s.seg_free_listp
          + size_class (GET_SIZE s.mem (HDRP bp) - asize) * 8 := by
      show s2.seg_free_listp
          + size_class (GET_SIZE s2.mem (HDRP (bp + asize))) * 8
        = s.seg_free_listp
          + size_class (GET_SIZE s.mem (HDRP bp) - asize) * 8
      rw [hszR, hseg2]
    have hbp0R : bp + asize ≠ 0 := by
      have := hsR.1 (bp + asize) (by simp)
      omega
    have hl2 : dllSeg s2.mem 0
        (GET_8B s2.mem (get_root s2 (GET_SIZE s2.mem (HDRP (bp + asize))))) lR 0 := by
      rw [hrootI]
      exact hlR
    have hsep2 : nodesSep s2.seg_free_listp ((bp + asize) :: lR) := by
      rw [hseg2]
      exact hsR
    obtain ⟨hdllI, hframeI, hglobI⟩ :=
      insert_correct fuel s2 (bp + asize) lR _ _ hbp0R hl2 hsep2 hndR hblkfuel rfl rfl
    rw [hrootI] at hdllI hframeI
    have h9R := size_class_le9 (GET_SIZE s.mem (HDRP bp) - asize)
    have hbyteI : ∀ a : Nat, bp - 4 ≤ a → a < bp + GET_SIZE s.mem (HDRP bp) →
        (a < bp + asize ∨ bp + asize + 16 ≤ a) →
        (insert_to_free_list fuel s2 (bp + asize)).mem a = s2.mem a := by
      intro a h1 h2 h3
      apply hframeI
      · right
        omega
      · intro x hx
        rcases List.mem_cons.1 hx with hxe | hxl
        · subst hxe
          omega
        · have hbx := hsR.1 x (List.mem_cons_of_mem _ hxl)
          rcases hblkR x hxl with h4 | h4
          · right; omega
          · left; omega
    have hIbp : GET (insert_to_free_list fuel s2 (bp + asize)).mem (HDRP bp)
        = asize + GET_PREV_ALLOC s.mem (HDRP bp) + 1 := by
      refine (GET_congr_of_bytes _ _ _ ?_).trans hgBp
      intro j hj
      exact hbyteI (HDRP bp + j)
        (by show bp - 4 ≤ bp - 4 + j; omega)
        (by show bp - 4 + j < bp + GET_SIZE s.mem (HDRP bp); omega)
        (Or.inl (by show bp - 4 + j < bp + asize; omega))
    have hInb : GET (insert_to_free_list fuel s2 (bp + asize)).mem
        (HDRP (bp + asize))
        = GET_SIZE s.mem (HDRP bp) - asize + 2 := by
      refine (GET_congr_of_bytes _ _ _ ?_).trans hgR
      intro j hj
      exact hbyteI (HDRP (bp + asize) + j)
        (by show bp - 4 ≤ bp + asize - 4 + j; omega)
        (by show bp + asize - 4 + j < bp + GET_SIZE s.mem (HDRP bp); omega)
        (Or.inl (by show bp + asize - 4 + j < bp + asize; omega))
    have hIft : GET (insert_to_free_list fuel s2 (bp + asize)).mem
        (bp + asize + (GET_SIZE s.mem (HDRP bp) - asize) - 8)
        = GET_SIZE s.mem (HDRP bp) - asize + 2 := by
      refine (GET_congr_of_bytes _ _ _ ?_).trans hgFt
      intro j hj
      refine hbyteI (bp + asize + (GET_SIZE s.mem (HDRP bp) - asize) - 8 + j)
        (by omega) (by omega) (Or.inr (by omega))
    refine ⟨rfl, ?_, ?_, ?_, ?_, ?_, ?_, ?_, ?_⟩
    · show GET (insert_to_free_list fuel s2 (bp + asize)).mem (HDRP bp) / 8 * 8
        = asize
      rw [hIbp]
      omega
    · show GET (insert_to_free_list fuel s2 (bp + asize)).mem (HDRP bp) % 2 = 1
      rw [hIbp]
      omega
    · show GET (insert_to_free_list fuel s2 (bp + asize)).mem (HDRP bp)
          / 2 % 2 * 2
        = GET_PREV_ALLOC s.mem (HDRP bp)
      rw [hIbp]
      omega
    · show GET (insert_to_free_list fuel s2 (bp + asize)).mem
          (HDRP (bp + asize)) / 8 * 8
        = GET_SIZE s.mem (HDRP bp) - asize
      rw [hInb]
      omega
    · show GET (insert_to_free_list fuel s2 (bp + asize)).mem
          (HDRP (bp + asize)) % 2 = 0
      rw [hInb]
      omega
    · show GET (insert_to_free_list fuel s2 (bp + asize)).mem
          (HDRP (bp + asize)) / 2 % 2 * 2 = 2
      rw [hInb]
      omega
    · have haddr : bp + GET_SIZE s.mem (HDRP bp) - 8
          = bp + asize + (GET_SIZE s.mem (HDRP bp) - asize) - 8 := by omega
      rw [haddr, hIft, hInb]
    · exact ⟨_, hdllI, by simp⟩
  · -- no-split case
    intro hrlt hns
    have haleraw : asize ≤ GET_SIZE s.mem (bp - 4) := hale
    have hv1 : PACK (GET_SIZE s.mem (HDRP bp))
        (GET_PREV_ALLOC s.mem (HDRP bp) ||| 1)
        = GET_SIZE s.mem (HDRP bp) + GET_PREV_ALLOC s.mem (HDRP bp) + 1 := by
      rw [hlor1, PACK_eq_add hsz8 (by omega)]
      omega
    have hnx0 : GET (remove_from_free_list s bp).mem
        (HDRP (bp + GET_SIZE s.mem (HDRP bp)))
        = GET s.mem (HDRP (bp + GET_SIZE s.mem (HDRP bp))) := by
      apply GET_congr_of_bytes
      intro j hj
      apply hbyte1
      · show bp - 4 ≤ bp + GET_SIZE s.mem (HDRP bp) - 4 + j
        omega
      · show bp + GET_SIZE s.mem (HDRP bp) - 4 + j
          < bp + GET_SIZE s.mem (HDRP bp)
        omega
      · right
        show bp + 16 ≤ bp + GET_SIZE s.mem (HDRP bp) - 4 + j
        omega
    have hlt2 : GET s.mem (HDRP (bp + GET_SIZE s.mem (HDRP bp))) ||| 2
        < 4294967296 := lor_two_lt _ (GET_lt _ _)
    have hfields :=
      lor_two_fields (GET s.mem (HDRP (bp + GET_SIZE s.mem (HDRP bp))))
    simp only [place]
    rw [if_neg (by omega : ¬ 24 ≤ GET_SIZE s.mem (HDRP bp) - asize)]
    set m1t := PUT (remove_from_free_list s bp).mem (HDRP bp)
      (PACK (GET_SIZE s.mem (HDRP bp))
        (GET_PREV_ALLOC (remove_from_free_list s bp).mem (HDRP bp) ||| 1))
      with hm1t
    have hgM1 : GET m1t (HDRP bp)
        = GET_SIZE s.mem (HDRP bp) + GET_PREV_ALLOC s.mem (HDRP bp) + 1 := by
      rw [hm1t, GET_PUT, hpa1, hv1, Nat.mod_eq_of_lt (by omega)]
    have hsz1 : GET_SIZE m1t (HDRP bp) = GET_SIZE s.mem (HDRP bp) := by
      show GET m1t (HDRP bp) / 8 * 8 = GET_SIZE s.mem (HDRP bp)
      rw [hgM1]
      omega
    rw [NEXT_BLKP_eq, hsz1]
    have hnx1 : GET m1t (HDRP (bp + GET_SIZE s.mem (HDRP bp)))
        = GET s.mem (HDRP (bp + GET_SIZE s.mem (HDRP bp))) := by
      rw [hm1t, GET_PUT_ne _ _ _ (HDRP (bp + GET_SIZE s.mem (HDRP bp)))
        (Or.inr (by
          show HDRP bp + 4 ≤ HDRP (bp + GET_SIZE s.mem (HDRP bp))
          unfold HDRP; omega))]
      exact hnx0
    set m2t := PUT m1t (HDRP (bp + GET_SIZE s.mem (HDRP bp)))
      (GET m1t (HDRP (bp + GET_SIZE s.mem (HDRP bp))) ||| 2) with hm2t
    have hgM2 : GET m2t (HDRP (bp + GET_SIZE s.mem (HDRP bp)))
        = GET s.mem (HDRP (bp + GET_SIZE s.mem (HDRP bp))) ||| 2 := by
      rw [hm2t, GET_PUT, hnx1, Nat.mod_eq_of_lt hlt2]
    have hal2 : GET_ALLOC m2t (HDRP (bp + GET_SIZE s.mem (HDRP bp)))
        = GET_ALLOC s.mem (HDRP (bp + GET_SIZE s.mem (HDRP bp))) := by
      show GET m2t (HDRP (bp + GET_SIZE s.mem (HDRP bp))) % 2
        = GET s.mem (HDRP (bp + GET_SIZE s.mem (HDRP bp))) % 2
      rw [hgM2]
      exact hfields.2.1
    have hsz2 : GET_SIZE m2t (HDRP (bp + GET_SIZE s.mem (HDRP bp)))
        = GET_SIZE s.mem (HDRP (bp + GET_SIZE s.mem (HDRP bp))) := by
      show GET m2t (HDRP (bp + GET_SIZE s.mem (HDRP bp))) / 8 * 8
        = GET s.mem (HDRP (bp + GET_SIZE s.mem (HDRP bp))) / 8 * 8
      rw [hgM2]
      exact hfields.1
    rw [hal2, FTRP_eq, hsz2]
    by_cases hA0 : GET_ALLOC s.mem (HDRP (bp + GET_SIZE s.mem (HDRP bp))) = 0
    · rw [if_pos hA0]
      have h8n := hns hA0
      have h8nraw : 8 ≤ GET_SIZE s.mem (bp + GET_SIZE s.mem (bp - 4) - 4) := h8n
      set m3t := PUT m2t
        (bp + GET_SIZE s.mem (HDRP bp)
          + GET_SIZE s.mem (HDRP (bp + GET_SIZE s.mem (HDRP bp))) - 8)
        (GET m2t (HDRP (bp + GET_SIZE s.mem (HDRP bp)))) with hm3t
      have hMbp : GET m3t (HDRP bp)
          = GET_SIZE s.mem (HDRP bp) + GET_PREV_ALLOC s.mem (HDRP bp) + 1 := by
        rw [hm3t, GET_PUT_ne _ _ _ (HDRP bp)
          (Or.inl (by
            show HDRP bp + 4 ≤ bp + GET_SIZE s.mem (HDRP bp)
              + GET_SIZE s.mem (HDRP (bp + GET_SIZE s.mem (HDRP bp))) - 8
            unfold HDRP; omega))]
        rw [hm2t, GET_PUT_ne _ _ _ (HDRP bp)
          (Or.inl (by
            show HDRP bp + 4 ≤ HDRP (bp + GET_SIZE s.mem (HDRP bp))
            unfold HDRP; omega))]
        exact hgM1
      have hMnx : GET m3t (HDRP (bp + GET_SIZE s.mem (HDRP bp)))
          = GET s.mem (HDRP (bp + GET_SIZE s.mem (HDRP bp))) ||| 2 := by
        rw [hm3t, GET_PUT_ne _ _ _ (HDRP (bp + GET_SIZE s.mem (HDRP bp)))
          (Or.inl (by
            show HDRP (bp + GET_SIZE s.mem (HDRP bp)) + 4
              ≤ bp + GET_SIZE s.mem (HDRP bp)
                + GET_SIZE s.mem (HDRP (bp + GET_SIZE s.mem (HDRP bp))) - 8
            unfold HDRP; omega))]
        exact hgM2
      have hMft : GET m3t
          (bp + GET_SIZE s.mem (HDRP bp)
            + GET_SIZE s.mem (HDRP (bp + GET_SIZE s.mem (HDRP bp))) - 8)
          = GET s.mem (HDRP (bp + GET_SIZE s.mem (HDRP bp))) ||| 2 := by
        rw [hm3t, GET_PUT, hgM2, Nat.mod_eq_of_lt hlt2]
      refine ⟨?_, ?_, ?_, ?_, ?_, ?_, fun _ => hMft.trans hMnx.symm⟩
      · show GET m3t (HDRP bp) / 8 * 8 = GET_SIZE s.mem (HDRP bp)
        rw [hMbp]
        omega
      · show GET m3t (HDRP bp) % 2 = 1
        rw [hMbp]
        omega
      · show GET m3t (HDRP bp) / 2 % 2 * 2 = GET_PREV_ALLOC s.mem (HDRP bp)
        rw [hMbp]
        omega
      · show GET m3t (HDRP (bp + GET_SIZE s.mem (HDRP bp))) / 8 * 8
          = GET_SIZE s.mem (HDRP (bp + GET_SIZE s.mem (HDRP bp)))
        rw [hMnx]
        exact hfields.1
      · show GET m3t (HDRP (bp + GET_SIZE s.mem (HDRP bp))) % 2
          = GET_ALLOC s.mem (HDRP (bp + GET_SIZE s.mem (HDRP bp)))
        rw [hMnx]
        exact hfields.2.1
      · show GET m3t (HDRP (bp + GET_SIZE s.mem (HDRP bp))) / 2 % 2 * 2 = 2
        rw [hMnx]
        exact hfields.2.2
    · rw [if_neg hA0]
      have hMbp : GET m2t (HDRP bp)
          = GET_SIZE s.mem (HDRP bp) + GET_PREV_ALLOC s.mem (HDRP bp) + 1 := by
        rw [hm2t, GET_PUT_ne _ _ _ (HDRP bp)
          (Or.inl (by
            show HDRP bp + 4 ≤ HDRP (bp + GET_SIZE s.mem (HDRP bp))
            unfold HDRP; omega))]
        exact hgM1
      refine ⟨?_, ?_, ?_, ?_, ?_, ?_, fun h0 => absurd h0 hA0⟩
      · show GET m2t (HDRP bp) / 8 * 8 = GET_SIZE s.mem (HDRP bp)
        rw [hMbp]
        omega
      · show GET m2t (HDRP bp) % 2 = 1
        rw [hMbp]
        omega
      · show GET m2t (HDRP bp) / 2 % 2 * 2 = GET_PREV_ALLOC s.mem (HDRP bp)
        rw [hMbp]
        omega
      · show GET m2t (HDRP (bp + GET_SIZE s.mem (HDRP bp))) / 8 * 8
          = GET_SIZE s.mem (HDRP (bp + GET_SIZE s.mem (HDRP bp)))
        rw [hgM2]
        exact hfields.1
      · show GET m2t (HDRP (bp + GET_SIZE s.mem (HDRP bp))) % 2
          = GET_ALLOC s.mem (HDRP (bp + GET_SIZE s.mem (HDRP bp)))
        rw [hgM2]
        exact hfields.2.1
      · show GET m2t (HDRP (bp + GET_SIZE s.mem (HDRP bp))) / 2 % 2 * 2 = 2
        rw [hgM2]
        exact hfields.2.2

/-- C5 witness: in the concrete heap `wsC5` (bucket 7 = `[1120]`, block of
size `4072`), `place(1120, 32)` splits: the header at `1120` becomes size
`32`, allocated, and the remainder at `1152` has size `4040`. -/
theorem C5_place_witness :
    GET_SIZE (place 1 wsC5 1120 32).mem (HDRP 1120) = 32 ∧
    GET_ALLOC (place 1 wsC5 1120 32).mem (HDRP 1120) = 1 ∧
    GET_SIZE (place 1 wsC5 1120 32).mem (HDRP (1120 + 32))
      = GET_SIZE wsC5.mem (HDRP 1120) - 32 := by
  have h := C5_place 1 wsC5 1120 32 [] [] (by decide)
    ⟨by decide, by decide, by decide, dllSeg_nil_intro _ _ _ (by decide)⟩
    ⟨by decide, by decide⟩ (by decide) (by decide) (by decide) (by decide)
    (by decide) (by decide) (by simp)
  have h2 := h.2.1 [] (by decide)
    (dllSeg_nil_intro _ _ _ (by decide))
    ⟨by decide, by decide⟩ (by decide) (by decide) (by simp)
  exact ⟨h2.2.1, h2.2.2.1, h2.2.2.2.2.1⟩

/-! ### Claim C6: coalesce -/

theorem PREV_BLKP_eq (m : Mem) (bp : Nat) :
    PREV_BLKP m bp = bp - GET_SIZE m (bp - 8) := rfl

theorem mem_middle_split {x b : Nat} {A B : List Nat} (hx : x ∈ A ++ b :: B) :
    x = b ∨ x ∈ A ++ B := by
  rcases List.mem_append.1 hx with h | h
  · exact Or.inr (List.mem_append.2 (Or.inl h))
  · rcases List.mem_cons.1 h with h | h
    · exact Or.inl h
    · exact Or.inr (List.mem_append.2 (Or.inr h))

/-- Case 1 of `coalesce`: both neighbours allocated; the block is inserted
into the bucket of its (unchanged) size. -/
theorem coalesce_case1 (fuel : Nat) (s : Heap) (bp : Nat) (lI : List Nat)
    (h1 : GET_PREV_ALLOC s.mem (HDRP bp) ≠ 0)
    (h2 : GET_ALLOC s.mem (HDRP (bp + GET_SIZE s.mem (HDRP bp))) ≠ 0)
    (hlI : dllSeg s.mem 0
      (GET_8B s.mem (get_root s (GET_SIZE s.mem (HDRP bp)))) lI 0)
    (hsepI : nodesSep s.seg_free_listp (bp :: lI))
    (hndI : (bp :: lI).Nodup)
    (hfuel : lI.length < fuel) :
    (coalesce fuel s bp).1 = bp ∧
    (coalesce fuel s bp).2 = insert_to_free_list fuel s bp ∧
    ∃ lf, dllSeg (coalesce fuel s bp).2.mem 0
        (GET_8B (coalesce fuel s bp).2.mem
          (get_root s (GET_SIZE s.mem (HDRP bp)))) lf 0 ∧ bp ∈ lf := by
  have hbp0 : bp ≠ 0 := by
    have := hsepI.1 bp (by simp)
    omega
  obtain ⟨hdllI, hframeI, hglobI⟩ :=
    insert_correct fuel s bp lI _ _ hbp0 hlI hsepI hndI hfuel rfl rfl
  have hcoal : coalesce fuel s bp = (bp, insert_to_free_list fuel s bp) := by
    simp only [coalesce]
    rw [if_pos ⟨h1, h2⟩]
  rw [hcoal]
  exact ⟨rfl, rfl, ⟨_, hdllI, by simp⟩⟩

/-- Case 2 of `coalesce`: the next block is free, the previous allocated.
The next block is removed from its bucket, the sizes are summed, header and
footer of the merged block (still at `bp`) are rewritten, and the merged
block is inserted into the bucket of the summed size. -/
theorem coalesce_case2 (fuel : Nat) (s : Heap) (bp : Nat) (An Bn lI : List Nat)
    (h1 : GET_PREV_ALLOC s.mem (HDRP bp) ≠ 0)
    (h2 : GET_ALLOC s.mem (HDRP (bp + GET_SIZE s.mem (HDRP bp))) = 0)
    (hbpb : s.seg_free_listp + 96 ≤ bp)
    (hsz8 : GET_SIZE s.mem (HDRP bp) % 8 = 0)
    (hsz24 : 24 ≤ GET_SIZE s.mem (HDRP bp))
    (hns8 : GET_SIZE s.mem (HDRP (bp + GET_SIZE s.mem (HDRP bp))) % 8 = 0)
    (hns24 : 24 ≤ GET_SIZE s.mem (HDRP (bp + GET_SIZE s.mem (HDRP bp))))
    (hsum : GET_SIZE s.mem (HDRP bp)
      + GET_SIZE s.mem (HDRP (bp + GET_SIZE s.mem (HDRP bp))) < 4294967296)
    (hlN : dllSeg s.mem 0 (GET_8B s.mem (get_root s
        (GET_SIZE s.mem (HDRP (bp + GET_SIZE s.mem (HDRP bp))))))
      (An ++ (bp + GET_SIZE s.mem (HDRP bp)) :: Bn) 0)
    (hsepN : nodesSep s.seg_free_listp
      (An ++ (bp + GET_SIZE s.mem (HDRP bp)) :: Bn))
    (hndN : (An ++ (bp + GET_SIZE s.mem (HDRP bp)) :: Bn).Nodup)
    (hblkN : ∀ x ∈ An ++ Bn, x + 16 ≤ bp - 4 ∨
      bp + GET_SIZE s.mem (HDRP bp)
        + GET_SIZE s.mem (HDRP (bp + GET_SIZE s.mem (HDRP bp))) ≤ x - 4)
    (hlI : dllSeg (coalesceMem2 s bp) 0 (GET_8B (coalesceMem2 s bp)
      (s.seg_free_listp + size_class (GET_SIZE s.mem (HDRP bp)
        + GET_SIZE s.mem (HDRP (bp + GET_SIZE s.mem (HDRP bp)))) * 8)) lI 0)
    (hsepI : nodesSep s.seg_free_listp (bp :: lI))
    (hndI : (bp :: lI).Nodup)
    (hfuel : lI.length < fuel)
    (hblkI : ∀ x ∈ lI, x + 16 ≤ bp - 4 ∨
      bp + GET_SIZE s.mem (HDRP bp)
        + GET_SIZE s.mem (HDRP (bp + GET_SIZE s.mem (HDRP bp))) ≤ x - 4) :
    (coalesce fuel s bp).1 = bp ∧
    (coalesce fuel s bp).2 = insert_to_free_list fuel
      { remove_from_free_list s (bp + GET_SIZE s.mem (HDRP bp))
        with mem := coalesceMem2 s bp } bp ∧
    dllSeg (remove_from_free_list s (bp + GET_SIZE s.mem (HDRP bp))).mem 0
      (GET_8B (remove_from_free_list s (bp + GET_SIZE s.mem (HDRP bp))).mem
        (get_root s (GET_SIZE s.mem (HDRP (bp + GET_SIZE s.mem (HDRP bp))))))
      (An ++ Bn) 0 ∧
    GET_SIZE (coalesce fuel s bp).2.mem (HDRP bp)
      = GET_SIZE s.mem (HDRP bp)
        + GET_SIZE s.mem (HDRP (bp + GET_SIZE s.mem (HDRP bp))) ∧
    GET_ALLOC (coalesce fuel s bp).2.mem (HDRP bp) = 0 ∧
    GET_PREV_ALLOC (coalesce fuel s bp).2.mem (HDRP bp) = 2 ∧
    GET (coalesce fuel s bp).2.mem (bp + (GET_SIZE s.mem (HDRP bp)
        + GET_SIZE s.mem (HDRP (bp + GET_SIZE s.mem (HDRP bp)))) - 8)
      = GET (coalesce fuel s bp).2.mem (HDRP bp) ∧
    ∃ lf, dllSeg (coalesce fuel s bp).2.mem 0
        (GET_8B (coalesce fuel s bp).2.mem
          (s.seg_free_listp + size_class (GET_SIZE s.mem (HDRP bp)
            + GET_SIZE s.mem (HDRP (bp + GET_SIZE s.mem (HDRP bp)))) * 8)) lf 0 ∧
      bp ∈ lf := by
  have hsz24r : 24 ≤ GET_SIZE s.mem (bp - 4) := hsz24
  have hns24r : 24 ≤ GET_SIZE s.mem (bp + GET_SIZE s.mem (bp - 4) - 4) := hns24
  have hsz8r : GET_SIZE s.mem (bp - 4) % 8 = 0 := hsz8
  have hns8r : GET_SIZE s.mem (bp + GET_SIZE s.mem (bp - 4) - 4) % 8 = 0 := hns8
  have hsumr : GET_SIZE s.mem (bp - 4)
      + GET_SIZE s.mem (bp + GET_SIZE s.mem (bp - 4) - 4) < 4294967296 := hsum
  have hnxb := hsepN.1 (bp + GET_SIZE s.mem (HDRP bp)) (by simp)
  have hbp0 : bp ≠ 0 := by omega
  obtain ⟨hdllN, hframeN, hglobN⟩ :=
    remove_correct s (bp + GET_SIZE s.mem (HDRP bp)) An Bn h2 hlN hsepN hndN
  have hseg1 : (remove_from_free_list s
      (bp + GET_SIZE s.mem (HDRP bp))).seg_free_listp = s.seg_free_listp := by
    rw [hglobN]
  have hclsN := size_class_le9
    (GET_SIZE s.mem (HDRP (bp + GET_SIZE s.mem (HDRP bp))))
  have hbyte1 : ∀ a : Nat, bp - 4 ≤ a →
      a < bp + GET_SIZE s.mem (HDRP bp)
        + GET_SIZE s.mem (HDRP (bp + GET_SIZE s.mem (HDRP bp))) →
      (a < bp + GET_SIZE s.mem (HDRP bp)
        ∨ bp + GET_SIZE s.mem (HDRP bp) + 16 ≤ a) →
      (remove_from_free_list s (bp + GET_SIZE s.mem (HDRP bp))).mem a
        = s.mem a := by
    intro a ha1 ha2 ha3
    apply hframeN
    · right
      show s.seg_free_listp + size_class
        (GET_SIZE s.mem (HDRP (bp + GET_SIZE s.mem (HDRP bp)))) * 8 + 8 ≤ a
      omega
    · intro x hx
      rcases mem_middle_split hx with hxe | hxo
      · subst hxe
        omega
      · have hbx := hsepN.1 x hx
        rcases hblkN x hxo with h4 | h4
        · right; omega
        · left; omega
  have hhdrbp : GET (remove_from_free_list s
      (bp + GET_SIZE s.mem (HDRP bp))).mem (HDRP bp) = GET s.mem (HDRP bp) := by
    apply GET_congr_of_bytes
    intro j hj
    apply hbyte1
    · show bp - 4 ≤ bp - 4 + j
      omega
    · show bp - 4 + j < bp + GET_SIZE s.mem (HDRP bp)
        + GET_SIZE s.mem (HDRP (bp + GET_SIZE s.mem (HDRP bp)))
      omega
    · left
      show bp - 4 + j < bp + GET_SIZE s.mem (HDRP bp)
      omega
  have hszbp1 : GET_SIZE (remove_from_free_list s
      (bp + GET_SIZE s.mem (HDRP bp))).mem (HDRP bp)
      = GET_SIZE s.mem (HDRP bp) := by
    show GET (remove_from_free_list s
      (bp + GET_SIZE s.mem (HDRP bp))).mem (HDRP bp) / 8 * 8
      = GET_SIZE s.mem (HDRP bp)
    rw [hhdrbp]
    rfl
  have hhdrnx : GET (remove_from_free_list s
      (bp + GET_SIZE s.mem (HDRP bp))).mem
      (HDRP (bp + GET_SIZE s.mem (HDRP bp)))
      = GET s.mem (HDRP (bp + GET_SIZE s.mem (HDRP bp))) := by
    apply GET_congr_of_bytes
    intro j hj
    apply hbyte1
    · show bp - 4 ≤ bp + GET_SIZE s.mem (HDRP bp) - 4 + j
      omega
    · show bp + GET_SIZE s.mem (HDRP bp) - 4 + j
        < bp + GET_SIZE s.mem (HDRP bp)
          + GET_SIZE s.mem (HDRP (bp + GET_SIZE s.mem (HDRP bp)))
      omega
    · left
      show bp + GET_SIZE s.mem (HDRP bp) - 4 + j
        < bp + GET_SIZE s.mem (HDRP bp)
      omega
  have hsznx1 : GET_SIZE (remove_from_free_list s
      (bp + GET_SIZE s.mem (HDRP bp))).mem
      (HDRP (bp + GET_SIZE s.mem (HDRP bp)))
      = GET_SIZE s.mem (HDRP (bp + GET_SIZE s.mem (HDRP bp))) := by
    show GET (remove_from_free_list s
      (bp + GET_SIZE s.mem (HDRP bp))).mem
      (HDRP (bp + GET_SIZE s.mem (HDRP bp))) / 8 * 8
      = GET_SIZE s.mem (HDRP (bp + GET_SIZE s.mem (HDRP bp)))
    rw [hhdrnx]
    rfl
  have hp8 : (GET_SIZE s.mem (HDRP bp)
      + GET_SIZE s.mem (HDRP (bp + GET_SIZE s.mem (HDRP bp)))) % 8 = 0 := by
    omega
  have hv2 : PACK (GET_SIZE s.mem (HDRP bp)
      + GET_SIZE s.mem (HDRP (bp + GET_SIZE s.mem (HDRP bp)))) 2
      = GET_SIZE s.mem (HDRP bp)
        + GET_SIZE s.mem (HDRP (bp + GET_SIZE s.mem (HDRP bp))) + 2 :=
    PACK_eq_add hp8 (by omega)
  have hcoal : coalesce fuel s bp
      = (bp, insert_to_free_list fuel
          { remove_from_free_list s (bp + GET_SIZE s.mem (HDRP bp))
            with mem := coalesceMem2 s bp } bp) := by
    simp only [coalesce, NEXT_BLKP_eq]
    rw [if_neg (show ¬ (GET_PREV_ALLOC s.mem (HDRP bp) ≠ 0 ∧
        GET_ALLOC s.mem (HDRP (bp + GET_SIZE s.mem (HDRP bp))) ≠ 0) from
      fun hc => hc.2 h2)]
    rw [if_pos (show GET_PREV_ALLOC s.mem (HDRP bp) ≠ 0 ∧
        GET_ALLOC s.mem (HDRP (bp + GET_SIZE s.mem (HDRP bp))) = 0 from
      ⟨h1, h2⟩)]
    rw [hszbp1, hsznx1]
    set m1t := PUT (remove_from_free_list s
        (bp + GET_SIZE s.mem (HDRP bp))).mem (HDRP bp)
      (PACK (GET_SIZE s.mem (HDRP bp)
        + GET_SIZE s.mem (HDRP (bp + GET_SIZE s.mem (HDRP bp)))) 2) with hm1t
    have hgM1 : GET m1t (HDRP bp)
        = GET_SIZE s.mem (HDRP bp)
          + GET_SIZE s.mem (HDRP (bp + GET_SIZE s.mem (HDRP bp))) + 2 := by
      rw [hm1t, GET_PUT, hv2, Nat.mod_eq_of_lt (by omega)]
    have hszM1 : GET_SIZE m1t (HDRP bp)
        = GET_SIZE s.mem (HDRP bp)
          + GET_SIZE s.mem (HDRP (bp + GET_SIZE s.mem (HDRP bp))) := by
      show GET m1t (HDRP bp) / 8 * 8 = GET_SIZE s.mem (HDRP bp)
        + GET_SIZE s.mem (HDRP (bp + GET_SIZE s.mem (HDRP bp)))
      rw [hgM1]
      omega
    rw [FTRP_eq, hszM1]
    have hfold : PUT m1t (bp + (GET_SIZE s.mem (HDRP bp)
        + GET_SIZE s.mem (HDRP (bp + GET_SIZE s.mem (HDRP bp)))) - 8)
        (GET m1t (HDRP bp)) = coalesceMem2 s bp := by
      rw [hm1t]
      simp only [coalesceMem2]
    rw [hfold]
  rw [hcoal]
  set s2t := { remove_from_free_list s (bp + GET_SIZE s.mem (HDRP bp))
    with mem := coalesceMem2 s bp } with hs2t
  have hseg2 : s2t.seg_free_listp = s.seg_free_listp := by
    rw [hs2t]
    exact hseg1
  have hgBp2 : GET (coalesceMem2 s bp) (HDRP bp)
      = GET_SIZE s.mem (HDRP bp)
        + GET_SIZE s.mem (HDRP (bp + GET_SIZE s.mem (HDRP bp))) + 2 := by
    simp only [coalesceMem2]
    rw [GET_PUT_ne _ _ _ (HDRP bp)
      (Or.inl (by
        show HDRP bp + 4 ≤ bp + (GET_SIZE s.mem (HDRP bp)
          + GET_SIZE s.mem (HDRP (bp + GET_SIZE s.mem (HDRP bp)))) - 8
        unfold HDRP
        omega))]
    rw [GET_PUT, hv2, Nat.mod_eq_of_lt (by omega)]
  have hftBp2 : GET (coalesceMem2 s bp)
      (bp + (GET_SIZE s.mem (HDRP bp)
        + GET_SIZE s.mem (HDRP (bp + GET_SIZE s.mem (HDRP bp)))) - 8)
      = GET_SIZE s.mem (HDRP bp)
        + GET_SIZE s.mem (HDRP (bp + GET_SIZE s.mem (HDRP bp))) + 2 := by
    simp only [coalesceMem2]
    rw [GET_PUT, GET_PUT, hv2, Nat.mod_eq_of_lt (by omega),
      Nat.mod_eq_of_lt (by omega)]
  have hsumI : GET_SIZE (coalesceMem2 s bp) (HDRP bp)
      = GET_SIZE s.mem (HDRP bp)
        + GET_SIZE s.mem (HDRP (bp + GET_SIZE s.mem (HDRP bp))) := by
    show GET (coalesceMem2 s bp) (HDRP bp) / 8 * 8 = GET_SIZE s.mem (HDRP bp)
      + GET_SIZE s.mem (HDRP (bp + GET_SIZE s.mem (HDRP bp)))
    rw [hgBp2]
    omega
  have hrootI : get_root s2t (GET_SIZE s2t.mem (HDRP bp))
      = s.seg_free_listp + size_class (GET_SIZE s.mem (HDRP bp)
        + GET_SIZE s.mem (HDRP (bp + GET_SIZE s.mem (HDRP bp)))) * 8 := by
    show s2t.seg_free_listp + size_class (GET_SIZE s2t.mem (HDRP bp)) * 8
      = s.seg_free_listp + size_class (GET_SIZE s.mem (HDRP bp)
        + GET_SIZE s.mem (HDRP (bp + GET_SIZE s.mem (HDRP bp)))) * 8
    have hx : GET_SIZE s2t.mem (HDRP bp) = GET_SIZE s.mem (HDRP bp)
        + GET_SIZE s.mem (HDRP (bp + GET_SIZE s.mem (HDRP bp))) := hsumI
    rw [hx, hseg2]
  have hl2 : dllSeg s2t.mem 0
      (GET_8B s2t.mem (get_root s2t (GET_SIZE s2t.mem (HDRP bp)))) lI 0 := by
    rw [hrootI]
    exact hlI
  have hsep2 : nodesSep s2t.seg_free_listp (bp :: lI) := by
    rw [hseg2]
    exact hsepI
  obtain ⟨hdllI, hframeI, hglobI⟩ :=
    insert_correct fuel s2t bp lI _ _ hbp0 hl2 hsep2 hndI hfuel rfl rfl
  rw [hrootI] at hdllI hframeI
  have hcls2 := size_class_le9 (GET_SIZE s.mem (HDRP bp)
    + GET_SIZE s.mem (HDRP (bp + GET_SIZE s.mem (HDRP bp))))
  have hbyteI : ∀ a : Nat, bp - 4 ≤ a →
      a < bp + GET_SIZE s.mem (HDRP bp)
        + GET_SIZE s.mem (HDRP (bp + GET_SIZE s.mem (HDRP bp))) →
      (a < bp ∨ bp + 16 ≤ a) →
      (insert_to_free_list fuel s2t bp).mem a = s2t.mem a := by
    intro a ha1 ha2 ha3
    apply hframeI
    · right
      omega
    · intro x hx
      rcases List.mem_cons.1 hx with hxe | hxl
      · subst hxe
        omega
      · have hbx := hsepI.1 x (List.mem_cons_of_mem _ hxl)
        rcases hblkI x hxl with h4 | h4
        · right; omega
        · left; omega
  have hIbp : GET (insert_to_free_list fuel s2t bp).mem (HDRP bp)
      = GET_SIZE s.mem (HDRP bp)
        + GET_SIZE s.mem (HDRP (bp + GET_SIZE s.mem (HDRP bp))) + 2 := by
    refine (GET_congr_of_bytes _ _ _ ?_).trans hgBp2
    intro j hj
    exact hbyteI (HDRP bp + j)
      (by show bp - 4 ≤ bp - 4 + j; omega)
      (by show bp - 4 + j < bp + GET_SIZE s.mem (HDRP bp)
        + GET_SIZE s.mem (HDRP (bp + GET_SIZE s.mem (HDRP bp))); omega)
      (Or.inl (by show bp - 4 + j < bp; omega))
  have hIft : GET (insert_to_free_list fuel s2t bp).mem
      (bp + (GET_SIZE s.mem (HDRP bp)
        + GET_SIZE s.mem (HDRP (bp + GET_SIZE s.mem (HDRP bp)))) - 8)
      = GET_SIZE s.mem (HDRP bp)
        + GET_SIZE s.mem (HDRP (bp + GET_SIZE s.mem (HDRP bp))) + 2 := by
    refine (GET_congr_of_bytes _ _ _ ?_).trans hftBp2
    intro j hj
    refine hbyteI (bp + (GET_SIZE s.mem (HDRP bp)
        + GET_SIZE s.mem (HDRP (bp + GET_SIZE s.mem (HDRP bp)))) - 8 + j)
      (by omega) (by omega) (Or.inr (by omega))
  refine ⟨rfl, rfl, hdllN, ?_, ?_, ?_, ?_, ?_⟩
  · show GET (insert_to_free_list fuel s2t bp).mem (HDRP bp) / 8 * 8
      = GET_SIZE s.mem (HDRP bp)
        + GET_SIZE s.mem (HDRP (bp + GET_SIZE s.mem (HDRP bp)))
    rw [hIbp]
    omega
  · show GET (insert_to_free_list fuel s2t bp).mem (HDRP bp) % 2 = 0
    rw [hIbp]
    omega
  · show GET (insert_to_free_list fuel s2t bp).mem (HDRP bp) / 2 % 2 * 2 = 2
    rw [hIbp]
    omega
  · show GET (insert_to_free_list fuel s2t bp).mem
      (bp + (GET_SIZE s.mem (HDRP bp)
        + GET_SIZE s.mem (HDRP (bp + GET_SIZE s.mem (HDRP bp)))) - 8)
      = GET (insert_to_free_list fuel s2t bp).mem (HDRP bp)
    rw [hIft, hIbp]
  · exact ⟨_, hdllI, by simp⟩

set_option maxHeartbeats 800000 in
/-- Case 3 of `coalesce`: the previous block is free, the next allocated.
The previous block is removed from its bucket, the block shifts to the
predecessor, sizes are summed, the merged header inherits the predecessor's
prev-alloc bit, header and footer are rewritten, and the merged block is
inserted into the bucket of the summed size. -/
theorem coalesce_case3 (fuel : Nat) (s : Heap) (bp : Nat) (Ap Bp lI : List Nat)
    (h1 : GET_PREV_ALLOC s.mem (HDRP bp) = 0)
    (h2 : GET_ALLOC s.mem (HDRP (bp + GET_SIZE s.mem (HDRP bp))) ≠ 0)
    (hsz8 : GET_SIZE s.mem (HDRP bp) % 8 = 0)
    (hsz24 : 24 ≤ GET_SIZE s.mem (HDRP bp))
    (hps8 : GET_SIZE s.mem (HDRP (bp - GET_SIZE s.mem (bp - 8))) % 8 = 0)
    (hps24 : 24 ≤ GET_SIZE s.mem (HDRP (bp - GET_SIZE s.mem (bp - 8))))
    (hpadj : bp - GET_SIZE s.mem (bp - 8)
      + GET_SIZE s.mem (HDRP (bp - GET_SIZE s.mem (bp - 8))) = bp)
    (hsum : GET_SIZE s.mem (HDRP bp)
      + GET_SIZE s.mem (HDRP (bp - GET_SIZE s.mem (bp - 8))) < 4294967296)
    (hlP : dllSeg s.mem 0 (GET_8B s.mem (get_root s
        (GET_SIZE s.mem (HDRP (bp - GET_SIZE s.mem (bp - 8))))))
      (Ap ++ (bp - GET_SIZE s.mem (bp - 8)) :: Bp) 0)
    (hfreeP : GET_ALLOC s.mem (HDRP (bp - GET_SIZE s.mem (bp - 8))) = 0)
    (hsepP : nodesSep s.seg_free_listp
      (Ap ++ (bp - GET_SIZE s.mem (bp - 8)) :: Bp))
    (hndP : (Ap ++ (bp - GET_SIZE s.mem (bp - 8)) :: Bp).Nodup)
    (hblkP : ∀ x ∈ Ap ++ Bp, x + 16 ≤ bp - GET_SIZE s.mem (bp - 8) - 4 ∨
      bp + GET_SIZE s.mem (HDRP bp) ≤ x - 4)
    (hlI : dllSeg (coalesceMem3 s bp) 0 (GET_8B (coalesceMem3 s bp)
      (s.seg_free_listp + size_class (GET_SIZE s.mem (HDRP bp)
        + GET_SIZE s.mem (HDRP (bp - GET_SIZE s.mem (bp - 8)))) * 8)) lI 0)
    (hsepI : nodesSep s.seg_free_listp ((bp - GET_SIZE s.mem (bp - 8)) :: lI))
    (hndI : ((bp - GET_SIZE s.mem (bp - 8)) :: lI).Nodup)
    (hfuel : lI.length < fuel)
    (hblkI : ∀ x ∈ lI, x + 16 ≤ bp - GET_SIZE s.mem (bp - 8) - 4 ∨
      bp + GET_SIZE s.mem (HDRP bp) ≤ x - 4) :
    (coalesce fuel s bp).1 = bp - GET_SIZE s.mem (bp - 8) ∧
    (coalesce fuel s bp).2 = insert_to_free_list fuel
      { remove_from_free_list s (bp - GET_SIZE s.mem (bp - 8))
        with mem := coalesceMem3 s bp } (bp - GET_SIZE s.mem (bp - 8)) ∧
    dllSeg (remove_from_free_list s (bp - GET_SIZE s.mem (bp - 8))).mem 0
      (GET_8B (remove_from_free_list s (bp - GET_SIZE s.mem (bp - 8))).mem
        (get_root s (GET_SIZE s.mem (HDRP (bp - GET_SIZE s.mem (bp - 8))))))
      (Ap ++ Bp) 0 ∧
    GET_SIZE (coalesce fuel s bp).2.mem (HDRP (bp - GET_SIZE s.mem (bp - 8)))
      = GET_SIZE s.mem (HDRP bp)
        + GET_SIZE s.mem (HDRP (bp - GET_SIZE s.mem (bp - 8))) ∧
    GET_ALLOC (coalesce fuel s bp).2.mem
      (HDRP (bp - GET_SIZE s.mem (bp - 8))) = 0 ∧
    GET_PREV_ALLOC (coalesce fuel s bp).2.mem
        (HDRP (bp - GET_SIZE s.mem (bp - 8)))
      = GET_PREV_ALLOC s.mem (HDRP (bp - GET_SIZE s.mem (bp - 8))) ∧
    GET (coalesce fuel s bp).2.mem (bp - GET_SIZE s.mem (bp - 8)
        + (GET_SIZE s.mem (HDRP bp)
          + GET_SIZE s.mem (HDRP (bp - GET_SIZE s.mem (bp - 8)))) - 8)
      = GET (coalesce fuel s bp).2.mem (HDRP (bp - GET_SIZE s.mem (bp - 8))) ∧
    ∃ lf, dllSeg (coalesce fuel s bp).2.mem 0
        (GET_8B (coalesce fuel s bp).2.mem
          (s.seg_free_listp + size_class (GET_SIZE s.mem (HDRP bp)
            + GET_SIZE s.mem (HDRP (bp - GET_SIZE s.mem (bp - 8)))) * 8)) lf 0 ∧
      bp - GET_SIZE s.mem (bp - 8) ∈ lf := by
  have hsz24r : 24 ≤ GET_SIZE s.mem (bp - 4) := hsz24
  have hsz8r : GET_SIZE s.mem (bp - 4) % 8 = 0 := hsz8
  have hps24r : 24 ≤ GET_SIZE s.mem (bp - GET_SIZE s.mem (bp - 8) - 4) := hps24
  have hps8r : GET_SIZE s.mem (bp - GET_SIZE s.mem (bp - 8) - 4) % 8 = 0 := hps8
  have hpadjr : bp - GET_SIZE s.mem (bp - 8)
      + GET_SIZE s.mem (bp - GET_SIZE s.mem (bp - 8) - 4) = bp := hpadj
  have hsumr : GET_SIZE s.mem (bp - 4)
      + GET_SIZE s.mem (bp - GET_SIZE s.mem (bp - 8) - 4) < 4294967296 := hsum
  have hpvb := hsepP.1 (bp - GET_SIZE s.mem (bp - 8)) (by simp)
  have hbp0P : bp - GET_SIZE s.mem (bp - 8) ≠ 0 := by omega
  obtain ⟨hdllP, hframeP, hglobP⟩ :=
    remove_correct s (bp - GET_SIZE s.mem (bp - 8)) Ap Bp hfreeP hlP hsepP hndP
  have hseg1 : (remove_from_free_list s
      (bp - GET_SIZE s.mem (bp - 8))).seg_free_listp = s.seg_free_listp := by
    rw [hglobP]
  have hclsP := size_class_le9
    (GET_SIZE s.mem (HDRP (bp - GET_SIZE s.mem (bp - 8))))
  have hbyte1 : ∀ a : Nat, bp - GET_SIZE s.mem (bp - 8) - 4 ≤ a →
      a < bp + GET_SIZE s.mem (HDRP bp) →
      (a < bp - GET_SIZE s.mem (bp - 8)
        ∨ bp - GET_SIZE s.mem (bp - 8) + 16 ≤ a) →
      (remove_from_free_list s (bp - GET_SIZE s.mem (bp - 8))).mem a
        = s.mem a := by
    intro a ha1 ha2 ha3
    apply hframeP
    · right
      show s.seg_free_listp + size_class
        (GET_SIZE s.mem (HDRP (bp - GET_SIZE s.mem (bp - 8)))) * 8 + 8 ≤ a
      omega
    · intro x hx
      rcases mem_middle_split hx with hxe | hxo
      · subst hxe
        omega
      · have hbx := hsepP.1 x hx
        rcases hblkP x hxo with h4 | h4
        · right; omega
        · left; omega
  have hhdrpv : GET (remove_from_free_list s
      (bp - GET_SIZE s.mem (bp - 8))).mem
      (HDRP (bp - GET_SIZE s.mem (bp - 8)))
      = GET s.mem (HDRP (bp - GET_SIZE s.mem (bp - 8))) := by
    apply GET_congr_of_bytes
    intro j hj
    apply hbyte1
    · show bp - GET_SIZE s.mem (bp - 8) - 4
        ≤ bp - GET_SIZE s.mem (bp - 8) - 4 + j
      omega
    · show bp - GET_SIZE s.mem (bp - 8) - 4 + j
        < bp + GET_SIZE s.mem (HDRP bp)
      omega
    · left
      show bp - GET_SIZE s.mem (bp - 8) - 4 + j < bp - GET_SIZE s.mem (bp - 8)
      omega
  have hszpv1 : GET_SIZE (remove_from_free_list s
      (bp - GET_SIZE s.mem (bp - 8))).mem
      (HDRP (bp - GET_SIZE s.mem (bp - 8)))
      = GET_SIZE s.mem (HDRP (bp - GET_SIZE s.mem (bp - 8))) := by
    show GET (remove_from_free_list s
      (bp - GET_SIZE s.mem (bp - 8))).mem
      (HDRP (bp - GET_SIZE s.mem (bp - 8))) / 8 * 8
      = GET_SIZE s.mem (HDRP (bp - GET_SIZE s.mem (bp - 8)))
    rw [hhdrpv]
    rfl
  have hpapv1 : GET_PREV_ALLOC (remove_from_free_list s
      (bp - GET_SIZE s.mem (bp - 8))).mem
      (HDRP (bp - GET_SIZE s.mem (bp - 8)))
      = GET_PREV_ALLOC s.mem (HDRP (bp - GET_SIZE s.mem (bp - 8))) := by
    unfold GET_PREV_ALLOC
    rw [hhdrpv]
  have hpapc := prevAlloc_cases s.mem (HDRP (bp - GET_SIZE s.mem (bp - 8)))
  have hp8 : (GET_SIZE s.mem (HDRP bp)
      + GET_SIZE s.mem (HDRP (bp - GET_SIZE s.mem (bp - 8)))) % 8 = 0 := by
    omega
  have hvP : PACK (GET_SIZE s.mem (HDRP bp)
      + GET_SIZE s.mem (HDRP (bp - GET_SIZE s.mem (bp - 8))))
      (GET_PREV_ALLOC s.mem (HDRP (bp - GET_SIZE s.mem (bp - 8))))
      = GET_SIZE s.mem (HDRP bp)
        + GET_SIZE s.mem (HDRP (bp - GET_SIZE s.mem (bp - 8)))
        + GET_PREV_ALLOC s.mem (HDRP (bp - GET_SIZE s.mem (bp - 8))) :=
    PACK_eq_add hp8 (by omega)
  have hcoal : coalesce fuel s bp
      = (bp - GET_SIZE s.mem (bp - 8), insert_to_free_list fuel
          { remove_from_free_list s (bp - GET_SIZE s.mem (bp - 8))
            with mem := coalesceMem3 s bp } (bp - GET_SIZE s.mem (bp - 8))) := by
    simp only [coalesce, NEXT_BLKP_eq, PREV_BLKP_eq]
    rw [if_neg (show ¬ (GET_PREV_ALLOC s.mem (HDRP bp) ≠ 0 ∧
        GET_ALLOC s.mem (HDRP (bp + GET_SIZE s.mem (HDRP bp))) ≠ 0) from
      fun hc => hc.1 h1)]
    rw [if_neg (show ¬ (GET_PREV_ALLOC s.mem (HDRP bp) ≠ 0 ∧
        GET_ALLOC s.mem (HDRP (bp + GET_SIZE s.mem (HDRP bp))) = 0) from
      fun hc => hc.1 h1)]
    rw [if_pos (show GET_PREV_ALLOC s.mem (HDRP bp) = 0 ∧
        GET_ALLOC s.mem (HDRP (bp + GET_SIZE s.mem (HDRP bp))) ≠ 0 from
      ⟨h1, h2⟩)]
    rw [hszpv1, hpapv1]
    set m1t := PUT (remove_from_free_list s
        (bp - GET_SIZE s.mem (bp - 8))).mem
      (HDRP (bp - GET_SIZE s.mem (bp - 8)))
      (PACK (GET_SIZE s.mem (HDRP bp)
          + GET_SIZE s.mem (HDRP (bp - GET_SIZE s.mem (bp - 8))))
        (GET_PREV_ALLOC s.mem (HDRP (bp - GET_SIZE s.mem (bp - 8)))))
      with hm1t
    have hgM1 : GET m1t (HDRP (bp - GET_SIZE s.mem (bp - 8)))
        = GET_SIZE s.mem (HDRP bp)
          + GET_SIZE s.mem (HDRP (bp - GET_SIZE s.mem (bp - 8)))
          + GET_PREV_ALLOC s.mem (HDRP (bp - GET_SIZE s.mem (bp - 8))) := by
      rw [hm1t, GET_PUT, hvP, Nat.mod_eq_of_lt (by omega)]
    have hszM1 : GET_SIZE m1t (HDRP (bp - GET_SIZE s.mem (bp - 8)))
        = GET_SIZE s.mem (HDRP bp)
          + GET_SIZE s.mem (HDRP (bp - GET_SIZE s.mem (bp - 8))) := by
      show GET m1t (HDRP (bp - GET_SIZE s.mem (bp - 8))) / 8 * 8
        = GET_SIZE s.mem (HDRP bp)
          + GET_SIZE s.mem (HDRP (bp - GET_SIZE s.mem (bp - 8)))
      rw [hgM1]
      omega
    rw [FTRP_eq, hszM1]
    have hfold : PUT m1t (bp - GET_SIZE s.mem (bp - 8)
        + (GET_SIZE s.mem (HDRP bp)
          + GET_SIZE s.mem (HDRP (bp - GET_SIZE s.mem (bp - 8)))) - 8)
        (GET m1t (HDRP (bp - GET_SIZE s.mem (bp - 8)))) = coalesceMem3 s bp := by
      rw [hm1t]
      simp only [coalesceMem3]
    rw [hfold]
  rw [hcoal]
  set s2t := { remove_from_free_list s (bp - GET_SIZE s.mem (bp - 8))
    with mem := coalesceMem3 s bp } with hs2t
  have hseg2 : s2t.seg_free_listp = s.seg_free_listp := by
    rw [hs2t]
    exact hseg1
  have hgPv2 : GET (coalesceMem3 s bp) (HDRP (bp - GET_SIZE s.mem (bp - 8)))
      = GET_SIZE s.mem (HDRP bp)
        + GET_SIZE s.mem (HDRP (bp - GET_SIZE s.mem (bp - 8)))
        + GET_PREV_ALLOC s.mem (HDRP (bp - GET_SIZE s.mem (bp - 8))) := by
    simp only [coalesceMem3]
    rw [GET_PUT_ne _ _ _ (HDRP (bp - GET_SIZE s.mem (bp - 8)))
      (Or.inl (by
        show HDRP (bp - GET_SIZE s.mem (bp - 8)) + 4
          ≤ bp - GET_SIZE s.mem (bp - 8) + (GET_SIZE s.mem (HDRP bp)
            + GET_SIZE s.mem (HDRP (bp - GET_SIZE s.mem (bp - 8)))) - 8
        unfold HDRP
        omega))]
    rw [GET_PUT, hvP, Nat.mod_eq_of_lt (by omega)]
  have hftPv2 : GET (coalesceMem3 s bp)
      (bp - GET_SIZE s.mem (bp - 8) + (GET_SIZE s.mem (HDRP bp)
        + GET_SIZE s.mem (HDRP (bp - GET_SIZE s.mem (bp - 8)))) - 8)
      = GET_SIZE s.mem (HDRP bp)
        + GET_SIZE s.mem (HDRP (bp - GET_SIZE s.mem (bp - 8)))
        + GET_PREV_ALLOC s.mem (HDRP (bp - GET_SIZE s.mem (bp - 8))) := by
    simp only [coalesceMem3]
    rw [GET_PUT, GET_PUT, hvP, Nat.mod_eq_of_lt (by omega),
      Nat.mod_eq_of_lt (by omega)]
  have hsumI : GET_SIZE (coalesceMem3 s bp)
      (HDRP (bp - GET_SIZE s.mem (bp - 8)))
      = GET_SIZE s.mem (HDRP bp)
        + GET_SIZE s.mem (HDRP (bp - GET_SIZE s.mem (bp - 8))) := by
    show GET (coalesceMem3 s bp) (HDRP (bp - GET_SIZE s.mem (bp - 8))) / 8 * 8
      = GET_SIZE s.mem (HDRP bp)
        + GET_SIZE s.mem (HDRP (bp - GET_SIZE s.mem (bp - 8)))
    rw [hgPv2]
    omega
  have hrootI : get_root s2t
      (GET_SIZE s2t.mem (HDRP (bp - GET_SIZE s.mem (bp - 8))))
      = s.seg_free_listp + size_class (GET_SIZE s.mem (HDRP bp)
        + GET_SIZE s.mem (HDRP (bp - GET_SIZE s.mem (bp - 8)))) * 8 := by
    show s2t.seg_free_listp + size_class
        (GET_SIZE s2t.mem (HDRP (bp - GET_SIZE s.mem (bp - 8)))) * 8
      = s.seg_free_listp + size_class (GET_SIZE s.mem (HDRP bp)
        + GET_SIZE s.mem (HDRP (bp - GET_SIZE s.mem (bp - 8)))) * 8
    have hx : GET_SIZE s2t.mem (HDRP (bp - GET_SIZE s.mem (bp - 8)))
        = GET_SIZE s.mem (HDRP bp)
          + GET_SIZE s.mem (HDRP (bp - GET_SIZE s.mem (bp - 8))) := hsumI
    rw [hx, hseg2]
  have hl2 : dllSeg s2t.mem 0
      (GET_8B s2t.mem (get_root s2t
        (GET_SIZE s2t.mem (HDRP (bp - GET_SIZE s.mem (bp - 8)))))) lI 0 := by
    rw [hrootI]
    exact hlI
  have hsep2 : nodesSep s2t.seg_free_listp
      ((bp - GET_SIZE s.mem (bp - 8)) :: lI) := by
    rw [hseg2]
    exact hsepI
  obtain ⟨hdllI, hframeI, hglobI⟩ :=
    insert_correct fuel s2t (bp - GET_SIZE s.mem (bp - 8)) lI _ _
      hbp0P hl2 hsep2 hndI hfuel rfl rfl
  rw [hrootI] at hdllI hframeI
  have hcls2 := size_class_le9 (GET_SIZE s.mem (HDRP bp)
    + GET_SIZE s.mem (HDRP (bp - GET_SIZE s.mem (bp - 8))))
  clear hcoal hbyte1 hhdrpv hszpv1 hpapv1 hvP hframeP hglobP hglobI hl2 hsep2 hlP hlI hndP hndI hfuel hseg1 hseg2 hs2t
  have hbyteI : ∀ a : Nat, bp - GET_SIZE s.mem (bp - 8) - 4 ≤ a →
      a < bp + GET_SIZE s.mem (HDRP bp) →
      (a < bp - GET_SIZE s.mem (bp - 8)
        ∨ bp - GET_SIZE s.mem (bp - 8) + 16 ≤ a) →
      (insert_to_free_list fuel s2t (bp - GET_SIZE s.mem (bp - 8))).mem a
        = s2t.mem a := by
    intro a ha1 ha2 ha3
    apply hframeI
    · right
      omega
    · intro x hx
      rcases List.mem_cons.1 hx with hxe | hxl
      · subst hxe
        omega
      · have hbx := hsepI.1 x (List.mem_cons_of_mem _ hxl)
        rcases hblkI x hxl with h4 | h4
        · right; omega
        · left; omega
  have hIpv : GET (insert_to_free_list fuel s2t
      (bp - GET_SIZE s.mem (bp - 8))).mem
      (HDRP (bp - GET_SIZE s.mem (bp - 8)))
      = GET_SIZE s.mem (HDRP bp)
        + GET_SIZE s.mem (HDRP (bp - GET_SIZE s.mem (bp - 8)))
        + GET_PREV_ALLOC s.mem (HDRP (bp - GET_SIZE s.mem (bp - 8))) := by
    refine (GET_congr_of_bytes _ _ _ ?_).trans hgPv2
    intro j hj
    exact hbyteI (HDRP (bp - GET_SIZE s.mem (bp - 8)) + j)
      (by show bp - GET_SIZE s.mem (bp - 8) - 4
        ≤ bp - GET_SIZE s.mem (bp - 8) - 4 + j; omega)
      (by show bp - GET_SIZE s.mem (bp - 8) - 4 + j
        < bp + GET_SIZE s.mem (HDRP bp); omega)
      (Or.inl (by show bp - GET_SIZE s.mem (bp - 8) - 4 + j
        < bp - GET_SIZE s.mem (bp - 8); omega))
  have hIft : GET (insert_to_free_list fuel s2t
      (bp - GET_SIZE s.mem (bp - 8))).mem
      (bp - GET_SIZE s.mem (bp - 8) + (GET_SIZE s.mem (HDRP bp)
        + GET_SIZE s.mem (HDRP (bp - GET_SIZE s.mem (bp - 8)))) - 8)
      = GET_SIZE s.mem (HDRP bp)
        + GET_SIZE s.mem (HDRP (bp - GET_SIZE s.mem (bp - 8)))
        + GET_PREV_ALLOC s.mem (HDRP (bp - GET_SIZE s.mem (bp - 8))) := by
    refine (GET_congr_of_bytes _ _ _ ?_).trans hftPv2
    intro j hj
    refine hbyteI (bp - GET_SIZE s.mem (bp - 8) + (GET_SIZE s.mem (HDRP bp)
        + GET_SIZE s.mem (HDRP (bp - GET_SIZE s.mem (bp - 8)))) - 8 + j)
      (by omega) (by omega) (Or.inr (by omega))
  clear hbyteI hframeI hgPv2 hftPv2 hsumI hrootI hsepP hsepI hblkP hblkI hfreeP
  refine ⟨rfl, rfl, hdllP, ?_, ?_, ?_, ?_, ?_⟩
  · show GET (insert_to_free_list fuel s2t
      (bp - GET_SIZE s.mem (bp - 8))).mem
      (HDRP (bp - GET_SIZE s.mem (bp - 8))) / 8 * 8
      = GET_SIZE s.mem (HDRP bp)
        + GET_SIZE s.mem (HDRP (bp - GET_SIZE s.mem (bp - 8)))
    rw [hIpv]
    omega
  · show GET (insert_to_free_list fuel s2t
      (bp - GET_SIZE s.mem (bp - 8))).mem
      (HDRP (bp - GET_SIZE s.mem (bp - 8))) % 2 = 0
    rw [hIpv]
    omega
  · show GET (insert_to_free_list fuel s2t
      (bp - GET_SIZE s.mem (bp - 8))).mem
      (HDRP (bp - GET_SIZE s.mem (bp - 8))) / 2 % 2 * 2
      = GET_PREV_ALLOC s.mem (HDRP (bp - GET_SIZE s.mem (bp - 8)))
    rw [hIpv]
    omega
  · show GET (insert_to_free_list fuel s2t
      (bp - GET_SIZE s.mem (bp - 8))).mem
      (bp - GET_SIZE s.mem (bp - 8) + (GET_SIZE s.mem (HDRP bp)
        + GET_SIZE s.mem (HDRP (bp - GET_SIZE s.mem (bp - 8)))) - 8)
      = GET (insert_to_free_list fuel s2t
        (bp - GET_SIZE s.mem (bp - 8))).mem
        (HDRP (bp - GET_SIZE s.mem (bp - 8)))
    rw [hIft, hIpv]
  · exact ⟨_, hdllI, by simp⟩

set_option maxHeartbeats 800000 in
/-- Case 4 of `coalesce`: both neighbours are free.  Both are removed from
their buckets, all three sizes are summed, the block shifts to the
predecessor and inherits its prev-alloc bit, header and footer are
rewritten, and the merged block is inserted into the bucket of the summed
size. -/
theorem coalesce_case4 (fuel : Nat) (s : Heap) (bp : Nat)
    (Ap Bp An Bn lI : List Nat)
    (h1 : GET_PREV_ALLOC s.mem (HDRP bp) = 0)
    (h2 : GET_ALLOC s.mem (HDRP (bp + GET_SIZE s.mem (HDRP bp))) = 0)
    (hsz8 : GET_SIZE s.mem (HDRP bp) % 8 = 0)
    (hsz24 : 24 ≤ GET_SIZE s.mem (HDRP bp))
    (hps8 : GET_SIZE s.mem (HDRP (bp - GET_SIZE s.mem (bp - 8))) % 8 = 0)
    (hps24 : 24 ≤ GET_SIZE s.mem (HDRP (bp - GET_SIZE s.mem (bp - 8))))
    (hns8 : GET_SIZE s.mem (HDRP (bp + GET_SIZE s.mem (HDRP bp))) % 8 = 0)
    (hns24 : 24 ≤ GET_SIZE s.mem (HDRP (bp + GET_SIZE s.mem (HDRP bp))))
    (hpadj : bp - GET_SIZE s.mem (bp - 8)
      + GET_SIZE s.mem (HDRP (bp - GET_SIZE s.mem (bp - 8))) = bp)
    (hsum : GET_SIZE s.mem (HDRP bp)
      + GET_SIZE s.mem (HDRP (bp - GET_SIZE s.mem (bp - 8)))
      + GET_SIZE s.mem (HDRP (bp + GET_SIZE s.mem (HDRP bp))) < 4294967296)
    (hlP : dllSeg s.mem 0 (GET_8B s.mem (get_root s
        (GET_SIZE s.mem (HDRP (bp - GET_SIZE s.mem (bp - 8))))))
      (Ap ++ (bp - GET_SIZE s.mem (bp - 8)) :: Bp) 0)
    (hfreeP : GET_ALLOC s.mem (HDRP (bp - GET_SIZE s.mem (bp - 8))) = 0)
    (hsepP : nodesSep s.seg_free_listp
      (Ap ++ (bp - GET_SIZE s.mem (bp - 8)) :: Bp))
    (hndP : (Ap ++ (bp - GET_SIZE s.mem (bp - 8)) :: Bp).Nodup)
    (hblkP : ∀ x ∈ Ap ++ Bp, x + 16 ≤ bp - GET_SIZE s.mem (bp - 8) - 4 ∨
      bp + GET_SIZE s.mem (HDRP bp)
        + GET_SIZE s.mem (HDRP (bp + GET_SIZE s.mem (HDRP bp))) ≤ x - 4)
    (hlN : dllSeg (remove_from_free_list s (bp - GET_SIZE s.mem (bp - 8))).mem 0
      (GET_8B (remove_from_free_list s (bp - GET_SIZE s.mem (bp - 8))).mem
        (s.seg_free_listp + size_class
          (GET_SIZE s.mem (HDRP (bp + GET_SIZE s.mem (HDRP bp)))) * 8))
      (An ++ (bp + GET_SIZE s.mem (HDRP bp)) :: Bn) 0)
    (hsepN : nodesSep s.seg_free_listp
      (An ++ (bp + GET_SIZE s.mem (HDRP bp)) :: Bn))
    (hndN : (An ++ (bp + GET_SIZE s.mem (HDRP bp)) :: Bn).Nodup)
    (hblkN : ∀ x ∈ An ++ Bn, x + 16 ≤ bp - GET_SIZE s.mem (bp - 8) - 4 ∨
      bp + GET_SIZE s.mem (HDRP bp)
        + GET_SIZE s.mem (HDRP (bp + GET_SIZE s.mem (HDRP bp))) ≤ x - 4)
    (hlI : dllSeg (coalesceMem4 s bp) 0 (GET_8B (coalesceMem4 s bp)
      (s.seg_free_listp + size_class (GET_SIZE s.mem (HDRP bp)
        + GET_SIZE s.mem (HDRP (bp - GET_SIZE s.mem (bp - 8)))
        + GET_SIZE s.mem (HDRP (bp + GET_SIZE s.mem (HDRP bp)))) * 8)) lI 0)
    (hsepI : nodesSep s.seg_free_listp ((bp - GET_SIZE s.mem (bp - 8)) :: lI))
    (hndI : ((bp - GET_SIZE s.mem (bp - 8)) :: lI).Nodup)
    (hfuel : lI.length < fuel)
    (hblkI : ∀ x ∈ lI, x + 16 ≤ bp - GET_SIZE s.mem (bp - 8) - 4 ∨
      bp + GET_SIZE s.mem (HDRP bp)
        + GET_SIZE s.mem (HDRP (bp + GET_SIZE s.mem (HDRP bp))) ≤ x - 4) :
    (coalesce fuel s bp).1 = bp - GET_SIZE s.mem (bp - 8) ∧
    (coalesce fuel s bp).2 = insert_to_free_list fuel
      { remove_from_free_list
          (remove_from_free_list s (bp - GET_SIZE s.mem (bp - 8)))
          (bp + GET_SIZE s.mem (HDRP bp))
        with mem := coalesceMem4 s bp } (bp - GET_SIZE s.mem (bp - 8)) ∧
    dllSeg (remove_from_free_list s (bp - GET_SIZE s.mem (bp - 8))).mem 0
      (GET_8B (remove_from_free_list s (bp - GET_SIZE s.mem (bp - 8))).mem
        (get_root s (GET_SIZE s.mem (HDRP (bp - GET_SIZE s.mem (bp - 8))))))
      (Ap ++ Bp) 0 ∧
    dllSeg (remove_from_free_list
        (remove_from_free_list s (bp - GET_SIZE s.mem (bp - 8)))
        (bp + GET_SIZE s.mem (HDRP bp))).mem 0
      (GET_8B (remove_from_free_list
          (remove_from_free_list s (bp - GET_SIZE s.mem (bp - 8)))
          (bp + GET_SIZE s.mem (HDRP bp))).mem
        (s.seg_free_listp + size_class
          (GET_SIZE s.mem (HDRP (bp + GET_SIZE s.mem (HDRP bp)))) * 8))
      (An ++ Bn) 0 ∧
    GET_SIZE (coalesce fuel s bp).2.mem (HDRP (bp - GET_SIZE s.mem (bp - 8)))
      = GET_SIZE s.mem (HDRP bp)
        + GET_SIZE s.mem (HDRP (bp - GET_SIZE s.mem (bp - 8)))
        + GET_SIZE s.mem (HDRP (bp + GET_SIZE s.mem (HDRP bp))) ∧
    GET_ALLOC (coalesce fuel s bp).2.mem
      (HDRP (bp - GET_SIZE s.mem (bp - 8))) = 0 ∧
    GET_PREV_ALLOC (coalesce fuel s bp).2.mem
        (HDRP (bp - GET_SIZE s.mem (bp - 8)))
      = GET_PREV_ALLOC s.mem (HDRP (bp - GET_SIZE s.mem (bp - 8))) ∧
    GET (coalesce fuel s bp).2.mem (bp - GET_SIZE s.mem (bp - 8)
        + (GET_SIZE s.mem (HDRP bp)
          + GET_SIZE s.mem (HDRP (bp - GET_SIZE s.mem (bp - 8)))
          + GET_SIZE s.mem (HDRP (bp + GET_SIZE s.mem (HDRP bp)))) - 8)
      = GET (coalesce fuel s bp).2.mem (HDRP (bp - GET_SIZE s.mem (bp - 8))) ∧
    ∃ lf, dllSeg (coalesce fuel s bp).2.mem 0
        (GET_8B (coalesce fuel s bp).2.mem
          (s.seg_free_listp + size_class (GET_SIZE s.mem (HDRP bp)
            + GET_SIZE s.mem (HDRP (bp - GET_SIZE s.mem (bp - 8)))
            + GET_SIZE s.mem (HDRP (bp + GET_SIZE s.mem (HDRP bp)))) * 8))
        lf 0 ∧
      bp - GET_SIZE s.mem (bp - 8) ∈ lf := by
  have hsz24r : 24 ≤ GET_SIZE s.mem (bp - 4) := hsz24
  have hsz8r : GET_SIZE s.mem (bp - 4) % 8 = 0 := hsz8
  have hps24r : 24 ≤ GET_SIZE s.mem (bp - GET_SIZE s.mem (bp - 8) - 4) := hps24
  have hps8r : GET_SIZE s.mem (bp - GET_SIZE s.mem (bp - 8) - 4) % 8 = 0 := hps8
  have hns24r : 24 ≤ GET_SIZE s.mem (bp + GET_SIZE s.mem (bp - 4) - 4) := hns24
  have hns8r : GET_SIZE s.mem (bp + GET_SIZE s.mem (bp - 4) - 4) % 8 = 0 := hns8
  have hpadjr : bp - GET_SIZE s.mem (bp - 8)
      + GET_SIZE s.mem (bp - GET_SIZE s.mem (bp - 8) - 4) = bp := hpadj
  have hsumr : GET_SIZE s.mem (bp - 4)
      + GET_SIZE s.mem (bp - GET_SIZE s.mem (bp - 8) - 4)
      + GET_SIZE s.mem (bp + GET_SIZE s.mem (bp - 4) - 4) < 4294967296 := hsum
  have hpvb := hsepP.1 (bp - GET_SIZE s.mem (bp - 8)) (by simp)
  have hnxb := hsepN.1 (bp + GET_SIZE s.mem (HDRP bp)) (by simp)
  have hbp0P : bp - GET_SIZE s.mem (bp - 8) ≠ 0 := by omega
  obtain ⟨hdllP, hframeP, hglobP⟩ :=
    remove_correct s (bp - GET_SIZE s.mem (bp - 8)) Ap Bp hfreeP hlP hsepP hndP
  have hseg1 : (remove_from_free_list s
      (bp - GET_SIZE s.mem (bp - 8))).seg_free_listp = s.seg_free_listp := by
    rw [hglobP]
  have hclsP := size_class_le9
    (GET_SIZE s.mem (HDRP (bp - GET_SIZE s.mem (bp - 8))))
  have hclsN := size_class_le9
    (GET_SIZE s.mem (HDRP (bp + GET_SIZE s.mem (HDRP bp))))
  have hbyte1 : ∀ a : Nat, bp - GET_SIZE s.mem (bp - 8) - 4 ≤ a →
      a < bp + GET_SIZE s.mem (HDRP bp)
        + GET_SIZE s.mem (HDRP (bp + GET_SIZE s.mem (HDRP bp))) →
      (a < bp - GET_SIZE s.mem (bp - 8)
        ∨ bp - GET_SIZE s.mem (bp - 8) + 16 ≤ a) →
      (remove_from_free_list s (bp - GET_SIZE s.mem (bp - 8))).mem a
        = s.mem a := by
    intro a ha1 ha2 ha3
    apply hframeP
    · right
      show s.seg_free_listp + size_class
        (GET_SIZE s.mem (HDRP (bp - GET_SIZE s.mem (bp - 8)))) * 8 + 8 ≤ a
      omega
    · intro x hx
      rcases mem_middle_split hx with hxe | hxo
      · subst hxe
        omega
      · have hbx := hsepP.1 x hx
        rcases hblkP x hxo with h4 | h4
        · right; omega
        · left; omega
  have hhdrpv1 : GET (remove_from_free_list s
      (bp - GET_SIZE s.mem (bp - 8))).mem
      (HDRP (bp - GET_SIZE s.mem (bp - 8)))
      = GET s.mem (HDRP (bp - GET_SIZE s.mem (bp - 8))) := by
    apply GET_congr_of_bytes
    intro j hj
    apply hbyte1
    · show bp - GET_SIZE s.mem (bp - 8) - 4
        ≤ bp - GET_SIZE s.mem (bp - 8) - 4 + j
      omega
    · show bp - GET_SIZE s.mem (bp - 8) - 4 + j
        < bp + GET_SIZE s.mem (HDRP bp)
          + GET_SIZE s.mem (HDRP (bp + GET_SIZE s.mem (HDRP bp)))
      omega
    · left
      show bp - GET_SIZE s.mem (bp - 8) - 4 + j < bp - GET_SIZE s.mem (bp - 8)
      omega
  have hhdrnx1 : GET (remove_from_free_list s
      (bp - GET_SIZE s.mem (bp - 8))).mem
      (HDRP (bp + GET_SIZE s.mem (HDRP bp)))
      = GET s.mem (HDRP (bp + GET_SIZE s.mem (HDRP bp))) := by
    apply GET_congr_of_bytes
    intro j hj
    apply hbyte1
    · show bp - GET_SIZE s.mem (bp - 8) - 4
        ≤ bp + GET_SIZE s.mem (HDRP bp) - 4 + j
      omega
    · show bp + GET_SIZE s.mem (HDRP bp) - 4 + j
        < bp + GET_SIZE s.mem (HDRP bp)
          + GET_SIZE s.mem (HDRP (bp + GET_SIZE s.mem (HDRP bp)))
      omega
    · right
      show bp - GET_SIZE s.mem (bp - 8) + 16
        ≤ bp + GET_SIZE s.mem (HDRP bp) - 4 + j
      omega
  have hsznx1 : GET_SIZE (remove_from_free_list s
      (bp - GET_SIZE s.mem (bp - 8))).mem
      (HDRP (bp + GET_SIZE s.mem (HDRP bp)))
      = GET_SIZE s.mem (HDRP (bp + GET_SIZE s.mem (HDRP bp))) := by
    show GET (remove_from_free_list s
      (bp - GET_SIZE s.mem (bp - 8))).mem
      (HDRP (bp + GET_SIZE s.mem (HDRP bp))) / 8 * 8
      = GET_SIZE s.mem (HDRP (bp + GET_SIZE s.mem (HDRP bp)))
    rw [hhdrnx1]
    rfl
  have hfreeN : GET_ALLOC (remove_from_free_list s
      (bp - GET_SIZE s.mem (bp - 8))).mem
      (HDRP (bp + GET_SIZE s.mem (HDRP bp))) = 0 := by
    show GET (remove_from_free_list s
      (bp - GET_SIZE s.mem (bp - 8))).mem
      (HDRP (bp + GET_SIZE s.mem (HDRP bp))) % 2 = 0
    rw [hhdrnx1]
    exact h2
  have hrootN1 : get_root (remove_from_free_list s
      (bp - GET_SIZE s.mem (bp - 8)))
      (GET_SIZE (remove_from_free_list s
        (bp - GET_SIZE s.mem (bp - 8))).mem
        (HDRP (bp + GET_SIZE s.mem (HDRP bp))))
      = s.seg_free_listp + size_class
        (GET_SIZE s.mem (HDRP (bp + GET_SIZE s.mem (HDRP bp)))) * 8 := by
    show (remove_from_free_list s
        (bp - GET_SIZE s.mem (bp - 8))).seg_free_listp
      + size_class (GET_SIZE (remove_from_free_list s
          (bp - GET_SIZE s.mem (bp - 8))).mem
          (HDRP (bp + GET_SIZE s.mem (HDRP bp)))) * 8
      = s.seg_free_listp + size_class
        (GET_SIZE s.mem (HDRP (bp + GET_SIZE s.mem (HDRP bp)))) * 8
    rw [hsznx1, hseg1]
  have hsepN1 : nodesSep (remove_from_free_list s
      (bp - GET_SIZE s.mem (bp - 8))).seg_free_listp
      (An ++ (bp + GET_SIZE s.mem (HDRP bp)) :: Bn) := by
    rw [hseg1]
    exact hsepN
  have hlN1 : dllSeg (remove_from_free_list s
      (bp - GET_SIZE s.mem (bp - 8))).mem 0
      (GET_8B (remove_from_free_list s (bp - GET_SIZE s.mem (bp - 8))).mem
        (get_root (remove_from_free_list s (bp - GET_SIZE s.mem (bp - 8)))
          (GET_SIZE (remove_from_free_list s
            (bp - GET_SIZE s.mem (bp - 8))).mem
            (HDRP (bp + GET_SIZE s.mem (HDRP bp))))))
      (An ++ (bp + GET_SIZE s.mem (HDRP bp)) :: Bn) 0 := by
    rw [hrootN1]
    exact hlN
  obtain ⟨hdllN, hframeN, hglobN⟩ :=
    remove_correct (remove_from_free_list s (bp - GET_SIZE s.mem (bp - 8)))
      (bp + GET_SIZE s.mem (HDRP bp)) An Bn hfreeN hlN1 hsepN1 hndN
  rw [hrootN1] at hdllN hframeN
  have hseg2 : (remove_from_free_list
      (remove_from_free_list s (bp - GET_SIZE s.mem (bp - 8)))
      (bp + GET_SIZE s.mem (HDRP bp))).seg_free_listp
      = s.seg_free_listp := by
    rw [hglobN]
    exact hseg1
  have hbyte2 : ∀ a : Nat, bp - GET_SIZE s.mem (bp - 8) - 4 ≤ a →
      a < bp + GET_SIZE s.mem (HDRP bp)
        + GET_SIZE s.mem (HDRP (bp + GET_SIZE s.mem (HDRP bp))) →
      (a < bp + GET_SIZE s.mem (HDRP bp)
        ∨ bp + GET_SIZE s.mem (HDRP bp) + 16 ≤ a) →
      (remove_from_free_list
          (remove_from_free_list s (bp - GET_SIZE s.mem (bp - 8)))
          (bp + GET_SIZE s.mem (HDRP bp))).mem a
        = (remove_from_free_list s (bp - GET_SIZE s.mem (bp - 8))).mem a := by
    intro a ha1 ha2 ha3
    apply hframeN
    · right
      omega
    · intro x hx
      rcases mem_middle_split hx with hxe | hxo
      · subst hxe
        omega
      · have hbx := hsepN.1 x hx
        rcases hblkN x hxo with h4 | h4
        · right; omega
        · left; omega
  have hbyte12 : ∀ a : Nat, bp - GET_SIZE s.mem (bp - 8) - 4 ≤ a →
      a < bp + GET_SIZE s.mem (HDRP bp)
        + GET_SIZE s.mem (HDRP (bp + GET_SIZE s.mem (HDRP bp))) →
      (a < bp - GET_SIZE s.mem (bp - 8)
        ∨ bp - GET_SIZE s.mem (bp - 8) + 16 ≤ a) →
      (a < bp + GET_SIZE s.mem (HDRP bp)
        ∨ bp + GET_SIZE s.mem (HDRP bp) + 16 ≤ a) →
      (remove_from_free_list
          (remove_from_free_list s (bp - GET_SIZE s.mem (bp - 8)))
          (bp + GET_SIZE s.mem (HDRP bp))).mem a = s.mem a :=
    fun a c1 c2 c3 c4 => (hbyte2 a c1 c2 c4).trans (hbyte1 a c1 c2 c3)
  have hhdrpv2 : GET (remove_from_free_list
      (remove_from_free_list s (bp - GET_SIZE s.mem (bp - 8)))
      (bp + GET_SIZE s.mem (HDRP bp))).mem
      (HDRP (bp - GET_SIZE s.mem (bp - 8)))
      = GET s.mem (HDRP (bp - GET_SIZE s.mem (bp - 8))) := by
    apply GET_congr_of_bytes
    intro j hj
    apply hbyte12
    · show bp - GET_SIZE s.mem (bp - 8) - 4
        ≤ bp - GET_SIZE s.mem (bp - 8) - 4 + j
      omega
    · show bp - GET_SIZE s.mem (bp - 8) - 4 + j
        < bp + GET_SIZE s.mem (HDRP bp)
          + GET_SIZE s.mem (HDRP (bp + GET_SIZE s.mem (HDRP bp)))
      omega
    · left
      show bp - GET_SIZE s.mem (bp - 8) - 4 + j < bp - GET_SIZE s.mem (bp - 8)
      omega
    · left
      show bp - GET_SIZE s.mem (bp - 8) - 4 + j
        < bp + GET_SIZE s.mem (HDRP bp)
      omega
  have hszpv2 : GET_SIZE (remove_from_free_list
      (remove_from_free_list s (bp - GET_SIZE s.mem (bp - 8)))
      (bp + GET_SIZE s.mem (HDRP bp))).mem
      (HDRP (bp - GET_SIZE s.mem (bp - 8)))
      = GET_SIZE s.mem (HDRP (bp - GET_SIZE s.mem (bp - 8))) := by
    show GET (remove_from_free_list
      (remove_from_free_list s (bp - GET_SIZE s.mem (bp - 8)))
      (bp + GET_SIZE s.mem (HDRP bp))).mem
      (HDRP (bp - GET_SIZE s.mem (bp - 8))) / 8 * 8
      = GET_SIZE s.mem (HDRP (bp - GET_SIZE s.mem (bp - 8)))
    rw [hhdrpv2]
    rfl
  have hpapv2 : GET_PREV_ALLOC (remove_from_free_list
      (remove_from_free_list s (bp - GET_SIZE s.mem (bp - 8)))
      (bp + GET_SIZE s.mem (HDRP bp))).mem
      (HDRP (bp - GET_SIZE s.mem (bp - 8)))
      = GET_PREV_ALLOC s.mem (HDRP (bp - GET_SIZE s.mem (bp - 8))) := by
    unfold GET_PREV_ALLOC
    rw [hhdrpv2]
  have hhdrnx2 : GET (remove_from_free_list
      (remove_from_free_list s (bp - GET_SIZE s.mem (bp - 8)))
      (bp + GET_SIZE s.mem (HDRP bp))).mem
      (HDRP (bp + GET_SIZE s.mem (HDRP bp)))
      = GET s.mem (HDRP (bp + GET_SIZE s.mem (HDRP bp))) := by
    apply GET_congr_of_bytes
    intro j hj
    apply hbyte12
    · show bp - GET_SIZE s.mem (bp - 8) - 4
        ≤ bp + GET_SIZE s.mem (HDRP bp) - 4 + j
      omega
    · show bp + GET_SIZE s.mem (HDRP bp) - 4 + j
        < bp + GET_SIZE s.mem (HDRP bp)
          + GET_SIZE s.mem (HDRP (bp + GET_SIZE s.mem (HDRP bp)))
      omega
    · right
      show bp - GET_SIZE s.mem (bp - 8) + 16
        ≤ bp + GET_SIZE s.mem (HDRP bp) - 4 + j
      omega
    · left
      show bp + GET_SIZE s.mem (HDRP bp) - 4 + j
        < bp + GET_SIZE s.mem (HDRP bp)
      omega
  have hsznx2 : GET_SIZE (remove_from_free_list
      (remove_from_free_list s (bp - GET_SIZE s.mem (bp - 8)))
      (bp + GET_SIZE s.mem (HDRP bp))).mem
      (HDRP (bp + GET_SIZE s.mem (HDRP bp)))
      = GET_SIZE s.mem (HDRP (bp + GET_SIZE s.mem (HDRP bp))) := by
    show GET (remove_from_free_list
      (remove_from_free_list s (bp - GET_SIZE s.mem (bp - 8)))
      (bp + GET_SIZE s.mem (HDRP bp))).mem
      (HDRP (bp + GET_SIZE s.mem (HDRP bp))) / 8 * 8
      = GET_SIZE s.mem (HDRP (bp + GET_SIZE s.mem (HDRP bp)))
    rw [hhdrnx2]
    rfl
  have hpapc := prevAlloc_cases s.mem (HDRP (bp - GET_SIZE s.mem (bp - 8)))
  have hp8 : (GET_SIZE s.mem (HDRP bp)
      + GET_SIZE s.mem (HDRP (bp - GET_SIZE s.mem (bp - 8)))
      + GET_SIZE s.mem (HDRP (bp + GET_SIZE s.mem (HDRP bp)))) % 8 = 0 := by
    omega
  have hvP : PACK (GET_SIZE s.mem (HDRP bp)
      + GET_SIZE s.mem (HDRP (bp - GET_SIZE s.mem (bp - 8)))
      + GET_SIZE s.mem (HDRP (bp + GET_SIZE s.mem (HDRP bp))))
      (GET_PREV_ALLOC s.mem (HDRP (bp - GET_SIZE s.mem (bp - 8))))
      = GET_SIZE s.mem (HDRP bp)
        + GET_SIZE s.mem (HDRP (bp - GET_SIZE s.mem (bp - 8)))
        + GET_SIZE s.mem (HDRP (bp + GET_SIZE s.mem (HDRP bp)))
        + GET_PREV_ALLOC s.mem (HDRP (bp - GET_SIZE s.mem (bp - 8))) :=
    PACK_eq_add hp8 (by omega)
  have hcoal : coalesce fuel s bp
      = (bp - GET_SIZE s.mem (bp - 8), insert_to_free_list fuel
          { remove_from_free_list
              (remove_from_free_list s (bp - GET_SIZE s.mem (bp - 8)))
              (bp + GET_SIZE s.mem (HDRP bp))
            with mem := coalesceMem4 s bp } (bp - GET_SIZE s.mem (bp - 8))) := by
    simp only [coalesce, NEXT_BLKP_eq, PREV_BLKP_eq]
    rw [if_neg (show ¬ (GET_PREV_ALLOC s.mem (HDRP bp) ≠ 0 ∧
        GET_ALLOC s.mem (HDRP (bp + GET_SIZE s.mem (HDRP bp))) ≠ 0) from
      fun hc => hc.1 h1)]
    rw [if_neg (show ¬ (GET_PREV_ALLOC s.mem (HDRP bp) ≠ 0 ∧
        GET_ALLOC s.mem (HDRP (bp + GET_SIZE s.mem (HDRP bp))) = 0) from
      fun hc => hc.1 h1)]
    rw [if_neg (show ¬ (GET_PREV_ALLOC s.mem (HDRP bp) = 0 ∧
        GET_ALLOC s.mem (HDRP (bp + GET_SIZE s.mem (HDRP bp))) ≠ 0) from
      fun hc => hc.2 h2)]
    rw [hszpv2, hsznx2, hpapv2]
    set m1t := PUT (remove_from_free_list
        (remove_from_free_list s (bp - GET_SIZE s.mem (bp - 8)))
        (bp + GET_SIZE s.mem (HDRP bp))).mem
      (HDRP (bp - GET_SIZE s.mem (bp - 8)))
      (PACK (GET_SIZE s.mem (HDRP bp)
          + GET_SIZE s.mem (HDRP (bp - GET_SIZE s.mem (bp - 8)))
          + GET_SIZE s.mem (HDRP (bp + GET_SIZE s.mem (HDRP bp))))
        (GET_PREV_ALLOC s.mem (HDRP (bp - GET_SIZE s.mem (bp - 8)))))
      with hm1t
    have hgM1 : GET m1t (HDRP (bp - GET_SIZE s.mem (bp - 8)))
        = GET_SIZE s.mem (HDRP bp)
          + GET_SIZE s.mem (HDRP (bp - GET_SIZE s.mem (bp - 8)))
          + GET_SIZE s.mem (HDRP (bp + GET_SIZE s.mem (HDRP bp)))
          + GET_PREV_ALLOC s.mem (HDRP (bp - GET_SIZE s.mem (bp - 8))) := by
      rw [hm1t, GET_PUT, hvP, Nat.mod_eq_of_lt (by omega)]
    have hszM1 : GET_SIZE m1t (HDRP (bp - GET_SIZE s.mem (bp - 8)))
        = GET_SIZE s.mem (HDRP bp)
          + GET_SIZE s.mem (HDRP (bp - GET_SIZE s.mem (bp - 8)))
          + GET_SIZE s.mem (HDRP (bp + GET_SIZE s.mem (HDRP bp))) := by
      show GET m1t (HDRP (bp - GET_SIZE s.mem (bp - 8))) / 8 * 8
        = GET_SIZE s.mem (HDRP bp)
          + GET_SIZE s.mem (HDRP (bp - GET_SIZE s.mem (bp - 8)))
          + GET_SIZE s.mem (HDRP (bp + GET_SIZE s.mem (HDRP bp)))
      rw [hgM1]
      omega
    rw [FTRP_eq, hszM1]
    have hfold : PUT m1t (bp - GET_SIZE s.mem (bp - 8)
        + (GET_SIZE s.mem (HDRP bp)
          + GET_SIZE s.mem (HDRP (bp - GET_SIZE s.mem (bp - 8)))
          + GET_SIZE s.mem (HDRP (bp + GET_SIZE s.mem (HDRP bp)))) - 8)
        (GET m1t (HDRP (bp - GET_SIZE s.mem (bp - 8))))
        = coalesceMem4 s bp := by
      rw [hm1t]
      simp only [coalesceMem4]
    rw [hfold]
  rw [hcoal]
  set s3t := { remove_from_free_list
      (remove_from_free_list s (bp - GET_SIZE s.mem (bp - 8)))
      (bp + GET_SIZE s.mem (HDRP bp))
    with mem := coalesceMem4 s bp } with hs3t
  have hseg3 : s3t.seg_free_listp = s.seg_free_listp := by
    rw [hs3t]
    exact hseg2
  have hgPv4 : GET (coalesceMem4 s bp)
      (HDRP (bp - GET_SIZE s.mem (bp - 8)))
      = GET_SIZE s.mem (HDRP bp)
        + GET_SIZE s.mem (HDRP (bp - GET_SIZE s.mem (bp - 8)))
        + GET_SIZE s.mem (HDRP (bp + GET_SIZE s.mem (HDRP bp)))
        + GET_PREV_ALLOC s.mem (HDRP (bp - GET_SIZE s.mem (bp - 8))) := by
    simp only [coalesceMem4]
    rw [GET_PUT_ne _ _ _ (HDRP (bp - GET_SIZE s.mem (bp - 8)))
      (Or.inl (by
        show HDRP (bp - GET_SIZE s.mem (bp - 8)) + 4
          ≤ bp - GET_SIZE s.mem (bp - 8) + (GET_SIZE s.mem (HDRP bp)
            + GET_SIZE s.mem (HDRP (bp - GET_SIZE s.mem (bp - 8)))
            + GET_SIZE s.mem (HDRP (bp + GET_SIZE s.mem (HDRP bp))))
            - 8
        unfold HDRP
        omega))]
    rw [GET_PUT, hvP, Nat.mod_eq_of_lt (by omega)]
  have hftPv4 : GET (coalesceMem4 s bp)
      (bp - GET_SIZE s.mem (bp - 8) + (GET_SIZE s.mem (HDRP bp)
        + GET_SIZE s.mem (HDRP (bp - GET_SIZE s.mem (bp - 8)))
        + GET_SIZE s.mem (HDRP (bp + GET_SIZE s.mem (HDRP bp)))) - 8)
      = GET_SIZE s.mem (HDRP bp)
        + GET_SIZE s.mem (HDRP (bp - GET_SIZE s.mem (bp - 8)))
        + GET_SIZE s.mem (HDRP (bp + GET_SIZE s.mem (HDRP bp)))
        + GET_PREV_ALLOC s.mem (HDRP (bp - GET_SIZE s.mem (bp - 8))) := by
    simp only [coalesceMem4]
    rw [GET_PUT, GET_PUT, hvP, Nat.mod_eq_of_lt (by omega),
      Nat.mod_eq_of_lt (by omega)]
  have hsumI : GET_SIZE (coalesceMem4 s bp)
      (HDRP (bp - GET_SIZE s.mem (bp - 8)))
      = GET_SIZE s.mem (HDRP bp)
        + GET_SIZE s.mem (HDRP (bp - GET_SIZE s.mem (bp - 8)))
        + GET_SIZE s.mem (HDRP (bp + GET_SIZE s.mem (HDRP bp))) := by
    show GET (coalesceMem4 s bp)
        (HDRP (bp - GET_SIZE s.mem (bp - 8))) / 8 * 8
      = GET_SIZE s.mem (HDRP bp)
        + GET_SIZE s.mem (HDRP (bp - GET_SIZE s.mem (bp - 8)))
        + GET_SIZE s.mem (HDRP (bp + GET_SIZE s.mem (HDRP bp)))
    rw [hgPv4]
    omega
  have hrootI : get_root s3t
      (GET_SIZE s3t.mem (HDRP (bp - GET_SIZE s.mem (bp - 8))))
      = s.seg_free_listp + size_class (GET_SIZE s.mem (HDRP bp)
        + GET_SIZE s.mem (HDRP (bp - GET_SIZE s.mem (bp - 8)))
        + GET_SIZE s.mem (HDRP (bp + GET_SIZE s.mem (HDRP bp)))) * 8 := by
    show s3t.seg_free_listp + size_class
        (GET_SIZE s3t.mem (HDRP (bp - GET_SIZE s.mem (bp - 8)))) * 8
      = s.seg_free_listp + size_class (GET_SIZE s.mem (HDRP bp)
        + GET_SIZE s.mem (HDRP (bp - GET_SIZE s.mem (bp - 8)))
        + GET_SIZE s.mem (HDRP (bp + GET_SIZE s.mem (HDRP bp)))) * 8
    have hx : GET_SIZE s3t.mem (HDRP (bp - GET_SIZE s.mem (bp - 8)))
        = GET_SIZE s.mem (HDRP bp)
          + GET_SIZE s.mem (HDRP (bp - GET_SIZE s.mem (bp - 8)))
          + GET_SIZE s.mem (HDRP (bp + GET_SIZE s.mem (HDRP bp))) := hsumI
    rw [hx, hseg3]
  have hl2 : dllSeg s3t.mem 0
      (GET_8B s3t.mem (get_root s3t
        (GET_SIZE s3t.mem (HDRP (bp - GET_SIZE s.mem (bp - 8)))))) lI 0 := by
    rw [hrootI]
    exact hlI
  have hsep2 : nodesSep s3t.seg_free_listp
      ((bp - GET_SIZE s.mem (bp - 8)) :: lI) := by
    rw [hseg3]
    exact hsepI
  obtain ⟨hdllI, hframeI, hglobI⟩ :=
    insert_correct fuel s3t (bp - GET_SIZE s.mem (bp - 8)) lI _ _
      hbp0P hl2 hsep2 hndI hfuel rfl rfl
  rw [hrootI] at hdllI hframeI
  have hcls3 := size_class_le9 (GET_SIZE s.mem (HDRP bp)
    + GET_SIZE s.mem (HDRP (bp - GET_SIZE s.mem (bp - 8)))
    + GET_SIZE s.mem (HDRP (bp + GET_SIZE s.mem (HDRP bp))))
  clear hcoal hbyte1 hbyte2 hbyte12 hhdrpv1 hhdrnx1 hsznx1 hfreeN hrootN1 hsepN1 hlN1 hhdrpv2 hszpv2 hpapv2 hhdrnx2 hsznx2 hvP hp8 hframeP hglobP hframeN hglobN hglobI hl2 hsep2 hlP hlN hlI hndP hndN hndI hfuel hseg1 hseg2 hseg3 hs3t hsumI hrootI
  have hbyteI : ∀ a : Nat, bp - GET_SIZE s.mem (bp - 8) - 4 ≤ a →
      a < bp + GET_SIZE s.mem (HDRP bp)
        + GET_SIZE s.mem (HDRP (bp + GET_SIZE s.mem (HDRP bp))) →
      (a < bp - GET_SIZE s.mem (bp - 8)
        ∨ bp - GET_SIZE s.mem (bp - 8) + 16 ≤ a) →
      (insert_to_free_list fuel s3t (bp - GET_SIZE s.mem (bp - 8))).mem a
        = s3t.mem a := by
    intro a ha1 ha2 ha3
    apply hframeI
    · right
      omega
    · intro x hx
      rcases List.mem_cons.1 hx with hxe | hxl
      · subst hxe
        omega
      · have hbx := hsepI.1 x (List.mem_cons_of_mem _ hxl)
        rcases hblkI x hxl with h4 | h4
        · right; omega
        · left; omega
  have hIpv : GET (insert_to_free_list fuel s3t
      (bp - GET_SIZE s.mem (bp - 8))).mem
      (HDRP (bp - GET_SIZE s.mem (bp - 8)))
      = GET_SIZE s.mem (HDRP bp)
        + GET_SIZE s.mem (HDRP (bp - GET_SIZE s.mem (bp - 8)))
        + GET_SIZE s.mem (HDRP (bp + GET_SIZE s.mem (HDRP bp)))
        + GET_PREV_ALLOC s.mem (HDRP (bp - GET_SIZE s.mem (bp - 8))) := by
    refine (GET_congr_of_bytes _ _ _ ?_).trans hgPv4
    intro j hj
    exact hbyteI (HDRP (bp - GET_SIZE s.mem (bp - 8)) + j)
      (by show bp - GET_SIZE s.mem (bp - 8) - 4
        ≤ bp - GET_SIZE s.mem (bp - 8) - 4 + j; omega)
      (by show bp - GET_SIZE s.mem (bp - 8) - 4 + j
        < bp + GET_SIZE s.mem (HDRP bp)
          + GET_SIZE s.mem (HDRP (bp + GET_SIZE s.mem (HDRP bp))); omega)
      (Or.inl (by show bp - GET_SIZE s.mem (bp - 8) - 4 + j
        < bp - GET_SIZE s.mem (bp - 8); omega))
  have hIft : GET (insert_to_free_list fuel s3t
      (bp - GET_SIZE s.mem (bp - 8))).mem
      (bp - GET_SIZE s.mem (bp - 8) + (GET_SIZE s.mem (HDRP bp)
        + GET_SIZE s.mem (HDRP (bp - GET_SIZE s.mem (bp - 8)))
        + GET_SIZE s.mem (HDRP (bp + GET_SIZE s.mem (HDRP bp)))) - 8)
      = GET_SIZE s.mem (HDRP bp)
        + GET_SIZE s.mem (HDRP (bp - GET_SIZE s.mem (bp - 8)))
        + GET_SIZE s.mem (HDRP (bp + GET_SIZE s.mem (HDRP bp)))
        + GET_PREV_ALLOC s.mem (HDRP (bp - GET_SIZE s.mem (bp - 8))) := by
    refine (GET_congr_of_bytes _ _ _ ?_).trans hftPv4
    intro j hj
    refine hbyteI (bp - GET_SIZE s.mem (bp - 8)
        + (GET_SIZE s.mem (HDRP bp)
          + GET_SIZE s.mem (HDRP (bp - GET_SIZE s.mem (bp - 8)))
          + GET_SIZE s.mem (HDRP (bp + GET_SIZE s.mem (HDRP bp)))) - 8 + j)
      (by omega) (by omega) (Or.inr (by omega))
  clear hbyteI hframeI hgPv4 hftPv4 hsepP hsepN hsepI hblkP hblkN hblkI hfreeP
  refine ⟨rfl, rfl, hdllP, hdllN, ?_, ?_, ?_, ?_, ?_⟩
  · show GET (insert_to_free_list fuel s3t
      (bp - GET_SIZE s.mem (bp - 8))).mem
      (HDRP (bp - GET_SIZE s.mem (bp - 8))) / 8 * 8
      = GET_SIZE s.mem (HDRP bp)
        + GET_SIZE s.mem (HDRP (bp - GET_SIZE s.mem (bp - 8)))
        + GET_SIZE s.mem (HDRP (bp + GET_SIZE s.mem (HDRP bp)))
    rw [hIpv]
    omega
  · show GET (insert_to_free_list fuel s3t
      (bp - GET_SIZE s.mem (bp - 8))).mem
      (HDRP (bp - GET_SIZE s.mem (bp - 8))) % 2 = 0
    rw [hIpv]
    omega
  · show GET (insert_to_free_list fuel s3t
      (bp - GET_SIZE s.mem (bp - 8))).mem
      (HDRP (bp - GET_SIZE s.mem (bp - 8))) / 2 % 2 * 2
      = GET_PREV_ALLOC s.mem (HDRP (bp - GET_SIZE s.mem (bp - 8)))
    rw [hIpv]
    omega
  · show GET (insert_to_free_list fuel s3t
      (bp - GET_SIZE s.mem (bp - 8))).mem
      (bp - GET_SIZE s.mem (bp - 8) + (GET_SIZE s.mem (HDRP bp)
        + GET_SIZE s.mem (HDRP (bp - GET_SIZE s.mem (bp - 8)))
        + GET_SIZE s.mem (HDRP (bp + GET_SIZE s.mem (HDRP bp)))) - 8)
      = GET (insert_to_free_list fuel s3t
        (bp - GET_SIZE s.mem (bp - 8))).mem
        (HDRP (bp - GET_SIZE s.mem (bp - 8)))
    rw [hIft, hIpv]
  · exact ⟨_, hdllI, by simp⟩

/-- **C6**: for a block `bp` whose header reports free, `coalesce(bp)`
follows the four-case table keyed on `bp`'s prev-alloc bit and the
self-alloc bit of `next_block(bp) = bp + size`.  Case 1 (both neighbours
allocated): no merge, `bp` is inserted into the bucket of its unchanged
size.  Case 2 (only next free): the next block is removed from its bucket,
the two sizes are summed, the header is rewritten and mirrored into the
footer.  Case 3 (only previous free): the previous block is removed, the
block shifts to the predecessor `bp - GET_SIZE(bp-8)` and the merged header
inherits the predecessor's prev-alloc bit.  Case 4 (both free): both
neighbours are removed and all three sizes are summed.  In every merging
case header and footer are rewritten to the summed size, and in every case
the resulting free block is inserted into the bucket determined by its
final size. -/
theorem C6_coalesce (fuel : Nat) (s : Heap) (bp : Nat)
    (hbfree : GET_ALLOC s.mem (HDRP bp) = 0) :
    (∀ lI : List Nat,
      GET_PREV_ALLOC s.mem (HDRP bp) ≠ 0 →
      GET_ALLOC s.mem (HDRP (bp + GET_SIZE s.mem (HDRP bp))) ≠ 0 →
      dllSeg s.mem 0
        (GET_8B s.mem (get_root s (GET_SIZE s.mem (HDRP bp)))) lI 0 →
      nodesSep s.seg_free_listp (bp :: lI) →
      (bp :: lI).Nodup →
      lI.length < fuel →
      (coalesce fuel s bp).1 = bp ∧
      (coalesce fuel s bp).2 = insert_to_free_list fuel s bp ∧
      ∃ lf, dllSeg (coalesce fuel s bp).2.mem 0
          (GET_8B (coalesce fuel s bp).2.mem
            (get_root s (GET_SIZE s.mem (HDRP bp)))) lf 0 ∧ bp ∈ lf) ∧
    (∀ An Bn lI : List Nat,
      GET_PREV_ALLOC s.mem (HDRP bp) ≠ 0 →
      GET_ALLOC s.mem (HDRP (bp + GET_SIZE s.mem (HDRP bp))) = 0 →
      s.seg_free_listp + 96 ≤ bp →
      GET_SIZE s.mem (HDRP bp) % 8 = 0 →
      24 ≤ GET_SIZE s.mem (HDRP bp) →
      GET_SIZE s.mem (HDRP (bp + GET_SIZE s.mem (HDRP bp))) % 8 = 0 →
      24 ≤ GET_SIZE s.mem (HDRP (bp + GET_SIZE s.mem (HDRP bp))) →
      GET_SIZE s.mem (HDRP bp)
        + GET_SIZE s.mem (HDRP (bp + GET_SIZE s.mem (HDRP bp)))
        < 4294967296 →
      dllSeg s.mem 0 (GET_8B s.mem (get_root s
          (GET_SIZE s.mem (HDRP (bp + GET_SIZE s.mem (HDRP bp))))))
        (An ++ (bp + GET_SIZE s.mem (HDRP bp)) :: Bn) 0 →
      nodesSep s.seg_free_listp
        (An ++ (bp + GET_SIZE s.mem (HDRP bp)) :: Bn) →
      (An ++ (bp + GET_SIZE s.mem (HDRP bp)) :: Bn).Nodup →
      (∀ x ∈ An ++ Bn, x + 16 ≤ bp - 4 ∨
        bp + GET_SIZE s.mem (HDRP bp)
          + GET_SIZE s.mem (HDRP (bp + GET_SIZE s.mem (HDRP bp))) ≤ x - 4) →
      dllSeg (coalesceMem2 s bp) 0 (GET_8B (coalesceMem2 s bp)
        (s.seg_free_listp + size_class (GET_SIZE s.mem (HDRP bp)
          + GET_SIZE s.mem (HDRP (bp + GET_SIZE s.mem (HDRP bp)))) * 8))
        lI 0 →
      nodesSep s.seg_free_listp (bp :: lI) →
      (bp :: lI).Nodup →
      lI.length < fuel →
      (∀ x ∈ lI, x + 16 ≤ bp - 4 ∨
        bp + GET_SIZE s.mem (HDRP bp)
          + GET_SIZE s.mem (HDRP (bp + GET_SIZE s.mem (HDRP bp))) ≤ x - 4) →
      (coalesce fuel s bp).1 = bp ∧
      (coalesce fuel s bp).2 = insert_to_free_list fuel
        { remove_from_free_list s (bp + GET_SIZE s.mem (HDRP bp))
          with mem := coalesceMem2 s bp } bp ∧
      dllSeg (remove_from_free_list s (bp + GET_SIZE s.mem (HDRP bp))).mem 0
        (GET_8B (remove_from_free_list s (bp + GET_SIZE s.mem (HDRP bp))).mem
          (get_root s (GET_SIZE s.mem (HDRP (bp + GET_SIZE s.mem (HDRP bp))))))
        (An ++ Bn) 0 ∧
      GET_SIZE (coalesce fuel s bp).2.mem (HDRP bp)
        = GET_SIZE s.mem (HDRP bp)
          + GET_SIZE s.mem (HDRP (bp + GET_SIZE s.mem (HDRP bp))) ∧
      GET_ALLOC (coalesce fuel s bp).2.mem (HDRP bp) = 0 ∧
      GET_PREV_ALLOC (coalesce fuel s bp).2.mem (HDRP bp) = 2 ∧
      GET (coalesce fuel s bp).2.mem (bp + (GET_SIZE s.mem (HDRP bp)
          + GET_SIZE s.mem (HDRP (bp + GET_SIZE s.mem (HDRP bp)))) - 8)
        = GET (coalesce fuel s bp).2.mem (HDRP bp) ∧
      ∃ lf, dllSeg (coalesce fuel s bp).2.mem 0
          (GET_8B (coalesce fuel s bp).2.mem
            (s.seg_free_listp + size_class (GET_SIZE s.mem (HDRP bp)
              + GET_SIZE s.mem (HDRP (bp + GET_SIZE s.mem (HDRP bp)))) * 8))
          lf 0 ∧
        bp ∈ lf) ∧
    (∀ Ap Bp lI : List Nat,
      GET_PREV_ALLOC s.mem (HDRP bp) = 0 →
      GET_ALLOC s.mem (HDRP (bp + GET_SIZE s.mem (HDRP bp))) ≠ 0 →
      GET_SIZE s.mem (HDRP bp) % 8 = 0 →
      24 ≤ GET_SIZE s.mem (HDRP bp) →
      GET_SIZE s.mem (HDRP (bp - GET_SIZE s.mem (bp - 8))) % 8 = 0 →
      24 ≤ GET_SIZE s.mem (HDRP (bp - GET_SIZE s.mem (bp - 8))) →
      bp - GET_SIZE s.mem (bp - 8)
        + GET_SIZE s.mem (HDRP (bp - GET_SIZE s.mem (bp - 8))) = bp →
      GET_SIZE s.mem (HDRP bp)
        + GET_SIZE s.mem (HDRP (bp - GET_SIZE s.mem (bp - 8)))
        < 4294967296 →
      dllSeg s.mem 0 (GET_8B s.mem (get_root s
          (GET_SIZE s.mem (HDRP (bp - GET_SIZE s.mem (bp - 8))))))
        (Ap ++ (bp - GET_SIZE s.mem (bp - 8)) :: Bp) 0 →
      GET_ALLOC s.mem (HDRP (bp - GET_SIZE s.mem (bp - 8))) = 0 →
      nodesSep s.seg_free_listp
        (Ap ++ (bp - GET_SIZE s.mem (bp - 8)) :: Bp) →
      (Ap ++ (bp - GET_SIZE s.mem (bp - 8)) :: Bp).Nodup →
      (∀ x ∈ Ap ++ Bp, x + 16 ≤ bp - GET_SIZE s.mem (bp - 8) - 4 ∨
        bp + GET_SIZE s.mem (HDRP bp) ≤ x - 4) →
      dllSeg (coalesceMem3 s bp) 0 (GET_8B (coalesceMem3 s bp)
        (s.seg_free_listp + size_class (GET_SIZE s.mem (HDRP bp)
          + GET_SIZE s.mem (HDRP (bp - GET_SIZE s.mem (bp - 8)))) * 8))
        lI 0 →
      nodesSep s.seg_free_listp ((bp - GET_SIZE s.mem (bp - 8)) :: lI) →
      ((bp - GET_SIZE s.mem (bp - 8)) :: lI).Nodup →
      lI.length < fuel →
      (∀ x ∈ lI, x + 16 ≤ bp - GET_SIZE s.mem (bp - 8) - 4 ∨
        bp + GET_SIZE s.mem (HDRP bp) ≤ x - 4) →
      (coalesce fuel s bp).1 = bp - GET_SIZE s.mem (bp - 8) ∧
      (coalesce fuel s bp).2 = insert_to_free_list fuel
        { remove_from_free_list s (bp - GET_SIZE s.mem (bp - 8))
          with mem := coalesceMem3 s bp } (bp - GET_SIZE s.mem (bp - 8)) ∧
      dllSeg (remove_from_free_list s (bp - GET_SIZE s.mem (bp - 8))).mem 0
        (GET_8B (remove_from_free_list s (bp - GET_SIZE s.mem (bp - 8))).mem
          (get_root s (GET_SIZE s.mem (HDRP (bp - GET_SIZE s.mem (bp - 8))))))
        (Ap ++ Bp) 0 ∧
      GET_SIZE (coalesce fuel s bp).2.mem
        (HDRP (bp - GET_SIZE s.mem (bp - 8)))
        = GET_SIZE s.mem (HDRP bp)
          + GET_SIZE s.mem (HDRP (bp - GET_SIZE s.mem (bp - 8))) ∧
      GET_ALLOC (coalesce fuel s bp).2.mem
        (HDRP (bp - GET_SIZE s.mem (bp - 8))) = 0 ∧
      GET_PREV_ALLOC (coalesce fuel s bp).2.mem
          (HDRP (bp - GET_SIZE s.mem (bp - 8)))
        = GET_PREV_ALLOC s.mem (HDRP (bp - GET_SIZE s.mem (bp - 8))) ∧
      GET (coalesce fuel s bp).2.mem (bp - GET_SIZE s.mem (bp - 8)
          + (GET_SIZE s.mem (HDRP bp)
            + GET_SIZE s.mem (HDRP (bp - GET_SIZE s.mem (bp - 8)))) - 8)
        = GET (coalesce fuel s bp).2.mem
            (HDRP (bp - GET_SIZE s.mem (bp - 8))) ∧
      ∃ lf, dllSeg (coalesce fuel s bp).2.mem 0
          (GET_8B (coalesce fuel s bp).2.mem
            (s.seg_free_listp + size_class (GET_SIZE s.mem (HDRP bp)
              + GET_SIZE s.mem (HDRP (bp - GET_SIZE s.mem (bp - 8)))) * 8))
          lf 0 ∧
        bp - GET_SIZE s.mem (bp - 8) ∈ lf) ∧
    (∀ Ap Bp An Bn lI : List Nat,
      GET_PREV_ALLOC s.mem (HDRP bp) = 0 →
      GET_ALLOC s.mem (HDRP (bp + GET_SIZE s.mem (HDRP bp))) = 0 →
      GET_SIZE s.mem (HDRP bp) % 8 = 0 →
      24 ≤ GET_SIZE s.mem (HDRP bp) →
      GET_SIZE s.mem (HDRP (bp - GET_SIZE s.mem (bp - 8))) % 8 = 0 →
      24 ≤ GET_SIZE s.mem (HDRP (bp - GET_SIZE s.mem (bp - 8))) →
      GET_SIZE s.mem (HDRP (bp + GET_SIZE s.mem (HDRP bp))) % 8 = 0 →
      24 ≤ GET_SIZE s.mem (HDRP (bp + GET_SIZE s.mem (HDRP bp))) →
      bp - GET_SIZE s.mem (bp - 8)
        + GET_SIZE s.mem (HDRP (bp - GET_SIZE s.mem (bp - 8))) = bp →
      GET_SIZE s.mem (HDRP bp)
        + GET_SIZE s.mem (HDRP (bp - GET_SIZE s.mem (bp - 8)))
        + GET_SIZE s.mem (HDRP (bp + GET_SIZE s.mem (HDRP bp)))
        < 4294967296 →
      dllSeg s.mem 0 (GET_8B s.mem (get_root s
          (GET_SIZE s.mem (HDRP (bp - GET_SIZE s.mem (bp - 8))))))
        (Ap ++ (bp - GET_SIZE s.mem (bp - 8)) :: Bp) 0 →
      GET_ALLOC s.mem (HDRP (bp - GET_SIZE s.mem (bp - 8))) = 0 →
      nodesSep s.seg_free_listp
        (Ap ++ (bp - GET_SIZE s.mem (bp - 8)) :: Bp) →
      (Ap ++ (bp - GET_SIZE s.mem (bp - 8)) :: Bp).Nodup →
      (∀ x ∈ Ap ++ Bp, x + 16 ≤ bp - GET_SIZE s.mem (bp - 8) - 4 ∨
        bp + GET_SIZE s.mem (HDRP bp)
          + GET_SIZE s.mem (HDRP (bp + GET_SIZE s.mem (HDRP bp))) ≤ x - 4) →
      dllSeg (remove_from_free_list s (bp - GET_SIZE s.mem (bp - 8))).mem 0
        (GET_8B (remove_from_free_list s (bp - GET_SIZE s.mem (bp - 8))).mem
          (s.seg_free_listp + size_class
            (GET_SIZE s.mem (HDRP (bp + GET_SIZE s.mem (HDRP bp)))) * 8))
        (An ++ (bp + GET_SIZE s.mem (HDRP bp)) :: Bn) 0 →
      nodesSep s.seg_free_listp
        (An ++ (bp + GET_SIZE s.mem (HDRP bp)) :: Bn) →
      (An ++ (bp + GET_SIZE s.mem (HDRP bp)) :: Bn).Nodup →
      (∀ x ∈ An ++ Bn, x + 16 ≤ bp - GET_SIZE s.mem (bp - 8) - 4 ∨
        bp + GET_SIZE s.mem (HDRP bp)
          + GET_SIZE s.mem (HDRP (bp + GET_SIZE s.mem (HDRP bp))) ≤ x - 4) →
      dllSeg (coalesceMem4 s bp) 0 (GET_8B (coalesceMem4 s bp)
        (s.seg_free_listp + size_class (GET_SIZE s.mem (HDRP bp)
          + GET_SIZE s.mem (HDRP (bp - GET_SIZE s.mem (bp - 8)))
          + GET_SIZE s.mem (HDRP (bp + GET_SIZE s.mem (HDRP bp)))) * 8))
        lI 0 →
      nodesSep s.seg_free_listp ((bp - GET_SIZE s.mem (bp - 8)) :: lI) →
      ((bp - GET_SIZE s.mem (bp - 8)) :: lI).Nodup →
      lI.length < fuel →
      (∀ x ∈ lI, x + 16 ≤ bp - GET_SIZE s.mem (bp - 8) - 4 ∨
        bp + GET_SIZE s.mem (HDRP bp)
          + GET_SIZE s.mem (HDRP (bp + GET_SIZE s.mem (HDRP bp))) ≤ x - 4) →
      (coalesce fuel s bp).1 = bp - GET_SIZE s.mem (bp - 8) ∧
      (coalesce fuel s bp).2 = insert_to_free_list fuel
        { remove_from_free_list
            (remove_from_free_list s (bp - GET_SIZE s.mem (bp - 8)))
            (bp + GET_SIZE s.mem (HDRP bp))
          with mem := coalesceMem4 s bp } (bp - GET_SIZE s.mem (bp - 8)) ∧
      dllSeg (remove_from_free_list s (bp - GET_SIZE s.mem (bp - 8))).mem 0
        (GET_8B (remove_from_free_list s (bp - GET_SIZE s.mem (bp - 8))).mem
          (get_root s (GET_SIZE s.mem (HDRP (bp - GET_SIZE s.mem (bp - 8))))))
        (Ap ++ Bp) 0 ∧
      dllSeg (remove_from_free_list
          (remove_from_free_list s (bp - GET_SIZE s.mem (bp - 8)))
          (bp + GET_SIZE s.mem (HDRP bp))).mem 0
        (GET_8B (remove_from_free_list
            (remove_from_free_list s (bp - GET_SIZE s.mem (bp - 8)))
            (bp + GET_SIZE s.mem (HDRP bp))).mem
          (s.seg_free_listp + size_class
            (GET_SIZE s.mem (HDRP (bp + GET_SIZE s.mem (HDRP bp)))) * 8))
        (An ++ Bn) 0 ∧
      GET_SIZE (coalesce fuel s bp).2.mem
        (HDRP (bp - GET_SIZE s.mem (bp - 8)))
        = GET_SIZE s.mem (HDRP bp)
          + GET_SIZE s.mem (HDRP (bp - GET_SIZE s.mem (bp - 8)))
          + GET_SIZE s.mem (HDRP (bp + GET_SIZE s.mem (HDRP bp))) ∧
      GET_ALLOC (coalesce fuel s bp).2.mem
        (HDRP (bp - GET_SIZE s.mem (bp - 8))) = 0 ∧
      GET_PREV_ALLOC (coalesce fuel s bp).2.mem
          (HDRP (bp - GET_SIZE s.mem (bp - 8)))
        = GET_PREV_ALLOC s.mem (HDRP (bp - GET_SIZE s.mem (bp - 8))) ∧
      GET (coalesce fuel s bp).2.mem (bp - GET_SIZE s.mem (bp - 8)
          + (GET_SIZE s.mem (HDRP bp)
            + GET_SIZE s.mem (HDRP (bp - GET_SIZE s.mem (bp - 8)))
            + GET_SIZE s.mem (HDRP (bp + GET_SIZE s.mem (HDRP bp)))) - 8)
        = GET (coalesce fuel s bp).2.mem
            (HDRP (bp - GET_SIZE s.mem (bp - 8))) ∧
      ∃ lf, dllSeg (coalesce fuel s bp).2.mem 0
          (GET_8B (coalesce fuel s bp).2.mem
            (s.seg_free_listp + size_class (GET_SIZE s.mem (HDRP bp)
              + GET_SIZE s.mem (HDRP (bp - GET_SIZE s.mem (bp - 8)))
              + GET_SIZE s.mem (HDRP (bp + GET_SIZE s.mem (HDRP bp)))) * 8))
          lf 0 ∧
        bp - GET_SIZE s.mem (bp - 8) ∈ lf) := by
  refine ⟨?_, ?_, ?_, ?_⟩
  · intro lI h1 h2 hlI hsepI hndI hfuel
    exact coalesce_case1 fuel s bp lI h1 h2 hlI hsepI hndI hfuel
  · intro An Bn lI h1 h2 hbpb hsz8 hsz24 hns8 hns24 hsum hlN hsepN hndN hblkN
      hlI hsepI hndI hfuel hblkI
    exact coalesce_case2 fuel s bp An Bn lI h1 h2 hbpb hsz8 hsz24 hns8 hns24
      hsum hlN hsepN hndN hblkN hlI hsepI hndI hfuel hblkI
  · intro Ap Bp lI h1 h2 hsz8 hsz24 hps8 hps24 hpadj hsum hlP hfreeP hsepP
      hndP hblkP hlI hsepI hndI hfuel hblkI
    exact coalesce_case3 fuel s bp Ap Bp lI h1 h2 hsz8 hsz24 hps8 hps24 hpadj
      hsum hlP hfreeP hsepP hndP hblkP hlI hsepI hndI hfuel hblkI
  · intro Ap Bp An Bn lI h1 h2 hsz8 hsz24 hps8 hps24 hns8 hns24 hpadj hsum
      hlP hfreeP hsepP hndP hblkP hlN hsepN hndN hblkN hlI hsepI hndI hfuel
      hblkI
    exact coalesce_case4 fuel s bp Ap Bp An Bn lI h1 h2 hsz8 hsz24 hps8 hps24
      hns8 hns24 hpadj hsum hlP hfreeP hsepP hndP hblkP hlN hsepN hndN hblkN
      hlI hsepI hndI hfuel hblkI

/-- C6 witness: in the concrete heap `wsC6` (the state in which `free(1120)`
has reset bucket 7 and calls `coalesce`), both neighbours of the free block
`1120` are allocated, so case 1 applies: the block pointer is returned
unchanged and the state is exactly an insertion of `1120`. -/
theorem C6_coalesce_witness :
    (coalesce 1 wsC6 1120).1 = 1120 ∧
    (coalesce 1 wsC6 1120).2 = insert_to_free_list 1 wsC6 1120 := by
  have h := C6_coalesce 1 wsC6 1120 (by decide)
  have h1 := h.1 [] (by decide) (by decide)
    (dllSeg_nil_intro _ _ _ (by decide))
    ⟨by decide, by decide⟩ (by decide) (by decide)
  exact ⟨h1.1, h1.2.1⟩

end MM
